import Mathlib

/-!
Verification of the BabyBear base field, its degree-7 extension, the septic
curve and the event-to-curve-point encoders from
`crates/core/machine/include/bb31_t.hpp`,
`crates/core/machine/include/bb31_septic_extension_t.hpp`,
`crates/core/machine/include/memory_local.hpp` and
`crates/core/machine/include/syscall.hpp` (host/CPU branch).

Layer 0 mirrors the C++ at the bit level: a `bb31_t` is its stored 32-bit
Montgomery residue, embedded as a `Nat`, and every operation follows the
source line by line (with the C loops of constant trip count unrolled, and
`uint32_t`/`uint64_t` wraparound made explicit as `% 2^32` / `% 2^64`).
Layer 1 interprets a stored value `v` as the field element `v * 2⁻³² ∈ ZMod P`
and restates each operation there; layer 2 maps the 7-tuples into
`AdjoinRoot (X^7 - 2X - 5)` where the actual field theory happens.
-/

namespace SP1

/-- The BabyBear prime `p = 2^31 - 2^27 + 1` (`bb31_t::MOD`). -/
def P : ℕ := 2013265921

/-- `bb31_t::MONTY_MU`, the inverse of `P` modulo `2^32`. -/
def MU : ℕ := 0x88000001

/-- `bb31_t::monty_reduce` (host branch): Montgomery reduction of a 64-bit
value.  `x_sub_u` is computed with `uint64_t` wraparound, the high word is
truncated to `uint32_t`, and the final sum is again a `uint32_t`. -/
def montyReduce (x : ℕ) : ℕ :=
  let t := x * MU % 2 ^ 32
  let u := t * P
  let x_sub_u := (x + 2 ^ 64 - u) % 2 ^ 64
  let x_sub_u_hi := x_sub_u / 2 ^ 32 % 2 ^ 32
  let corr := if x < u then P else 0
  (x_sub_u_hi + corr) % 2 ^ 32

/-- `bb31_t::to_monty`. -/
def toMonty (x : ℕ) : ℕ := x * 2 ^ 32 % P

/-- `bb31_t::zero()` (stored value). -/
def bbZero : ℕ := 0

/-- `bb31_t::one()` (stored value `ONE = 0x0ffffffe`). -/
def bbOne : ℕ := 0x0ffffffe

/-- `bb31_t::two()` (stored value `to_monty(2)`). -/
def bbTwo : ℕ := toMonty 2

/-- `bb31_t::operator+=` (host branch): `uint32_t` add followed by a single
conditional correction. -/
def bbAdd (a b : ℕ) : ℕ :=
  let v := (a + b) % 2 ^ 32
  if P ≤ v then v - P else v

/-- `bb31_t::operator-=` (host branch). -/
def bbSub (a b : ℕ) : ℕ :=
  if a < b then a + P - b else a - b

/-- `bb31_t::operator*=` (host branch): 64-bit product then `monty_reduce`. -/
def bbMul (a b : ℕ) : ℕ := montyReduce (a * b % 2 ^ 64)

/-- `bb31_t::as_canonical_u32` = `from_monty(val)` = `monty_reduce(val)`. -/
def asCanonical (v : ℕ) : ℕ := montyReduce v

/-- Well-formedness of a stored value: the source keeps every residue in
`[0, P)`. -/
def bbWf (v : ℕ) : Prop := v < P

instance (v : ℕ) : Decidable (bbWf v) := by unfold bbWf; infer_instance

/-! ### Layer 1: the value a stored residue denotes -/

/-- The field value denoted by a stored Montgomery residue: `v * 2⁻³²`.
`943718400` is the inverse of `2^32` modulo `P`. -/
def RINV : ℕ := 943718400

abbrev K : Type := ZMod P

/-- Interpretation of a stored residue as a field element. -/
def toZ (v : ℕ) : K := (v : K) * (RINV : K)

lemma P_pos : 0 < P := by decide

lemma zmod_natCast_eq_of_mod_eq {a b : ℕ} (h : a % P = b % P) :
    ((a : K) = (b : K)) := by
  have ha : ((a % P : ℕ) : K) = (a : K) := ZMod.natCast_mod a P
  have hb : ((b % P : ℕ) : K) = (b : K) := ZMod.natCast_mod b P
  rw [← ha, ← hb, h]

lemma R_mul_RINV : ((2 ^ 32 : ℕ) : K) * (RINV : K) = 1 := by
  have : (((2 ^ 32 * RINV : ℕ)) : K) = ((1 : ℕ) : K) := by
    apply zmod_natCast_eq_of_mod_eq
    decide
  push_cast at this
  simpa using this

lemma P_cast_zero : ((P : ℕ) : K) = 0 := by
  exact_mod_cast ZMod.natCast_self P

lemma pow32_eq : (2 : ℕ) ^ 32 = 4294967296 := by norm_num

lemma pow64_eq : (2 : ℕ) ^ 64 = 18446744073709551616 := by norm_num

/-- Arithmetic core of the Montgomery reduction proof, with every constant
spelled out as a literal. -/
lemma montyAux {x u : ℕ} (hx : x < 2013265921 * 4294967296)
    (humod : u % 2013265921 = 0) (hult : u < 4294967296 * 2013265921)
    (hxu : u % 4294967296 = x % 4294967296) :
    ((x + 18446744073709551616 - u) % 18446744073709551616 / 4294967296 % 4294967296 +
      if x < u then 2013265921 else 0) % 4294967296 < 2013265921 ∧
    ((x + 18446744073709551616 - u) % 18446744073709551616 / 4294967296 % 4294967296 +
      if x < u then 2013265921 else 0) % 4294967296 * 4294967296 % 2013265921
      = x % 2013265921 := by
  have hA : (x + 18446744073709551616 - u) % 4294967296 = 0 := by omega
  obtain ⟨c, hcD⟩ : (4294967296 : ℕ) ∣ (x + 18446744073709551616 - u) :=
    Nat.dvd_of_mod_eq_zero hA
  by_cases hc : x < u
  · rw [if_pos hc]
    have h1 : (x + 18446744073709551616 - u) % 18446744073709551616
        = x + 18446744073709551616 - u := Nat.mod_eq_of_lt (by omega)
    rw [h1, hcD, Nat.mul_div_cancel_left _ (by norm_num : (0:ℕ) < 4294967296)]
    have hclt : c < 4294967296 := by omega
    have hcgt : 4294967296 - 2013265921 < c := by omega
    rw [Nat.mod_eq_of_lt hclt]
    have hmod2 : (c + 2013265921) % 4294967296 = c + 2013265921 - 4294967296 := by
      omega
    rw [hmod2]
    refine ⟨by omega, ?_⟩
    have hexp : (c + 2013265921 - 4294967296) * 4294967296 + u
        = x + 2013265921 * 4294967296 := by omega
    omega
  · rw [if_neg hc]
    have h1 : (x + 18446744073709551616 - u) % 18446744073709551616 = x - u := by
      have h2 : x + 18446744073709551616 - u = (x - u) + 18446744073709551616 := by
        omega
      rw [h2, Nat.add_mod_right]
      exact Nat.mod_eq_of_lt (by omega)
    have h3 : x - u = 4294967296 * (c - 4294967296) := by omega
    rw [h1, h3, Nat.mul_div_cancel_left _ (by norm_num : (0:ℕ) < 4294967296)]
    have hclt : c - 4294967296 < 2013265921 := by omega
    rw [Nat.mod_eq_of_lt (by omega : c - 4294967296 < 4294967296)]
    rw [Nat.add_zero, Nat.mod_eq_of_lt (by omega : c - 4294967296 < 4294967296)]
    refine ⟨hclt, ?_⟩
    have hexp : (c - 4294967296) * 4294967296 = x - u := by omega
    rw [hexp]
    omega

/-- Montgomery reduction is correct at the level of `ℕ`: for `x < P * 2^32`
the result is a well-formed residue with `montyReduce x * 2^32 ≡ x (mod P)`. -/
theorem montyReduce_correct {x : ℕ} (hx : x < P * 2 ^ 32) :
    montyReduce x < P ∧ montyReduce x * 2 ^ 32 % P = x % P := by
  have hxu : x * 2281701377 % 4294967296 * 2013265921 % 4294967296
      = x % 4294967296 := by
    rw [Nat.mod_mul_mod, mul_assoc, Nat.mul_mod,
      (by norm_num : 2281701377 * 2013265921 % 4294967296 = 1), mul_one,
      Nat.mod_mod_of_dvd _ (dvd_refl _)]
  have hx' : x < 2013265921 * 4294967296 := by
    simp only [P, pow32_eq] at hx
    exact hx
  unfold montyReduce
  simp only [P, MU, pow32_eq, pow64_eq]
  exact montyAux hx' (Nat.mul_mod_left _ 2013265921)
    ((Nat.mul_lt_mul_right (by norm_num : (0:ℕ) < 2013265921)).mpr
      (Nat.mod_lt _ (by norm_num))) hxu

/-- The `ZMod`-level reading of `montyReduce_correct`. -/
theorem montyReduce_cast {x : ℕ} (hx : x < P * 2 ^ 32) :
    ((montyReduce x : ℕ) : K) = (x : K) * (RINV : K) := by
  obtain ⟨_, hmod⟩ := montyReduce_correct hx
  have h1 : ((montyReduce x * 2 ^ 32 : ℕ) : K) = ((x : ℕ) : K) :=
    zmod_natCast_eq_of_mod_eq hmod
  rw [Nat.cast_mul] at h1
  have h2 := congrArg (· * (RINV : K)) h1
  simp only at h2
  rw [mul_assoc, R_mul_RINV, mul_one] at h2
  exact h2

instance : NeZero P := ⟨by decide⟩

lemma toZ_mul_R (v : ℕ) : toZ v * ((2 ^ 32 : ℕ) : K) = (v : K) := by
  unfold toZ
  rw [mul_assoc, mul_comm ((RINV : ℕ) : K), R_mul_RINV, mul_one]

lemma toZ_inj {a b : ℕ} (ha : a < P) (hb : b < P) (h : toZ a = toZ b) : a = b := by
  have h2 := congrArg (· * ((2 ^ 32 : ℕ) : K)) h
  simp only at h2
  rw [toZ_mul_R, toZ_mul_R] at h2
  have := congrArg ZMod.val h2
  rwa [ZMod.val_cast_of_lt ha, ZMod.val_cast_of_lt hb] at this

lemma toZ_zero : toZ 0 = 0 := by simp [toZ]

lemma toZ_eq_zero_iff {v : ℕ} (hv : v < P) : toZ v = 0 ↔ v = 0 := by
  constructor
  · intro h
    exact toZ_inj hv (by decide) (by simpa [toZ_zero] using h)
  · intro h
    simp [h, toZ_zero]

lemma bbAdd_wf {a b : ℕ} (ha : a < P) (hb : b < P) : bbAdd a b < P := by
  unfold bbAdd
  simp only
  have hm : (a + b) % 2 ^ 32 = a + b := by
    apply Nat.mod_eq_of_lt
    simp only [P, pow32_eq] at *
    omega
  rw [hm]
  split_ifs <;> (simp only [P] at *) <;> omega

lemma toZ_bbAdd {a b : ℕ} (ha : a < P) (hb : b < P) :
    toZ (bbAdd a b) = toZ a + toZ b := by
  unfold bbAdd toZ
  have hab : (a + b) % 2 ^ 32 = a + b := by
    apply Nat.mod_eq_of_lt
    simp only [P, pow32_eq] at *
    omega
  rw [hab]
  by_cases hc : P ≤ a + b
  · rw [if_pos hc]
    have : ((a + b - P : ℕ) : K) = ((a + b : ℕ) : K) := by
      rw [Nat.cast_sub hc, P_cast_zero, sub_zero]
    rw [this]
    push_cast
    ring
  · rw [if_neg hc]
    push_cast
    ring

lemma bbSub_wf {a b : ℕ} (ha : a < P) (hb : b < P) : bbSub a b < P := by
  unfold bbSub
  split_ifs <;> (simp only [P] at *) <;> omega

lemma toZ_bbSub {a b : ℕ} (ha : a < P) (hb : b < P) :
    toZ (bbSub a b) = toZ a - toZ b := by
  unfold bbSub toZ
  by_cases hc : a < b
  · rw [if_pos hc]
    have : ((a + P - b : ℕ) : K) = ((a : ℕ) : K) - ((b : ℕ) : K) := by
      rw [Nat.cast_sub (by omega : b ≤ a + P), Nat.cast_add, P_cast_zero, add_zero]
    rw [this]
    ring
  · rw [if_neg hc]
    have : ((a - b : ℕ) : K) = ((a : ℕ) : K) - ((b : ℕ) : K) :=
      Nat.cast_sub (by omega)
    rw [this]
    ring

lemma bbMul_wf {a b : ℕ} (ha : a < P) (hb : b < P) : bbMul a b < P := by
  unfold bbMul
  have h64 : a * b % 2 ^ 64 = a * b := by
    apply Nat.mod_eq_of_lt
    have : a * b < P * P := by
      apply Nat.mul_lt_mul_of_lt_of_le ha (le_of_lt hb)
      exact P_pos
    calc a * b < P * P := this
    _ < 2 ^ 64 := by decide
  rw [h64]
  refine (montyReduce_correct ?_).1
  calc a * b < P * P := by
        apply Nat.mul_lt_mul_of_lt_of_le ha (le_of_lt hb)
        exact P_pos
  _ ≤ P * 2 ^ 32 := by
        apply Nat.mul_le_mul_left
        decide

lemma toZ_bbMul {a b : ℕ} (ha : a < P) (hb : b < P) :
    toZ (bbMul a b) = toZ a * toZ b := by
  unfold bbMul toZ
  have h64 : a * b % 2 ^ 64 = a * b := by
    apply Nat.mod_eq_of_lt
    have : a * b < P * P := by
      apply Nat.mul_lt_mul_of_lt_of_le ha (le_of_lt hb)
      exact P_pos
    calc a * b < P * P := this
    _ < 2 ^ 64 := by decide
  rw [h64]
  rw [montyReduce_cast (by
    calc a * b < P * P := by
          apply Nat.mul_lt_mul_of_lt_of_le ha (le_of_lt hb)
          exact P_pos
    _ ≤ P * 2 ^ 32 := by
          apply Nat.mul_le_mul_left
          decide)]
  push_cast
  ring

lemma toMonty_lt (x : ℕ) : toMonty x < P := Nat.mod_lt _ P_pos

lemma toZ_toMonty (x : ℕ) : toZ (toMonty x) = (x : K) := by
  unfold toMonty toZ
  rw [ZMod.natCast_mod, Nat.cast_mul, mul_assoc, R_mul_RINV, mul_one]

lemma asCanonical_lt {v : ℕ} (hv : v < P) : asCanonical v < P := by
  unfold asCanonical
  refine (montyReduce_correct ?_).1
  calc v < P := hv
  _ ≤ P * 2 ^ 32 := Nat.le_mul_of_pos_right P (by norm_num)

lemma asCanonical_cast {v : ℕ} (hv : v < P) :
    ((asCanonical v : ℕ) : K) = toZ v := by
  unfold asCanonical toZ
  exact montyReduce_cast (by
    calc v < P := hv
    _ ≤ P * 2 ^ 32 := Nat.le_mul_of_pos_right P (by norm_num))

lemma asCanonical_val {v : ℕ} (hv : v < P) : asCanonical v = (toZ v).val := by
  have h := asCanonical_cast hv
  have := congrArg ZMod.val h
  rwa [ZMod.val_cast_of_lt (asCanonical_lt hv)] at this

lemma bbOne_wf : bbOne < P := by decide

lemma toZ_bbOne : toZ bbOne = 1 := by
  have h : bbOne = toMonty 1 := by decide
  rw [h, toZ_toMonty, Nat.cast_one]

lemma bbTwo_wf : bbTwo < P := by decide

lemma toZ_bbTwo : toZ bbTwo = 2 := by
  have h : bbTwo = toMonty 2 := rfl
  rw [h, toZ_toMonty, Nat.cast_two]

/-! ### A fast modular exponentiation used for concrete certificates -/

/-- Binary modular exponentiation on canonical values (a computation device
for certificates, not part of the source model). -/
def powMod (a : ℕ) : ℕ → ℕ → ℕ
  | 0, _ => 1
  | fuel + 1, e =>
    if e = 0 then 1
    else
      let r := powMod (a * a % P) fuel (e / 2)
      if e % 2 = 1 then a * r % P else r

lemma powMod_cast (a : ℕ) : ∀ fuel e, e < 2 ^ fuel →
    ((powMod a fuel e : ℕ) : K) = (a : K) ^ e := by
  intro fuel
  induction fuel generalizing a with
  | zero =>
    intro e he
    have h0 : e = 0 := by omega
    subst h0
    simp [powMod]
  | succ n ih =>
    intro e he
    rw [powMod]
    by_cases h0 : e = 0
    · simp [h0]
    · rw [if_neg h0]
      simp only
      have hdiv : e / 2 < 2 ^ n := by
        have h2 : (2:ℕ) ^ (n + 1) = 2 ^ n * 2 := by ring
        rw [h2] at he
        omega
      have hr := ih (a * a % P) (e / 2) hdiv
      rw [ZMod.natCast_mod, Nat.cast_mul] at hr
      by_cases hodd : e % 2 = 1
      · rw [if_pos hodd, ZMod.natCast_mod, Nat.cast_mul, hr]
        have hpow : ((a : K) * (a : K)) ^ (e / 2) = (a : K) ^ (2 * (e / 2)) := by
          rw [pow_mul]
          ring_nf
        rw [hpow]
        have hstep : (a : K) * (a : K) ^ (2 * (e / 2)) = (a : K) ^ (2 * (e / 2) + 1) := by
          rw [pow_succ]
          ring
        rw [hstep]
        congr 1
        omega
      · rw [if_neg hodd, hr]
        have hpow : ((a : K) * (a : K)) ^ (e / 2) = (a : K) ^ (2 * (e / 2)) := by
          rw [pow_mul]
          ring_nf
        rw [hpow]
        congr 1
        omega

lemma natCast_inj_lt {a b : ℕ} (ha : a < P) (hb : b < P) (h : (a : K) = (b : K)) :
    a = b := by
  have := congrArg ZMod.val h
  rwa [ZMod.val_cast_of_lt ha, ZMod.val_cast_of_lt hb] at this

lemma pow31_of_powMod {e v : ℕ} (he : e < 2 ^ 31) (hval : powMod 31 31 e = v) :
    ((31 : ℕ) : K) ^ e = (v : K) := by
  rw [← hval, powMod_cast 31 31 e he]

/-- `P` is prime, by the Lucas primality criterion with witness 31
(a primitive root: the factorization `P - 1 = 2^27 * 3 * 5` is complete). -/
theorem P_prime : Nat.Prime P := by
  apply lucas_primality P ((31 : ℕ) : K)
  · have h := @pow31_of_powMod (P - 1) 1 (by decide)
      (by decide : powMod 31 31 (P - 1) = 1)
    rw [h]
    exact Nat.cast_one
  · intro q hq hdvd
    have hfac : P - 1 = 2 ^ 27 * 3 * 5 := by decide
    rw [hfac] at hdvd
    have hq235 : q = 2 ∨ q = 3 ∨ q = 5 := by
      rcases (Nat.Prime.dvd_mul hq).mp hdvd with h35 | h5
      · rcases (Nat.Prime.dvd_mul hq).mp h35 with h2 | h3
        · exact Or.inl ((Nat.prime_dvd_prime_iff_eq hq (by norm_num)).mp
            (Nat.Prime.dvd_of_dvd_pow hq h2))
        · exact Or.inr (Or.inl ((Nat.prime_dvd_prime_iff_eq hq (by norm_num)).mp h3))
      · exact Or.inr (Or.inr ((Nat.prime_dvd_prime_iff_eq hq (by norm_num)).mp h5))
    rw [hfac]
    rcases hq235 with h | h | h <;> subst h <;> intro hcontra
    · have hexp : 2 ^ 27 * 3 * 5 / 2 = 1006632960 := by decide
      rw [hexp, pow31_of_powMod (by decide) (by decide : powMod 31 31 1006632960 = 2013265920),
        ← Nat.cast_one] at hcontra
      exact absurd (natCast_inj_lt (by decide) (by decide) hcontra) (by decide)
    · have hexp : 2 ^ 27 * 3 * 5 / 3 = 671088640 := by decide
      rw [hexp, pow31_of_powMod (by decide) (by decide : powMod 31 31 671088640 = 1314723123),
        ← Nat.cast_one] at hcontra
      exact absurd (natCast_inj_lt (by decide) (by decide) hcontra) (by decide)
    · have hexp : 2 ^ 27 * 3 * 5 / 5 = 402653184 := by decide
      rw [hexp, pow31_of_powMod (by decide) (by decide : powMod 31 31 402653184 = 645581151),
        ← Nat.cast_one] at hcontra
      exact absurd (natCast_inj_lt (by decide) (by decide) hcontra) (by decide)

instance factPrimeP : Fact (Nat.Prime P) := ⟨P_prime⟩

/-! ### The degree-7 extension: bit-level layer (`bb31_septic_extension_t`) -/

/-- The `value[7]` coefficient array of a septic extension element. -/
structure Sep7 (A : Type) where
  c0 : A
  c1 : A
  c2 : A
  c3 : A
  c4 : A
  c5 : A
  c6 : A
deriving DecidableEq

/-- `bb31_septic_extension_t::zero()`. -/
def zeroN : Sep7 ℕ := ⟨0, 0, 0, 0, 0, 0, 0⟩

/-- `bb31_septic_extension_t::one()`. -/
def oneN : Sep7 ℕ := ⟨bbOne, 0, 0, 0, 0, 0, 0⟩

/-- `bb31_septic_extension_t::operator+=(bb31_t)`: add into coefficient 0. -/
def addBaseN (a : Sep7 ℕ) (b : ℕ) : Sep7 ℕ :=
  ⟨bbAdd a.c0 b, a.c1, a.c2, a.c3, a.c4, a.c5, a.c6⟩

/-- `bb31_septic_extension_t::operator+=` (coefficient-wise). -/
def addN (a b : Sep7 ℕ) : Sep7 ℕ :=
  ⟨bbAdd a.c0 b.c0, bbAdd a.c1 b.c1, bbAdd a.c2 b.c2, bbAdd a.c3 b.c3,
   bbAdd a.c4 b.c4, bbAdd a.c5 b.c5, bbAdd a.c6 b.c6⟩

/-- `bb31_septic_extension_t::operator-=` (coefficient-wise). -/
def subN (a b : Sep7 ℕ) : Sep7 ℕ :=
  ⟨bbSub a.c0 b.c0, bbSub a.c1 b.c1, bbSub a.c2 b.c2, bbSub a.c3 b.c3,
   bbSub a.c4 b.c4, bbSub a.c5 b.c5, bbSub a.c6 b.c6⟩

/-- `bb31_septic_extension_t::operator*=(bb31_t)` (scale every coefficient). -/
def mulBaseN (a : Sep7 ℕ) (b : ℕ) : Sep7 ℕ :=
  ⟨bbMul a.c0 b, bbMul a.c1 b, bbMul a.c2 b, bbMul a.c3 b,
   bbMul a.c4 b, bbMul a.c5 b, bbMul a.c6 b⟩

/-- `bb31_septic_extension_t::operator*=`: the length-13 convolution followed
by the fold `res[i-7] += res[i]*5; res[i-6] += res[i]*2` for `i = 7..12`,
with the constant-bound C loops unrolled in their execution order. -/
def mulN (a b : Sep7 ℕ) : Sep7 ℕ :=
  let r0 := (bbMul a.c0 b.c0)
  let r1 := bbAdd (bbMul a.c0 b.c1) (bbMul a.c1 b.c0)
  let r2 := bbAdd (bbAdd (bbMul a.c0 b.c2) (bbMul a.c1 b.c1)) (bbMul a.c2 b.c0)
  let r3 := bbAdd (bbAdd (bbAdd (bbMul a.c0 b.c3) (bbMul a.c1 b.c2)) (bbMul a.c2 b.c1)) (bbMul a.c3 b.c0)
  let r4 := bbAdd (bbAdd (bbAdd (bbAdd (bbMul a.c0 b.c4) (bbMul a.c1 b.c3)) (bbMul a.c2 b.c2)) (bbMul a.c3 b.c1)) (bbMul a.c4 b.c0)
  let r5 := bbAdd (bbAdd (bbAdd (bbAdd (bbAdd (bbMul a.c0 b.c5) (bbMul a.c1 b.c4)) (bbMul a.c2 b.c3)) (bbMul a.c3 b.c2)) (bbMul a.c4 b.c1)) (bbMul a.c5 b.c0)
  let r6 := bbAdd (bbAdd (bbAdd (bbAdd (bbAdd (bbAdd (bbMul a.c0 b.c6) (bbMul a.c1 b.c5)) (bbMul a.c2 b.c4)) (bbMul a.c3 b.c3)) (bbMul a.c4 b.c2)) (bbMul a.c5 b.c1)) (bbMul a.c6 b.c0)
  let r7 := bbAdd (bbAdd (bbAdd (bbAdd (bbAdd (bbMul a.c1 b.c6) (bbMul a.c2 b.c5)) (bbMul a.c3 b.c4)) (bbMul a.c4 b.c3)) (bbMul a.c5 b.c2)) (bbMul a.c6 b.c1)
  let r8 := bbAdd (bbAdd (bbAdd (bbAdd (bbMul a.c2 b.c6) (bbMul a.c3 b.c5)) (bbMul a.c4 b.c4)) (bbMul a.c5 b.c3)) (bbMul a.c6 b.c2)
  let r9 := bbAdd (bbAdd (bbAdd (bbMul a.c3 b.c6) (bbMul a.c4 b.c5)) (bbMul a.c5 b.c4)) (bbMul a.c6 b.c3)
  let r10 := bbAdd (bbAdd (bbMul a.c4 b.c6) (bbMul a.c5 b.c5)) (bbMul a.c6 b.c4)
  let r11 := bbAdd (bbMul a.c5 b.c6) (bbMul a.c6 b.c5)
  let r12 := (bbMul a.c6 b.c6)
  ⟨bbAdd r0 (bbMul r7 (toMonty 5)),
   bbAdd (bbAdd r1 (bbMul r7 (toMonty 2))) (bbMul r8 (toMonty 5)),
   bbAdd (bbAdd r2 (bbMul r8 (toMonty 2))) (bbMul r9 (toMonty 5)),
   bbAdd (bbAdd r3 (bbMul r9 (toMonty 2))) (bbMul r10 (toMonty 5)),
   bbAdd (bbAdd r4 (bbMul r10 (toMonty 2))) (bbMul r11 (toMonty 5)),
   bbAdd (bbAdd r5 (bbMul r11 (toMonty 2))) (bbMul r12 (toMonty 5)),
   bbAdd r6 (bbMul r12 (toMonty 2))⟩

/-- `bb31_septic_extension_t::frobenius`: the fixed 7×7 matrix applied to the
coefficient vector, rows `constants::frobenius_const`, accumulated in the loop order of the source. -/
def frobeniusN (a : Sep7 ℕ) : Sep7 ℕ :=
  let res0 := bbAdd (bbAdd (bbAdd (bbAdd (bbAdd (bbAdd a.c0 (bbMul a.c1 (toMonty 954599710))) (bbMul a.c2 (toMonty 862825265))) (bbMul a.c3 (toMonty 596273169))) (bbMul a.c4 (toMonty 557608863))) (bbMul a.c5 (toMonty 763416381))) (bbMul a.c6 (toMonty 1734711039))
  let res1 := bbAdd (bbAdd (bbAdd (bbAdd (bbAdd (bbAdd bbZero (bbMul a.c1 (toMonty 1359279693))) (bbMul a.c2 (toMonty 597046311))) (bbMul a.c3 (toMonty 658837454))) (bbMul a.c4 (toMonty 1173670028))) (bbMul a.c5 (toMonty 1252567168))) (bbMul a.c6 (toMonty 1749813853))
  let res2 := bbAdd (bbAdd (bbAdd (bbAdd (bbAdd (bbAdd bbZero (bbMul a.c1 (toMonty 566669999))) (bbMul a.c2 (toMonty 978840770))) (bbMul a.c3 (toMonty 1515468261))) (bbMul a.c4 (toMonty 1749546888))) (bbMul a.c5 (toMonty 628856225))) (bbMul a.c6 (toMonty 1227235221))
  let res3 := bbAdd (bbAdd (bbAdd (bbAdd (bbAdd (bbAdd bbZero (bbMul a.c1 (toMonty 1982781815))) (bbMul a.c2 (toMonty 1790138282))) (bbMul a.c3 (toMonty 367059247))) (bbMul a.c4 (toMonty 1086464137))) (bbMul a.c5 (toMonty 1771903394))) (bbMul a.c6 (toMonty 1707730636))
  let res4 := bbAdd (bbAdd (bbAdd (bbAdd (bbAdd (bbAdd bbZero (bbMul a.c1 (toMonty 1735718361))) (bbMul a.c2 (toMonty 1044777201))) (bbMul a.c3 (toMonty 781278880))) (bbMul a.c4 (toMonty 803900099))) (bbMul a.c5 (toMonty 650712211))) (bbMul a.c6 (toMonty 424560395))
  let res5 := bbAdd (bbAdd (bbAdd (bbAdd (bbAdd (bbAdd bbZero (bbMul a.c1 (toMonty 1174868538))) (bbMul a.c2 (toMonty 835869808))) (bbMul a.c3 (toMonty 1544222616))) (bbMul a.c4 (toMonty 1288818584))) (bbMul a.c5 (toMonty 19417363))) (bbMul a.c6 (toMonty 1007029514))
  let res6 := bbAdd (bbAdd (bbAdd (bbAdd (bbAdd (bbAdd bbZero (bbMul a.c1 (toMonty 1120871770))) (bbMul a.c2 (toMonty 1342179023))) (bbMul a.c3 (toMonty 155490465))) (bbMul a.c4 (toMonty 1184677604))) (bbMul a.c5 (toMonty 57990258))) (bbMul a.c6 (toMonty 498034669))
  ⟨res0, res1, res2, res3, res4, res5, res6⟩

/-- `bb31_septic_extension_t::double_frobenius`: the fixed 7×7 matrix applied to the
coefficient vector, rows `constants::double_frobenius_const`, accumulated in the loop order of the source. -/
def doubleFrobeniusN (a : Sep7 ℕ) : Sep7 ℕ :=
  let res0 := bbAdd (bbAdd (bbAdd (bbAdd (bbAdd (bbAdd a.c0 (bbMul a.c1 (toMonty 1013489358))) (bbMul a.c2 (toMonty 209824426))) (bbMul a.c3 (toMonty 1475628651))) (bbMul a.c4 (toMonty 550038364))) (bbMul a.c5 (toMonty 882720258))) (bbMul a.c6 (toMonty 738287111))
  let res1 := bbAdd (bbAdd (bbAdd (bbAdd (bbAdd (bbAdd bbZero (bbMul a.c1 (toMonty 1619071628))) (bbMul a.c2 (toMonty 1313900768))) (bbMul a.c3 (toMonty 777565847))) (bbMul a.c4 (toMonty 948935655))) (bbMul a.c5 (toMonty 821925756))) (bbMul a.c6 (toMonty 1955364991))
  let res2 := bbAdd (bbAdd (bbAdd (bbAdd (bbAdd (bbAdd bbZero (bbMul a.c1 (toMonty 304593143))) (bbMul a.c2 (toMonty 38410482))) (bbMul a.c3 (toMonty 704492386))) (bbMul a.c4 (toMonty 68722023))) (bbMul a.c5 (toMonty 199955840))) (bbMul a.c6 (toMonty 552724293))
  let res3 := bbAdd (bbAdd (bbAdd (bbAdd (bbAdd (bbAdd bbZero (bbMul a.c1 (toMonty 1949397349))) (bbMul a.c2 (toMonty 256593180))) (bbMul a.c3 (toMonty 1218528120))) (bbMul a.c4 (toMonty 1251345762))) (bbMul a.c5 (toMonty 812002876))) (bbMul a.c6 (toMonty 1175775744))
  let res4 := bbAdd (bbAdd (bbAdd (bbAdd (bbAdd (bbAdd bbZero (bbMul a.c1 (toMonty 1564307636))) (bbMul a.c2 (toMonty 1708830551))) (bbMul a.c3 (toMonty 1245363405))) (bbMul a.c4 (toMonty 1692456177))) (bbMul a.c5 (toMonty 1484951277))) (bbMul a.c6 (toMonty 341623997))
  let res5 := bbAdd (bbAdd (bbAdd (bbAdd (bbAdd (bbAdd bbZero (bbMul a.c1 (toMonty 327761151))) (bbMul a.c2 (toMonty 1244995038))) (bbMul a.c3 (toMonty 475884575))) (bbMul a.c4 (toMonty 1177958698))) (bbMul a.c5 (toMonty 1063138035))) (bbMul a.c6 (toMonty 1454022463))
  let res6 := bbAdd (bbAdd (bbAdd (bbAdd (bbAdd (bbAdd bbZero (bbMul a.c1 (toMonty 415430835))) (bbMul a.c2 (toMonty 1555324019))) (bbMul a.c3 (toMonty 649166061))) (bbMul a.c4 (toMonty 350232928))) (bbMul a.c5 (toMonty 491712810))) (bbMul a.c6 (toMonty 408193320))
  ⟨res0, res1, res2, res3, res4, res5, res6⟩

/-- `bb31_septic_extension_t::pow_r_1`. -/
def powR1N (a : Sep7 ℕ) : Sep7 ℕ :=
  let base := mulN (frobeniusN a) (doubleFrobeniusN a)
  let base_p2 := doubleFrobeniusN base
  let base_p4 := doubleFrobeniusN base_p2
  mulN (mulN base base_p2) base_p4

/-- `bb31_septic_extension_t::pow_r`: coefficient 0 of `pow_r_1() * *this`. -/
def powRN (a : Sep7 ℕ) : ℕ := (mulN (powR1N a) a).c0

/-- `bb31_t::exp_power_of_2`. -/
def expPow2 (a : ℕ) : ℕ → ℕ
  | 0 => a
  | k + 1 => expPow2 (bbMul a a) k

/-- The fixed addition-chain exponentiation to `P - 2` in `bb31_t::reciprocal`
(host branch), step for step. -/
def bbRecipRaw (v : ℕ) : ℕ :=
  let p1 := v
  let e100000000 := expPow2 p1 8
  let e100000001 := bbMul e100000000 p1
  let e10000000000000000 := expPow2 e100000000 8
  let e10000000100000001 := bbMul e10000000000000000 e100000001
  let e10000000100000001000 := expPow2 e10000000100000001 3
  let e1000000010000000100000000 := expPow2 e10000000100000001000 5
  let e1000000010000000100000001 := bbMul e1000000010000000100000000 p1
  let e1000010010000100100001001 := bbMul e1000000010000000100000001 e10000000100000001000
  let e10000000100000001000000010 :=
    bbMul e1000000010000000100000001 e1000000010000000100000001
  let e11000010110000101100001011 :=
    bbMul e10000000100000001000000010 e1000010010000100100001001
  let e100000001000000010000000100 :=
    bbMul e10000000100000001000000010 e10000000100000001000000010
  let e111000011110000111100001111 :=
    bbMul e100000001000000010000000100 e11000010110000101100001011
  let e1110000111100001111000011110000 := expPow2 e111000011110000111100001111 4
  bbMul e1110000111100001111000011110000 e111000011110000111100001111

/-- `bb31_t::reciprocal` including its `assert(*this != zero())`: the assertion
failure is modelled as `none`. -/
def bbRecip (v : ℕ) : Option ℕ :=
  if v = 0 then none else some (bbRecipRaw v)

/-- `bb31_septic_extension_t::reciprocal`, with the base-field division-by-zero
assertion propagated. -/
def reciprocalN (a : Sep7 ℕ) : Option (Sep7 ℕ) :=
  let pow_r1 := powR1N a
  let pow_r := mulN pow_r1 a
  match bbRecip pow_r.c0 with
  | none => none
  | some inv => some (mulBaseN pow_r1 inv)

/-- The square-and-multiply loop of `bb31_t::operator^=(int)`. -/
def bbPowAux : ℕ → ℕ → ℕ → ℕ → ℕ
  | 0, acc, _, _ => acc
  | fuel + 1, acc, sqr, b =>
    let b2 := b / 2
    if b2 = 0 then acc
    else
      let sqr2 := bbMul sqr sqr
      let acc2 := if b2 % 2 = 1 then bbMul acc sqr2 else acc
      bbPowAux fuel acc2 sqr2 b2

/-- `bb31_t::operator^` (host branch): `sqr = *this`, start from `one()` when
the exponent is even, then square-and-multiply over the remaining bits. -/
def bbPow (a b : ℕ) : ℕ :=
  bbPowAux 32 (if b % 2 = 0 then bbOne else a) a b

/-- `bb31_cipolla_t::mul_ext`. -/
def cipollaMulExt (a b : ℕ × ℕ) (ns : ℕ) : ℕ × ℕ :=
  (bbAdd (bbMul a.1 b.1) (bbMul (bbMul ns a.2) b.2),
   bbAdd (bbMul a.1 b.2) (bbMul a.2 b.1))

/-- The loop of `bb31_cipolla_t::pow`. -/
def cipollaPowAux (ns : ℕ) : ℕ → ℕ × ℕ → ℕ × ℕ → ℕ → ℕ × ℕ
  | 0, result, _, _ => result
  | fuel + 1, result, base, e =>
    if e = 0 then result
    else
      let result2 := if e % 2 = 1 then cipollaMulExt result base ns else result
      cipollaPowAux ns fuel result2 (cipollaMulExt base base ns) (e / 2)

/-- `bb31_cipolla_t::pow` starting from `one()`. -/
def cipollaPow (x : ℕ × ℕ) (e ns : ℕ) : ℕ × ℕ :=
  cipollaPowAux ns 32 (bbOne, bbZero) x e

/-- The non-residue search loop of `bb31_septic_extension_t::sqrt`: starting
from `a = 1`, multiply `a` by `from_canonical_u32(31)` until
`(a² - base) ^ 1006632960 != one()`.  The loop has no bound in the source;
`fuel` makes it total, `none` meaning the bound was exhausted. -/
def cipollaSearch (base : ℕ) : ℕ → ℕ → ℕ → Option (ℕ × ℕ)
  | 0, _, _ => none
  | fuel + 1, a, ns =>
    if bbPow ns 1006632960 ≠ bbOne then some (a, ns)
    else
      let a2 := bbMul a (toMonty 31)
      cipollaSearch base fuel a2 (bbSub (bbMul a2 a2) base)

/-- The 29-step squaring loop of `bb31_septic_extension_t::sqrt`
(`for i in 1..30 { n_iter *= n_iter; if i >= 26 { n_power *= n_iter } }`). -/
def sqrtLoopN : ℕ → ℕ → Sep7 ℕ × Sep7 ℕ → Sep7 ℕ × Sep7 ℕ
  | 0, _, st => st
  | fuel + 1, i, (ni, np) =>
    let ni2 := mulN ni ni
    let np2 := if 26 ≤ i then mulN np ni2 else np
    sqrtLoopN fuel (i + 1) (ni2, np2)

/-- The denominator accumulated by `sqrt` before the Cipolla call:
`n_power * frobenius/double_frobenius` chain times the input. -/
def sqrtDenom (a : Sep7 ℕ) : Sep7 ℕ :=
  let st := sqrtLoopN 29 1 (a, a)
  let n_frobenius1 := frobeniusN st.2
  let denominator1 := n_frobenius1
  let n_frobenius2 := doubleFrobeniusN n_frobenius1
  let denominator2 := mulN denominator1 n_frobenius2
  let n_frobenius3 := doubleFrobeniusN n_frobenius2
  let denominator3 := mulN denominator2 n_frobenius3
  mulN denominator3 a

/-- The tail of `sqrt` after the non-residue search. -/
def sqrtFromSearch (a : Sep7 ℕ) : Option (ℕ × ℕ) → Option (Sep7 ℕ)
  | none => none
  | some pair =>
    some (mulBaseN (sqrtDenom a) (cipollaPow (pair.1, bbOne) 1006632961 pair.2).1)

/-- The tail of `sqrt` after the base-field reciprocal. -/
def sqrtFromBase (a : Sep7 ℕ) : Option ℕ → Option (Sep7 ℕ)
  | none => none
  | some base => sqrtFromSearch a (cipollaSearch base P bbOne (bbSub bbOne base))

/-- `bb31_septic_extension_t::sqrt(pow_r)`.  `none` models either the
base-field reciprocal assertion on `pow_r = 0` or exhaustion of the
non-residue search bound. -/
def sqrtN (a : Sep7 ℕ) (powr : ℕ) : Option (Sep7 ℕ) :=
  if a = zeroN then some a
  else sqrtFromBase a (bbRecip powr)

/-- `constants::A_EC_LOGUP` (each entry constructed by `bb31_t(int(..))`,
i.e. stored in Montgomery form). -/
def aEC : Sep7 ℕ := ⟨toMonty 826366246, toMonty 1398314899, toMonty 595878500, toMonty 864233365, toMonty 42484119, toMonty 378771767, toMonty 1359315465⟩

/-- `constants::B_EC_LOGUP`. -/
def bEC : Sep7 ℕ := ⟨toMonty 1955874194, toMonty 813176384, toMonty 1652957321, toMonty 159787011, toMonty 1210397729, toMonty 386300290, toMonty 343967313⟩

/-- `bb31_septic_extension_t::universal_hash`: `*this * A_EC_LOGUP + B_EC_LOGUP`. -/
def universalHashN (a : Sep7 ℕ) : Sep7 ℕ := addN (mulN a aEC) bEC

/-- `bb31_septic_extension_t::curve_formula`:
`x³ + x + x`, then `result.value[5] += 26`. -/
def curveFormulaN (a : Sep7 ℕ) : Sep7 ℕ :=
  let result := addN (addN (mulN (mulN a a) a) a) a
  ⟨result.c0, result.c1, result.c2, result.c3, result.c4,
   bbAdd result.c5 (toMonty 26), result.c6⟩

/-- `bb31_septic_extension_t::is_receive`:
`1 <= value[6].as_canonical_u32() <= (MOD - 1) / 2`. -/
def isReceiveN (a : Sep7 ℕ) : Bool :=
  1 ≤ asCanonical a.c6 ∧ asCanonical a.c6 ≤ (P - 1) / 2

/-- `bb31_septic_extension_t::is_send`:
`(MOD + 1) / 2 <= value[6].as_canonical_u32() <= MOD - 1`. -/
def isSendN (a : Sep7 ℕ) : Bool :=
  (P + 1) / 2 ≤ asCanonical a.c6 ∧ asCanonical a.c6 ≤ P - 1

/-- `bb31_septic_extension_t::is_exception`: `value[6] == zero()`. -/
def isExceptionN (a : Sep7 ℕ) : Bool := a.c6 = 0

/-- Well-formed septic element: every stored coefficient lies in `[0, P)`. -/
def SepWf (a : Sep7 ℕ) : Prop :=
  a.c0 < P ∧ a.c1 < P ∧ a.c2 < P ∧ a.c3 < P ∧ a.c4 < P ∧ a.c5 < P ∧ a.c6 < P

instance (a : Sep7 ℕ) : Decidable (SepWf a) := by unfold SepWf; infer_instance

/-! ### The event encoders (`populate_memory` / `populate_syscall`) -/

/-- The fields of the `MemoryRecord` struct read by `populate_memory`. -/
structure MemoryRecord where
  shard : ℕ
  timestamp : ℕ
  value : ℕ
deriving DecidableEq

/-- The fields of the `SyscallEvent` struct read by `populate_syscall`. -/
structure SyscallEvent where
  shard : ℕ
  clk : ℕ
  syscall_id : ℕ
  arg1 : ℕ
  arg2 : ℕ
deriving DecidableEq

/-- What `populate_memory` writes into `GlobalInteractionOperation`. -/
structure MemCols where
  offset : ℕ
  xcoord : Sep7 ℕ
  ycoord : Sep7 ℕ
  y6ByteDecomp : ℕ × ℕ × ℕ × ℕ
deriving DecidableEq

/-- What `populate_syscall` writes into `GlobalInteractionOperation`. -/
structure SyscallCols where
  offsetBits : List ℕ
  xcoord : Sep7 ℕ
  ycoord : Sep7 ℕ
  y6BitDecomp : List ℕ
  rangeCheckWitness : ℕ
deriving DecidableEq

/-- Outcome of one iteration of the shared offset-loop body of
`populate_memory` / `populate_syscall`. -/
inductive StepResult where
  | notSquare
  | exception
  | success (x_trial y : Sep7 ℕ)
  | abort
deriving DecidableEq

/-- The body of the offset loop, common to `populate_memory` and
`populate_syscall`: the universal hash, the curve formula, the norm, the
Euler residuosity test, the square root, the exception check, and the
direction flip `y = EF7::zero() - y`. -/
def encodeDecide (dir : Bool) (x_trial : Sep7 ℕ) : Option (Sep7 ℕ) → StepResult
  | none => .abort
  | some y =>
    if isExceptionN y then .exception
    else if isReceiveN y ≠ dir then .success x_trial (subN zeroN y)
    else .success x_trial y

def encodeStep (x_start : Sep7 ℕ) (dir : Bool) : StepResult :=
  let x_trial := universalHashN x_start
  let y_sq := curveFormulaN x_trial
  let y_sq_pow_r := powRN y_sq
  if bbPow y_sq_pow_r 1006632960 = bbOne then
    encodeDecide dir x_trial (sqrtN y_sq y_sq_pow_r)
  else .notSquare

/-- `range_check_value` of the success branch: a `uint32_t` subtraction,
modelled with explicit wraparound. -/
def rangeCheckValue (y : Sep7 ℕ) (dir : Bool) : ℕ :=
  (asCanonical y.c6 + 2 ^ 32 - (if dir then 1 else (P + 1) / 2)) % 2 ^ 32

/-- The offset loop of `populate_memory`.  `none` is the fail-fast outcome:
either `assert(false)` after all offsets are exhausted, or (unreachably,
given the preceding residuosity check) the division-by-zero assertion inside
`sqrt`.  On the `is_exception` path the loop `continue`s: the offset advances
but `x_start` is left unchanged. -/
def memStep (dir : Bool) (offset : ℕ) (x_start : Sep7 ℕ)
    (k : ℕ → Sep7 ℕ → Option MemCols) : StepResult → Option MemCols
  | .abort => none
  | .exception => k (offset + 1) x_start
  | .notSquare => k (offset + 1) (addBaseN x_start (toMonty 65536))
  | .success x_trial y =>
    let rcv := rangeCheckValue y dir
    some ⟨toMonty offset, x_trial, y,
      (toMonty (rcv % 256), toMonty (rcv / 256 % 256),
       toMonty (rcv / 65536 % 256), toMonty (rcv / 16777216 % 256))⟩

def populateMemoryLoop (dir : Bool) : ℕ → ℕ → Sep7 ℕ → Option MemCols
  | 0, _, _ => none
  | fuel + 1, offset, x_start =>
    memStep dir offset x_start (fun off x => populateMemoryLoop dir fuel off x)
      (encodeStep x_start dir)

/-- `populate_memory`: pack the record into `x_start` (each
`from_canonical_u32` asserting its argument is below `P`), then run the
256-iteration offset loop. -/
def populateMemory (rec : MemoryRecord) (addr : ℕ) (dir : Bool) : Option MemCols :=
  if rec.shard + 2 ^ 24 < P ∧ rec.timestamp < P ∧ addr < P then
    populateMemoryLoop dir 256 0
      ⟨toMonty (rec.shard + 2 ^ 24), toMonty rec.timestamp, toMonty addr,
       toMonty (rec.value % 256), toMonty (rec.value / 256 % 256),
       toMonty (rec.value / 65536 % 256), toMonty (rec.value / 16777216 % 256)⟩
  else none

/-- The offset loop of `populate_syscall`; the final `top_4_bits.reciprocal()`
carries its own division-by-zero assertion, again modelled as `none`. -/
def sysStep (dir : Bool) (offset : ℕ) (x_start : Sep7 ℕ)
    (k : ℕ → Sep7 ℕ → Option SyscallCols) : StepResult → Option SyscallCols
  | .abort => none
  | .exception => k (offset + 1) x_start
  | .notSquare => k (offset + 1) (addBaseN x_start (toMonty 65536))
  | .success x_trial y =>
    let rcv := rangeCheckValue y dir
    let bit := fun i => toMonty (rcv / 2 ^ i % 2)
    let top4 := bbAdd (bbAdd (bbAdd (bbAdd bbZero (bit 26)) (bit 27)) (bit 28)) (bit 29)
    match bbRecip (bbSub top4 (toMonty 4)) with
    | none => none
    | some w =>
      some ⟨(List.range 8).map (fun i => toMonty (offset / 2 ^ i % 2)),
        x_trial, y, (List.range 30).map bit, w⟩

def populateSyscallLoop (dir : Bool) : ℕ → ℕ → Sep7 ℕ → Option SyscallCols
  | 0, _, _ => none
  | fuel + 1, offset, x_start =>
    sysStep dir offset x_start (fun off x => populateSyscallLoop dir fuel off x)
      (encodeStep x_start dir)

/-- `populate_syscall`. -/
def populateSyscall (ev : SyscallEvent) (dir : Bool) : Option SyscallCols :=
  if ev.shard + 8 * 2 ^ 24 < P ∧ ev.clk / 65536 < P ∧ ev.syscall_id < P ∧
      ev.arg1 < P ∧ ev.arg2 < P then
    populateSyscallLoop dir 256 0
      ⟨toMonty (ev.shard + 8 * 2 ^ 24), toMonty (ev.clk % 65536),
       toMonty (ev.clk / 65536), toMonty ev.syscall_id, toMonty ev.arg1,
       toMonty ev.arg2, 0⟩
  else none

/-! ### Layer 1 mirror over `ZMod P` -/

/-- Componentwise interpretation of a stored septic element. -/
def toZS (a : Sep7 ℕ) : Sep7 K :=
  ⟨toZ a.c0, toZ a.c1, toZ a.c2, toZ a.c3, toZ a.c4, toZ a.c5, toZ a.c6⟩

def zeroZ : Sep7 K := ⟨0, 0, 0, 0, 0, 0, 0⟩

def oneZ : Sep7 K := ⟨1, 0, 0, 0, 0, 0, 0⟩

def addZ (a b : Sep7 K) : Sep7 K :=
  ⟨a.c0 + b.c0, a.c1 + b.c1, a.c2 + b.c2, a.c3 + b.c3,
   a.c4 + b.c4, a.c5 + b.c5, a.c6 + b.c6⟩

def addBaseZ (a : Sep7 K) (b : K) : Sep7 K :=
  ⟨a.c0 + b, a.c1, a.c2, a.c3, a.c4, a.c5, a.c6⟩

def subZ (a b : Sep7 K) : Sep7 K :=
  ⟨a.c0 - b.c0, a.c1 - b.c1, a.c2 - b.c2, a.c3 - b.c3,
   a.c4 - b.c4, a.c5 - b.c5, a.c6 - b.c6⟩

def mulBaseZ (a : Sep7 K) (b : K) : Sep7 K :=
  ⟨a.c0 * b, a.c1 * b, a.c2 * b, a.c3 * b, a.c4 * b, a.c5 * b, a.c6 * b⟩

/-- The `ZMod`-level mirror of `mulN`. -/
def mulZ (a b : Sep7 K) : Sep7 K :=
  let r0 := a.c0 * b.c0
  let r1 := a.c0 * b.c1 + a.c1 * b.c0
  let r2 := a.c0 * b.c2 + a.c1 * b.c1 + a.c2 * b.c0
  let r3 := a.c0 * b.c3 + a.c1 * b.c2 + a.c2 * b.c1 + a.c3 * b.c0
  let r4 := a.c0 * b.c4 + a.c1 * b.c3 + a.c2 * b.c2 + a.c3 * b.c1 + a.c4 * b.c0
  let r5 := a.c0 * b.c5 + a.c1 * b.c4 + a.c2 * b.c3 + a.c3 * b.c2 + a.c4 * b.c1 + a.c5 * b.c0
  let r6 := a.c0 * b.c6 + a.c1 * b.c5 + a.c2 * b.c4 + a.c3 * b.c3 + a.c4 * b.c2 + a.c5 * b.c1 + a.c6 * b.c0
  let r7 := a.c1 * b.c6 + a.c2 * b.c5 + a.c3 * b.c4 + a.c4 * b.c3 + a.c5 * b.c2 + a.c6 * b.c1
  let r8 := a.c2 * b.c6 + a.c3 * b.c5 + a.c4 * b.c4 + a.c5 * b.c3 + a.c6 * b.c2
  let r9 := a.c3 * b.c6 + a.c4 * b.c5 + a.c5 * b.c4 + a.c6 * b.c3
  let r10 := a.c4 * b.c6 + a.c5 * b.c5 + a.c6 * b.c4
  let r11 := a.c5 * b.c6 + a.c6 * b.c5
  let r12 := a.c6 * b.c6
  ⟨r0 + r7 * 5,
   r1 + r7 * 2 + r8 * 5,
   r2 + r8 * 2 + r9 * 5,
   r3 + r9 * 2 + r10 * 5,
   r4 + r10 * 2 + r11 * 5,
   r5 + r11 * 2 + r12 * 5,
   r6 + r12 * 2⟩

/-- The `ZMod`-level mirror of the matrix map. -/
def frobZ (a : Sep7 K) : Sep7 K :=
  let res0 := a.c0 + a.c1 * 954599710 + a.c2 * 862825265 + a.c3 * 596273169 + a.c4 * 557608863 + a.c5 * 763416381 + a.c6 * 1734711039
  let res1 := a.c1 * 1359279693 + a.c2 * 597046311 + a.c3 * 658837454 + a.c4 * 1173670028 + a.c5 * 1252567168 + a.c6 * 1749813853
  let res2 := a.c1 * 566669999 + a.c2 * 978840770 + a.c3 * 1515468261 + a.c4 * 1749546888 + a.c5 * 628856225 + a.c6 * 1227235221
  let res3 := a.c1 * 1982781815 + a.c2 * 1790138282 + a.c3 * 367059247 + a.c4 * 1086464137 + a.c5 * 1771903394 + a.c6 * 1707730636
  let res4 := a.c1 * 1735718361 + a.c2 * 1044777201 + a.c3 * 781278880 + a.c4 * 803900099 + a.c5 * 650712211 + a.c6 * 424560395
  let res5 := a.c1 * 1174868538 + a.c2 * 835869808 + a.c3 * 1544222616 + a.c4 * 1288818584 + a.c5 * 19417363 + a.c6 * 1007029514
  let res6 := a.c1 * 1120871770 + a.c2 * 1342179023 + a.c3 * 155490465 + a.c4 * 1184677604 + a.c5 * 57990258 + a.c6 * 498034669
  ⟨res0, res1, res2, res3, res4, res5, res6⟩

/-- The `ZMod`-level mirror of the matrix map. -/
def dfrobZ (a : Sep7 K) : Sep7 K :=
  let res0 := a.c0 + a.c1 * 1013489358 + a.c2 * 209824426 + a.c3 * 1475628651 + a.c4 * 550038364 + a.c5 * 882720258 + a.c6 * 738287111
  let res1 := a.c1 * 1619071628 + a.c2 * 1313900768 + a.c3 * 777565847 + a.c4 * 948935655 + a.c5 * 821925756 + a.c6 * 1955364991
  let res2 := a.c1 * 304593143 + a.c2 * 38410482 + a.c3 * 704492386 + a.c4 * 68722023 + a.c5 * 199955840 + a.c6 * 552724293
  let res3 := a.c1 * 1949397349 + a.c2 * 256593180 + a.c3 * 1218528120 + a.c4 * 1251345762 + a.c5 * 812002876 + a.c6 * 1175775744
  let res4 := a.c1 * 1564307636 + a.c2 * 1708830551 + a.c3 * 1245363405 + a.c4 * 1692456177 + a.c5 * 1484951277 + a.c6 * 341623997
  let res5 := a.c1 * 327761151 + a.c2 * 1244995038 + a.c3 * 475884575 + a.c4 * 1177958698 + a.c5 * 1063138035 + a.c6 * 1454022463
  let res6 := a.c1 * 415430835 + a.c2 * 1555324019 + a.c3 * 649166061 + a.c4 * 350232928 + a.c5 * 491712810 + a.c6 * 408193320
  ⟨res0, res1, res2, res3, res4, res5, res6⟩

def powR1Z (a : Sep7 K) : Sep7 K :=
  let base := mulZ (frobZ a) (dfrobZ a)
  let base_p2 := dfrobZ base
  let base_p4 := dfrobZ base_p2
  mulZ (mulZ base base_p2) base_p4

lemma bbZero_eq : bbZero = 0 := rfl

lemma bbZero_wf : bbZero < P := P_pos

lemma toZ_bbZero : toZ bbZero = 0 := toZ_zero

lemma addN_wf {a b : Sep7 ℕ} (ha : SepWf a) (hb : SepWf b) : SepWf (addN a b) := by
  obtain ⟨ha0, ha1, ha2, ha3, ha4, ha5, ha6⟩ := ha
  obtain ⟨hb0, hb1, hb2, hb3, hb4, hb5, hb6⟩ := hb
  simp only [SepWf, addN]
  and_intros <;> (repeat' first | apply bbAdd_wf | apply bbMul_wf | apply bbSub_wf | apply toMonty_lt | assumption)

lemma toZS_addN {a b : Sep7 ℕ} (ha : SepWf a) (hb : SepWf b) :
    toZS (addN a b) = addZ (toZS a) (toZS b) := by
  obtain ⟨ha0, ha1, ha2, ha3, ha4, ha5, ha6⟩ := ha
  obtain ⟨hb0, hb1, hb2, hb3, hb4, hb5, hb6⟩ := hb
  simp only [addN, addZ, toZS, Sep7.mk.injEq]
  and_intros <;> (repeat first | rw [toZ_bbAdd] | rw [toZ_bbMul] | rw [toZ_bbSub] | rw [toZ_toMonty] | rw [toZ_zero]) <;>
    first
      | (push_cast; ring1)
      | trivial
      | (repeat' first | apply bbAdd_wf | apply bbMul_wf | apply bbSub_wf | apply toMonty_lt | assumption)

lemma subN_wf {a b : Sep7 ℕ} (ha : SepWf a) (hb : SepWf b) : SepWf (subN a b) := by
  obtain ⟨ha0, ha1, ha2, ha3, ha4, ha5, ha6⟩ := ha
  obtain ⟨hb0, hb1, hb2, hb3, hb4, hb5, hb6⟩ := hb
  simp only [SepWf, subN]
  and_intros <;> (repeat' first | apply bbAdd_wf | apply bbMul_wf | apply bbSub_wf | apply toMonty_lt | assumption)

lemma toZS_subN {a b : Sep7 ℕ} (ha : SepWf a) (hb : SepWf b) :
    toZS (subN a b) = subZ (toZS a) (toZS b) := by
  obtain ⟨ha0, ha1, ha2, ha3, ha4, ha5, ha6⟩ := ha
  obtain ⟨hb0, hb1, hb2, hb3, hb4, hb5, hb6⟩ := hb
  simp only [subN, subZ, toZS, Sep7.mk.injEq]
  and_intros <;> (repeat first | rw [toZ_bbAdd] | rw [toZ_bbMul] | rw [toZ_bbSub] | rw [toZ_toMonty] | rw [toZ_zero]) <;>
    first
      | (push_cast; ring1)
      | trivial
      | (repeat' first | apply bbAdd_wf | apply bbMul_wf | apply bbSub_wf | apply toMonty_lt | assumption)

lemma addBaseN_wf {a : Sep7 ℕ} {b : ℕ} (ha : SepWf a) (hb : b < P) :
    SepWf (addBaseN a b) := by
  obtain ⟨ha0, ha1, ha2, ha3, ha4, ha5, ha6⟩ := ha
  simp only [SepWf, addBaseN]
  and_intros <;> (repeat' first | apply bbAdd_wf | apply bbMul_wf | apply bbSub_wf | apply toMonty_lt | assumption)

lemma toZS_addBaseN {a : Sep7 ℕ} {b : ℕ} (ha : SepWf a) (hb : b < P) :
    toZS (addBaseN a b) = addBaseZ (toZS a) (toZ b) := by
  obtain ⟨ha0, ha1, ha2, ha3, ha4, ha5, ha6⟩ := ha
  simp only [addBaseN, addBaseZ, toZS, Sep7.mk.injEq]
  and_intros <;> (repeat first | rw [toZ_bbAdd] | rw [toZ_bbMul] | rw [toZ_bbSub] | rw [toZ_toMonty] | rw [toZ_zero]) <;>
    first
      | (push_cast; ring1)
      | trivial
      | (repeat' first | apply bbAdd_wf | apply bbMul_wf | apply bbSub_wf | apply toMonty_lt | assumption)

lemma mulBaseN_wf {a : Sep7 ℕ} {b : ℕ} (ha : SepWf a) (hb : b < P) :
    SepWf (mulBaseN a b) := by
  obtain ⟨ha0, ha1, ha2, ha3, ha4, ha5, ha6⟩ := ha
  simp only [SepWf, mulBaseN]
  and_intros <;> (repeat' first | apply bbAdd_wf | apply bbMul_wf | apply bbSub_wf | apply toMonty_lt | assumption)

lemma toZS_mulBaseN {a : Sep7 ℕ} {b : ℕ} (ha : SepWf a) (hb : b < P) :
    toZS (mulBaseN a b) = mulBaseZ (toZS a) (toZ b) := by
  obtain ⟨ha0, ha1, ha2, ha3, ha4, ha5, ha6⟩ := ha
  simp only [mulBaseN, mulBaseZ, toZS, Sep7.mk.injEq]
  and_intros <;> (repeat first | rw [toZ_bbAdd] | rw [toZ_bbMul] | rw [toZ_bbSub] | rw [toZ_toMonty] | rw [toZ_zero]) <;>
    first
      | (push_cast; ring1)
      | trivial
      | (repeat' first | apply bbAdd_wf | apply bbMul_wf | apply bbSub_wf | apply toMonty_lt | assumption)

set_option maxHeartbeats 1000000 in
lemma mulN_wf {a b : Sep7 ℕ} (ha : SepWf a) (hb : SepWf b) : SepWf (mulN a b) := by
  obtain ⟨ha0, ha1, ha2, ha3, ha4, ha5, ha6⟩ := ha
  obtain ⟨hb0, hb1, hb2, hb3, hb4, hb5, hb6⟩ := hb
  simp only [SepWf, mulN]
  exact ⟨(bbAdd_wf (bbMul_wf ha0 hb0) (bbMul_wf (bbAdd_wf (bbAdd_wf (bbAdd_wf (bbAdd_wf (bbAdd_wf (bbMul_wf ha1 hb6) (bbMul_wf ha2 hb5)) (bbMul_wf ha3 hb4)) (bbMul_wf ha4 hb3)) (bbMul_wf ha5 hb2)) (bbMul_wf ha6 hb1)) (toMonty_lt 5))),
    (bbAdd_wf (bbAdd_wf (bbAdd_wf (bbMul_wf ha0 hb1) (bbMul_wf ha1 hb0)) (bbMul_wf (bbAdd_wf (bbAdd_wf (bbAdd_wf (bbAdd_wf (bbAdd_wf (bbMul_wf ha1 hb6) (bbMul_wf ha2 hb5)) (bbMul_wf ha3 hb4)) (bbMul_wf ha4 hb3)) (bbMul_wf ha5 hb2)) (bbMul_wf ha6 hb1)) (toMonty_lt 2))) (bbMul_wf (bbAdd_wf (bbAdd_wf (bbAdd_wf (bbAdd_wf (bbMul_wf ha2 hb6) (bbMul_wf ha3 hb5)) (bbMul_wf ha4 hb4)) (bbMul_wf ha5 hb3)) (bbMul_wf ha6 hb2)) (toMonty_lt 5))),
    (bbAdd_wf (bbAdd_wf (bbAdd_wf (bbAdd_wf (bbMul_wf ha0 hb2) (bbMul_wf ha1 hb1)) (bbMul_wf ha2 hb0)) (bbMul_wf (bbAdd_wf (bbAdd_wf (bbAdd_wf (bbAdd_wf (bbMul_wf ha2 hb6) (bbMul_wf ha3 hb5)) (bbMul_wf ha4 hb4)) (bbMul_wf ha5 hb3)) (bbMul_wf ha6 hb2)) (toMonty_lt 2))) (bbMul_wf (bbAdd_wf (bbAdd_wf (bbAdd_wf (bbMul_wf ha3 hb6) (bbMul_wf ha4 hb5)) (bbMul_wf ha5 hb4)) (bbMul_wf ha6 hb3)) (toMonty_lt 5))),
    (bbAdd_wf (bbAdd_wf (bbAdd_wf (bbAdd_wf (bbAdd_wf (bbMul_wf ha0 hb3) (bbMul_wf ha1 hb2)) (bbMul_wf ha2 hb1)) (bbMul_wf ha3 hb0)) (bbMul_wf (bbAdd_wf (bbAdd_wf (bbAdd_wf (bbMul_wf ha3 hb6) (bbMul_wf ha4 hb5)) (bbMul_wf ha5 hb4)) (bbMul_wf ha6 hb3)) (toMonty_lt 2))) (bbMul_wf (bbAdd_wf (bbAdd_wf (bbMul_wf ha4 hb6) (bbMul_wf ha5 hb5)) (bbMul_wf ha6 hb4)) (toMonty_lt 5))),
    (bbAdd_wf (bbAdd_wf (bbAdd_wf (bbAdd_wf (bbAdd_wf (bbAdd_wf (bbMul_wf ha0 hb4) (bbMul_wf ha1 hb3)) (bbMul_wf ha2 hb2)) (bbMul_wf ha3 hb1)) (bbMul_wf ha4 hb0)) (bbMul_wf (bbAdd_wf (bbAdd_wf (bbMul_wf ha4 hb6) (bbMul_wf ha5 hb5)) (bbMul_wf ha6 hb4)) (toMonty_lt 2))) (bbMul_wf (bbAdd_wf (bbMul_wf ha5 hb6) (bbMul_wf ha6 hb5)) (toMonty_lt 5))),
    (bbAdd_wf (bbAdd_wf (bbAdd_wf (bbAdd_wf (bbAdd_wf (bbAdd_wf (bbAdd_wf (bbMul_wf ha0 hb5) (bbMul_wf ha1 hb4)) (bbMul_wf ha2 hb3)) (bbMul_wf ha3 hb2)) (bbMul_wf ha4 hb1)) (bbMul_wf ha5 hb0)) (bbMul_wf (bbAdd_wf (bbMul_wf ha5 hb6) (bbMul_wf ha6 hb5)) (toMonty_lt 2))) (bbMul_wf (bbMul_wf ha6 hb6) (toMonty_lt 5))),
    (bbAdd_wf (bbAdd_wf (bbAdd_wf (bbAdd_wf (bbAdd_wf (bbAdd_wf (bbAdd_wf (bbMul_wf ha0 hb6) (bbMul_wf ha1 hb5)) (bbMul_wf ha2 hb4)) (bbMul_wf ha3 hb3)) (bbMul_wf ha4 hb2)) (bbMul_wf ha5 hb1)) (bbMul_wf ha6 hb0)) (bbMul_wf (bbMul_wf ha6 hb6) (toMonty_lt 2)))⟩

set_option maxHeartbeats 1000000 in
lemma toZS_mulN {a b : Sep7 ℕ} (ha : SepWf a) (hb : SepWf b) :
    toZS (mulN a b) = mulZ (toZS a) (toZS b) := by
  obtain ⟨ha0, ha1, ha2, ha3, ha4, ha5, ha6⟩ := ha
  obtain ⟨hb0, hb1, hb2, hb3, hb4, hb5, hb6⟩ := hb
  simp only [mulN, mulZ, toZS, Sep7.mk.injEq]
  refine ⟨?_, ?_, ?_, ?_, ?_, ?_, ?_⟩
  · rw [toZ_bbAdd (bbMul_wf ha0 hb0) (bbMul_wf (bbAdd_wf (bbAdd_wf (bbAdd_wf (bbAdd_wf (bbAdd_wf (bbMul_wf ha1 hb6) (bbMul_wf ha2 hb5)) (bbMul_wf ha3 hb4)) (bbMul_wf ha4 hb3)) (bbMul_wf ha5 hb2)) (bbMul_wf ha6 hb1)) (toMonty_lt 5)),
      toZ_bbMul ha0 hb0,
      toZ_bbMul (bbAdd_wf (bbAdd_wf (bbAdd_wf (bbAdd_wf (bbAdd_wf (bbMul_wf ha1 hb6) (bbMul_wf ha2 hb5)) (bbMul_wf ha3 hb4)) (bbMul_wf ha4 hb3)) (bbMul_wf ha5 hb2)) (bbMul_wf ha6 hb1)) (toMonty_lt 5),
      toZ_bbAdd (bbAdd_wf (bbAdd_wf (bbAdd_wf (bbAdd_wf (bbMul_wf ha1 hb6) (bbMul_wf ha2 hb5)) (bbMul_wf ha3 hb4)) (bbMul_wf ha4 hb3)) (bbMul_wf ha5 hb2)) (bbMul_wf ha6 hb1),
      toZ_bbAdd (bbAdd_wf (bbAdd_wf (bbAdd_wf (bbMul_wf ha1 hb6) (bbMul_wf ha2 hb5)) (bbMul_wf ha3 hb4)) (bbMul_wf ha4 hb3)) (bbMul_wf ha5 hb2),
      toZ_bbAdd (bbAdd_wf (bbAdd_wf (bbMul_wf ha1 hb6) (bbMul_wf ha2 hb5)) (bbMul_wf ha3 hb4)) (bbMul_wf ha4 hb3),
      toZ_bbAdd (bbAdd_wf (bbMul_wf ha1 hb6) (bbMul_wf ha2 hb5)) (bbMul_wf ha3 hb4),
      toZ_bbAdd (bbMul_wf ha1 hb6) (bbMul_wf ha2 hb5),
      toZ_bbMul ha1 hb6,
      toZ_bbMul ha2 hb5,
      toZ_bbMul ha3 hb4,
      toZ_bbMul ha4 hb3,
      toZ_bbMul ha5 hb2,
      toZ_bbMul ha6 hb1,
      toZ_toMonty 5]
    push_cast
    ring1
  · rw [toZ_bbAdd (bbAdd_wf (bbAdd_wf (bbMul_wf ha0 hb1) (bbMul_wf ha1 hb0)) (bbMul_wf (bbAdd_wf (bbAdd_wf (bbAdd_wf (bbAdd_wf (bbAdd_wf (bbMul_wf ha1 hb6) (bbMul_wf ha2 hb5)) (bbMul_wf ha3 hb4)) (bbMul_wf ha4 hb3)) (bbMul_wf ha5 hb2)) (bbMul_wf ha6 hb1)) (toMonty_lt 2))) (bbMul_wf (bbAdd_wf (bbAdd_wf (bbAdd_wf (bbAdd_wf (bbMul_wf ha2 hb6) (bbMul_wf ha3 hb5)) (bbMul_wf ha4 hb4)) (bbMul_wf ha5 hb3)) (bbMul_wf ha6 hb2)) (toMonty_lt 5)),
      toZ_bbAdd (bbAdd_wf (bbMul_wf ha0 hb1) (bbMul_wf ha1 hb0)) (bbMul_wf (bbAdd_wf (bbAdd_wf (bbAdd_wf (bbAdd_wf (bbAdd_wf (bbMul_wf ha1 hb6) (bbMul_wf ha2 hb5)) (bbMul_wf ha3 hb4)) (bbMul_wf ha4 hb3)) (bbMul_wf ha5 hb2)) (bbMul_wf ha6 hb1)) (toMonty_lt 2)),
      toZ_bbAdd (bbMul_wf ha0 hb1) (bbMul_wf ha1 hb0),
      toZ_bbMul ha0 hb1,
      toZ_bbMul ha1 hb0,
      toZ_bbMul (bbAdd_wf (bbAdd_wf (bbAdd_wf (bbAdd_wf (bbAdd_wf (bbMul_wf ha1 hb6) (bbMul_wf ha2 hb5)) (bbMul_wf ha3 hb4)) (bbMul_wf ha4 hb3)) (bbMul_wf ha5 hb2)) (bbMul_wf ha6 hb1)) (toMonty_lt 2),
      toZ_bbAdd (bbAdd_wf (bbAdd_wf (bbAdd_wf (bbAdd_wf (bbMul_wf ha1 hb6) (bbMul_wf ha2 hb5)) (bbMul_wf ha3 hb4)) (bbMul_wf ha4 hb3)) (bbMul_wf ha5 hb2)) (bbMul_wf ha6 hb1),
      toZ_bbAdd (bbAdd_wf (bbAdd_wf (bbAdd_wf (bbMul_wf ha1 hb6) (bbMul_wf ha2 hb5)) (bbMul_wf ha3 hb4)) (bbMul_wf ha4 hb3)) (bbMul_wf ha5 hb2),
      toZ_bbAdd (bbAdd_wf (bbAdd_wf (bbMul_wf ha1 hb6) (bbMul_wf ha2 hb5)) (bbMul_wf ha3 hb4)) (bbMul_wf ha4 hb3),
      toZ_bbAdd (bbAdd_wf (bbMul_wf ha1 hb6) (bbMul_wf ha2 hb5)) (bbMul_wf ha3 hb4),
      toZ_bbAdd (bbMul_wf ha1 hb6) (bbMul_wf ha2 hb5),
      toZ_bbMul ha1 hb6,
      toZ_bbMul ha2 hb5,
      toZ_bbMul ha3 hb4,
      toZ_bbMul ha4 hb3,
      toZ_bbMul ha5 hb2,
      toZ_bbMul ha6 hb1,
      toZ_toMonty 2,
      toZ_bbMul (bbAdd_wf (bbAdd_wf (bbAdd_wf (bbAdd_wf (bbMul_wf ha2 hb6) (bbMul_wf ha3 hb5)) (bbMul_wf ha4 hb4)) (bbMul_wf ha5 hb3)) (bbMul_wf ha6 hb2)) (toMonty_lt 5),
      toZ_bbAdd (bbAdd_wf (bbAdd_wf (bbAdd_wf (bbMul_wf ha2 hb6) (bbMul_wf ha3 hb5)) (bbMul_wf ha4 hb4)) (bbMul_wf ha5 hb3)) (bbMul_wf ha6 hb2),
      toZ_bbAdd (bbAdd_wf (bbAdd_wf (bbMul_wf ha2 hb6) (bbMul_wf ha3 hb5)) (bbMul_wf ha4 hb4)) (bbMul_wf ha5 hb3),
      toZ_bbAdd (bbAdd_wf (bbMul_wf ha2 hb6) (bbMul_wf ha3 hb5)) (bbMul_wf ha4 hb4),
      toZ_bbAdd (bbMul_wf ha2 hb6) (bbMul_wf ha3 hb5),
      toZ_bbMul ha2 hb6,
      toZ_bbMul ha3 hb5,
      toZ_bbMul ha4 hb4,
      toZ_bbMul ha5 hb3,
      toZ_bbMul ha6 hb2,
      toZ_toMonty 5]
    push_cast
    ring1
  · rw [toZ_bbAdd (bbAdd_wf (bbAdd_wf (bbAdd_wf (bbMul_wf ha0 hb2) (bbMul_wf ha1 hb1)) (bbMul_wf ha2 hb0)) (bbMul_wf (bbAdd_wf (bbAdd_wf (bbAdd_wf (bbAdd_wf (bbMul_wf ha2 hb6) (bbMul_wf ha3 hb5)) (bbMul_wf ha4 hb4)) (bbMul_wf ha5 hb3)) (bbMul_wf ha6 hb2)) (toMonty_lt 2))) (bbMul_wf (bbAdd_wf (bbAdd_wf (bbAdd_wf (bbMul_wf ha3 hb6) (bbMul_wf ha4 hb5)) (bbMul_wf ha5 hb4)) (bbMul_wf ha6 hb3)) (toMonty_lt 5)),
      toZ_bbAdd (bbAdd_wf (bbAdd_wf (bbMul_wf ha0 hb2) (bbMul_wf ha1 hb1)) (bbMul_wf ha2 hb0)) (bbMul_wf (bbAdd_wf (bbAdd_wf (bbAdd_wf (bbAdd_wf (bbMul_wf ha2 hb6) (bbMul_wf ha3 hb5)) (bbMul_wf ha4 hb4)) (bbMul_wf ha5 hb3)) (bbMul_wf ha6 hb2)) (toMonty_lt 2)),
      toZ_bbAdd (bbAdd_wf (bbMul_wf ha0 hb2) (bbMul_wf ha1 hb1)) (bbMul_wf ha2 hb0),
      toZ_bbAdd (bbMul_wf ha0 hb2) (bbMul_wf ha1 hb1),
      toZ_bbMul ha0 hb2,
      toZ_bbMul ha1 hb1,
      toZ_bbMul ha2 hb0,
      toZ_bbMul (bbAdd_wf (bbAdd_wf (bbAdd_wf (bbAdd_wf (bbMul_wf ha2 hb6) (bbMul_wf ha3 hb5)) (bbMul_wf ha4 hb4)) (bbMul_wf ha5 hb3)) (bbMul_wf ha6 hb2)) (toMonty_lt 2),
      toZ_bbAdd (bbAdd_wf (bbAdd_wf (bbAdd_wf (bbMul_wf ha2 hb6) (bbMul_wf ha3 hb5)) (bbMul_wf ha4 hb4)) (bbMul_wf ha5 hb3)) (bbMul_wf ha6 hb2),
      toZ_bbAdd (bbAdd_wf (bbAdd_wf (bbMul_wf ha2 hb6) (bbMul_wf ha3 hb5)) (bbMul_wf ha4 hb4)) (bbMul_wf ha5 hb3),
      toZ_bbAdd (bbAdd_wf (bbMul_wf ha2 hb6) (bbMul_wf ha3 hb5)) (bbMul_wf ha4 hb4),
      toZ_bbAdd (bbMul_wf ha2 hb6) (bbMul_wf ha3 hb5),
      toZ_bbMul ha2 hb6,
      toZ_bbMul ha3 hb5,
      toZ_bbMul ha4 hb4,
      toZ_bbMul ha5 hb3,
      toZ_bbMul ha6 hb2,
      toZ_toMonty 2,
      toZ_bbMul (bbAdd_wf (bbAdd_wf (bbAdd_wf (bbMul_wf ha3 hb6) (bbMul_wf ha4 hb5)) (bbMul_wf ha5 hb4)) (bbMul_wf ha6 hb3)) (toMonty_lt 5),
      toZ_bbAdd (bbAdd_wf (bbAdd_wf (bbMul_wf ha3 hb6) (bbMul_wf ha4 hb5)) (bbMul_wf ha5 hb4)) (bbMul_wf ha6 hb3),
      toZ_bbAdd (bbAdd_wf (bbMul_wf ha3 hb6) (bbMul_wf ha4 hb5)) (bbMul_wf ha5 hb4),
      toZ_bbAdd (bbMul_wf ha3 hb6) (bbMul_wf ha4 hb5),
      toZ_bbMul ha3 hb6,
      toZ_bbMul ha4 hb5,
      toZ_bbMul ha5 hb4,
      toZ_bbMul ha6 hb3,
      toZ_toMonty 5]
    push_cast
    ring1
  · rw [toZ_bbAdd (bbAdd_wf (bbAdd_wf (bbAdd_wf (bbAdd_wf (bbMul_wf ha0 hb3) (bbMul_wf ha1 hb2)) (bbMul_wf ha2 hb1)) (bbMul_wf ha3 hb0)) (bbMul_wf (bbAdd_wf (bbAdd_wf (bbAdd_wf (bbMul_wf ha3 hb6) (bbMul_wf ha4 hb5)) (bbMul_wf ha5 hb4)) (bbMul_wf ha6 hb3)) (toMonty_lt 2))) (bbMul_wf (bbAdd_wf (bbAdd_wf (bbMul_wf ha4 hb6) (bbMul_wf ha5 hb5)) (bbMul_wf ha6 hb4)) (toMonty_lt 5)),
      toZ_bbAdd (bbAdd_wf (bbAdd_wf (bbAdd_wf (bbMul_wf ha0 hb3) (bbMul_wf ha1 hb2)) (bbMul_wf ha2 hb1)) (bbMul_wf ha3 hb0)) (bbMul_wf (bbAdd_wf (bbAdd_wf (bbAdd_wf (bbMul_wf ha3 hb6) (bbMul_wf ha4 hb5)) (bbMul_wf ha5 hb4)) (bbMul_wf ha6 hb3)) (toMonty_lt 2)),
      toZ_bbAdd (bbAdd_wf (bbAdd_wf (bbMul_wf ha0 hb3) (bbMul_wf ha1 hb2)) (bbMul_wf ha2 hb1)) (bbMul_wf ha3 hb0),
      toZ_bbAdd (bbAdd_wf (bbMul_wf ha0 hb3) (bbMul_wf ha1 hb2)) (bbMul_wf ha2 hb1),
      toZ_bbAdd (bbMul_wf ha0 hb3) (bbMul_wf ha1 hb2),
      toZ_bbMul ha0 hb3,
      toZ_bbMul ha1 hb2,
      toZ_bbMul ha2 hb1,
      toZ_bbMul ha3 hb0,
      toZ_bbMul (bbAdd_wf (bbAdd_wf (bbAdd_wf (bbMul_wf ha3 hb6) (bbMul_wf ha4 hb5)) (bbMul_wf ha5 hb4)) (bbMul_wf ha6 hb3)) (toMonty_lt 2),
      toZ_bbAdd (bbAdd_wf (bbAdd_wf (bbMul_wf ha3 hb6) (bbMul_wf ha4 hb5)) (bbMul_wf ha5 hb4)) (bbMul_wf ha6 hb3),
      toZ_bbAdd (bbAdd_wf (bbMul_wf ha3 hb6) (bbMul_wf ha4 hb5)) (bbMul_wf ha5 hb4),
      toZ_bbAdd (bbMul_wf ha3 hb6) (bbMul_wf ha4 hb5),
      toZ_bbMul ha3 hb6,
      toZ_bbMul ha4 hb5,
      toZ_bbMul ha5 hb4,
      toZ_bbMul ha6 hb3,
      toZ_toMonty 2,
      toZ_bbMul (bbAdd_wf (bbAdd_wf (bbMul_wf ha4 hb6) (bbMul_wf ha5 hb5)) (bbMul_wf ha6 hb4)) (toMonty_lt 5),
      toZ_bbAdd (bbAdd_wf (bbMul_wf ha4 hb6) (bbMul_wf ha5 hb5)) (bbMul_wf ha6 hb4),
      toZ_bbAdd (bbMul_wf ha4 hb6) (bbMul_wf ha5 hb5),
      toZ_bbMul ha4 hb6,
      toZ_bbMul ha5 hb5,
      toZ_bbMul ha6 hb4,
      toZ_toMonty 5]
    push_cast
    ring1
  · rw [toZ_bbAdd (bbAdd_wf (bbAdd_wf (bbAdd_wf (bbAdd_wf (bbAdd_wf (bbMul_wf ha0 hb4) (bbMul_wf ha1 hb3)) (bbMul_wf ha2 hb2)) (bbMul_wf ha3 hb1)) (bbMul_wf ha4 hb0)) (bbMul_wf (bbAdd_wf (bbAdd_wf (bbMul_wf ha4 hb6) (bbMul_wf ha5 hb5)) (bbMul_wf ha6 hb4)) (toMonty_lt 2))) (bbMul_wf (bbAdd_wf (bbMul_wf ha5 hb6) (bbMul_wf ha6 hb5)) (toMonty_lt 5)),
      toZ_bbAdd (bbAdd_wf (bbAdd_wf (bbAdd_wf (bbAdd_wf (bbMul_wf ha0 hb4) (bbMul_wf ha1 hb3)) (bbMul_wf ha2 hb2)) (bbMul_wf ha3 hb1)) (bbMul_wf ha4 hb0)) (bbMul_wf (bbAdd_wf (bbAdd_wf (bbMul_wf ha4 hb6) (bbMul_wf ha5 hb5)) (bbMul_wf ha6 hb4)) (toMonty_lt 2)),
      toZ_bbAdd (bbAdd_wf (bbAdd_wf (bbAdd_wf (bbMul_wf ha0 hb4) (bbMul_wf ha1 hb3)) (bbMul_wf ha2 hb2)) (bbMul_wf ha3 hb1)) (bbMul_wf ha4 hb0),
      toZ_bbAdd (bbAdd_wf (bbAdd_wf (bbMul_wf ha0 hb4) (bbMul_wf ha1 hb3)) (bbMul_wf ha2 hb2)) (bbMul_wf ha3 hb1),
      toZ_bbAdd (bbAdd_wf (bbMul_wf ha0 hb4) (bbMul_wf ha1 hb3)) (bbMul_wf ha2 hb2),
      toZ_bbAdd (bbMul_wf ha0 hb4) (bbMul_wf ha1 hb3),
      toZ_bbMul ha0 hb4,
      toZ_bbMul ha1 hb3,
      toZ_bbMul ha2 hb2,
      toZ_bbMul ha3 hb1,
      toZ_bbMul ha4 hb0,
      toZ_bbMul (bbAdd_wf (bbAdd_wf (bbMul_wf ha4 hb6) (bbMul_wf ha5 hb5)) (bbMul_wf ha6 hb4)) (toMonty_lt 2),
      toZ_bbAdd (bbAdd_wf (bbMul_wf ha4 hb6) (bbMul_wf ha5 hb5)) (bbMul_wf ha6 hb4),
      toZ_bbAdd (bbMul_wf ha4 hb6) (bbMul_wf ha5 hb5),
      toZ_bbMul ha4 hb6,
      toZ_bbMul ha5 hb5,
      toZ_bbMul ha6 hb4,
      toZ_toMonty 2,
      toZ_bbMul (bbAdd_wf (bbMul_wf ha5 hb6) (bbMul_wf ha6 hb5)) (toMonty_lt 5),
      toZ_bbAdd (bbMul_wf ha5 hb6) (bbMul_wf ha6 hb5),
      toZ_bbMul ha5 hb6,
      toZ_bbMul ha6 hb5,
      toZ_toMonty 5]
    push_cast
    ring1
  · rw [toZ_bbAdd (bbAdd_wf (bbAdd_wf (bbAdd_wf (bbAdd_wf (bbAdd_wf (bbAdd_wf (bbMul_wf ha0 hb5) (bbMul_wf ha1 hb4)) (bbMul_wf ha2 hb3)) (bbMul_wf ha3 hb2)) (bbMul_wf ha4 hb1)) (bbMul_wf ha5 hb0)) (bbMul_wf (bbAdd_wf (bbMul_wf ha5 hb6) (bbMul_wf ha6 hb5)) (toMonty_lt 2))) (bbMul_wf (bbMul_wf ha6 hb6) (toMonty_lt 5)),
      toZ_bbAdd (bbAdd_wf (bbAdd_wf (bbAdd_wf (bbAdd_wf (bbAdd_wf (bbMul_wf ha0 hb5) (bbMul_wf ha1 hb4)) (bbMul_wf ha2 hb3)) (bbMul_wf ha3 hb2)) (bbMul_wf ha4 hb1)) (bbMul_wf ha5 hb0)) (bbMul_wf (bbAdd_wf (bbMul_wf ha5 hb6) (bbMul_wf ha6 hb5)) (toMonty_lt 2)),
      toZ_bbAdd (bbAdd_wf (bbAdd_wf (bbAdd_wf (bbAdd_wf (bbMul_wf ha0 hb5) (bbMul_wf ha1 hb4)) (bbMul_wf ha2 hb3)) (bbMul_wf ha3 hb2)) (bbMul_wf ha4 hb1)) (bbMul_wf ha5 hb0),
      toZ_bbAdd (bbAdd_wf (bbAdd_wf (bbAdd_wf (bbMul_wf ha0 hb5) (bbMul_wf ha1 hb4)) (bbMul_wf ha2 hb3)) (bbMul_wf ha3 hb2)) (bbMul_wf ha4 hb1),
      toZ_bbAdd (bbAdd_wf (bbAdd_wf (bbMul_wf ha0 hb5) (bbMul_wf ha1 hb4)) (bbMul_wf ha2 hb3)) (bbMul_wf ha3 hb2),
      toZ_bbAdd (bbAdd_wf (bbMul_wf ha0 hb5) (bbMul_wf ha1 hb4)) (bbMul_wf ha2 hb3),
      toZ_bbAdd (bbMul_wf ha0 hb5) (bbMul_wf ha1 hb4),
      toZ_bbMul ha0 hb5,
      toZ_bbMul ha1 hb4,
      toZ_bbMul ha2 hb3,
      toZ_bbMul ha3 hb2,
      toZ_bbMul ha4 hb1,
      toZ_bbMul ha5 hb0,
      toZ_bbMul (bbAdd_wf (bbMul_wf ha5 hb6) (bbMul_wf ha6 hb5)) (toMonty_lt 2),
      toZ_bbAdd (bbMul_wf ha5 hb6) (bbMul_wf ha6 hb5),
      toZ_bbMul ha5 hb6,
      toZ_bbMul ha6 hb5,
      toZ_toMonty 2,
      toZ_bbMul (bbMul_wf ha6 hb6) (toMonty_lt 5),
      toZ_bbMul ha6 hb6,
      toZ_toMonty 5]
    push_cast
    ring1
  · rw [toZ_bbAdd (bbAdd_wf (bbAdd_wf (bbAdd_wf (bbAdd_wf (bbAdd_wf (bbAdd_wf (bbMul_wf ha0 hb6) (bbMul_wf ha1 hb5)) (bbMul_wf ha2 hb4)) (bbMul_wf ha3 hb3)) (bbMul_wf ha4 hb2)) (bbMul_wf ha5 hb1)) (bbMul_wf ha6 hb0)) (bbMul_wf (bbMul_wf ha6 hb6) (toMonty_lt 2)),
      toZ_bbAdd (bbAdd_wf (bbAdd_wf (bbAdd_wf (bbAdd_wf (bbAdd_wf (bbMul_wf ha0 hb6) (bbMul_wf ha1 hb5)) (bbMul_wf ha2 hb4)) (bbMul_wf ha3 hb3)) (bbMul_wf ha4 hb2)) (bbMul_wf ha5 hb1)) (bbMul_wf ha6 hb0),
      toZ_bbAdd (bbAdd_wf (bbAdd_wf (bbAdd_wf (bbAdd_wf (bbMul_wf ha0 hb6) (bbMul_wf ha1 hb5)) (bbMul_wf ha2 hb4)) (bbMul_wf ha3 hb3)) (bbMul_wf ha4 hb2)) (bbMul_wf ha5 hb1),
      toZ_bbAdd (bbAdd_wf (bbAdd_wf (bbAdd_wf (bbMul_wf ha0 hb6) (bbMul_wf ha1 hb5)) (bbMul_wf ha2 hb4)) (bbMul_wf ha3 hb3)) (bbMul_wf ha4 hb2),
      toZ_bbAdd (bbAdd_wf (bbAdd_wf (bbMul_wf ha0 hb6) (bbMul_wf ha1 hb5)) (bbMul_wf ha2 hb4)) (bbMul_wf ha3 hb3),
      toZ_bbAdd (bbAdd_wf (bbMul_wf ha0 hb6) (bbMul_wf ha1 hb5)) (bbMul_wf ha2 hb4),
      toZ_bbAdd (bbMul_wf ha0 hb6) (bbMul_wf ha1 hb5),
      toZ_bbMul ha0 hb6,
      toZ_bbMul ha1 hb5,
      toZ_bbMul ha2 hb4,
      toZ_bbMul ha3 hb3,
      toZ_bbMul ha4 hb2,
      toZ_bbMul ha5 hb1,
      toZ_bbMul ha6 hb0,
      toZ_bbMul (bbMul_wf ha6 hb6) (toMonty_lt 2),
      toZ_bbMul ha6 hb6,
      toZ_toMonty 2]
    push_cast
    ring1

set_option maxHeartbeats 1000000 in
lemma frobeniusN_wf {a : Sep7 ℕ} (ha : SepWf a) : SepWf (frobeniusN a) := by
  obtain ⟨ha0, ha1, ha2, ha3, ha4, ha5, ha6⟩ := ha
  simp only [SepWf, frobeniusN]
  exact ⟨(bbAdd_wf (bbAdd_wf (bbAdd_wf (bbAdd_wf (bbAdd_wf (bbAdd_wf ha0 (bbMul_wf ha1 (toMonty_lt 954599710))) (bbMul_wf ha2 (toMonty_lt 862825265))) (bbMul_wf ha3 (toMonty_lt 596273169))) (bbMul_wf ha4 (toMonty_lt 557608863))) (bbMul_wf ha5 (toMonty_lt 763416381))) (bbMul_wf ha6 (toMonty_lt 1734711039))),
    (bbAdd_wf (bbAdd_wf (bbAdd_wf (bbAdd_wf (bbAdd_wf (bbAdd_wf bbZero_wf (bbMul_wf ha1 (toMonty_lt 1359279693))) (bbMul_wf ha2 (toMonty_lt 597046311))) (bbMul_wf ha3 (toMonty_lt 658837454))) (bbMul_wf ha4 (toMonty_lt 1173670028))) (bbMul_wf ha5 (toMonty_lt 1252567168))) (bbMul_wf ha6 (toMonty_lt 1749813853))),
    (bbAdd_wf (bbAdd_wf (bbAdd_wf (bbAdd_wf (bbAdd_wf (bbAdd_wf bbZero_wf (bbMul_wf ha1 (toMonty_lt 566669999))) (bbMul_wf ha2 (toMonty_lt 978840770))) (bbMul_wf ha3 (toMonty_lt 1515468261))) (bbMul_wf ha4 (toMonty_lt 1749546888))) (bbMul_wf ha5 (toMonty_lt 628856225))) (bbMul_wf ha6 (toMonty_lt 1227235221))),
    (bbAdd_wf (bbAdd_wf (bbAdd_wf (bbAdd_wf (bbAdd_wf (bbAdd_wf bbZero_wf (bbMul_wf ha1 (toMonty_lt 1982781815))) (bbMul_wf ha2 (toMonty_lt 1790138282))) (bbMul_wf ha3 (toMonty_lt 367059247))) (bbMul_wf ha4 (toMonty_lt 1086464137))) (bbMul_wf ha5 (toMonty_lt 1771903394))) (bbMul_wf ha6 (toMonty_lt 1707730636))),
    (bbAdd_wf (bbAdd_wf (bbAdd_wf (bbAdd_wf (bbAdd_wf (bbAdd_wf bbZero_wf (bbMul_wf ha1 (toMonty_lt 1735718361))) (bbMul_wf ha2 (toMonty_lt 1044777201))) (bbMul_wf ha3 (toMonty_lt 781278880))) (bbMul_wf ha4 (toMonty_lt 803900099))) (bbMul_wf ha5 (toMonty_lt 650712211))) (bbMul_wf ha6 (toMonty_lt 424560395))),
    (bbAdd_wf (bbAdd_wf (bbAdd_wf (bbAdd_wf (bbAdd_wf (bbAdd_wf bbZero_wf (bbMul_wf ha1 (toMonty_lt 1174868538))) (bbMul_wf ha2 (toMonty_lt 835869808))) (bbMul_wf ha3 (toMonty_lt 1544222616))) (bbMul_wf ha4 (toMonty_lt 1288818584))) (bbMul_wf ha5 (toMonty_lt 19417363))) (bbMul_wf ha6 (toMonty_lt 1007029514))),
    (bbAdd_wf (bbAdd_wf (bbAdd_wf (bbAdd_wf (bbAdd_wf (bbAdd_wf bbZero_wf (bbMul_wf ha1 (toMonty_lt 1120871770))) (bbMul_wf ha2 (toMonty_lt 1342179023))) (bbMul_wf ha3 (toMonty_lt 155490465))) (bbMul_wf ha4 (toMonty_lt 1184677604))) (bbMul_wf ha5 (toMonty_lt 57990258))) (bbMul_wf ha6 (toMonty_lt 498034669)))⟩

set_option maxHeartbeats 1000000 in
lemma toZS_frobeniusN {a : Sep7 ℕ} (ha : SepWf a) :
    toZS (frobeniusN a) = frobZ (toZS a) := by
  obtain ⟨ha0, ha1, ha2, ha3, ha4, ha5, ha6⟩ := ha
  simp only [frobeniusN, frobZ, toZS, Sep7.mk.injEq]
  refine ⟨?_, ?_, ?_, ?_, ?_, ?_, ?_⟩
  · rw [toZ_bbAdd (bbAdd_wf (bbAdd_wf (bbAdd_wf (bbAdd_wf (bbAdd_wf ha0 (bbMul_wf ha1 (toMonty_lt 954599710))) (bbMul_wf ha2 (toMonty_lt 862825265))) (bbMul_wf ha3 (toMonty_lt 596273169))) (bbMul_wf ha4 (toMonty_lt 557608863))) (bbMul_wf ha5 (toMonty_lt 763416381))) (bbMul_wf ha6 (toMonty_lt 1734711039)),
      toZ_bbAdd (bbAdd_wf (bbAdd_wf (bbAdd_wf (bbAdd_wf ha0 (bbMul_wf ha1 (toMonty_lt 954599710))) (bbMul_wf ha2 (toMonty_lt 862825265))) (bbMul_wf ha3 (toMonty_lt 596273169))) (bbMul_wf ha4 (toMonty_lt 557608863))) (bbMul_wf ha5 (toMonty_lt 763416381)),
      toZ_bbAdd (bbAdd_wf (bbAdd_wf (bbAdd_wf ha0 (bbMul_wf ha1 (toMonty_lt 954599710))) (bbMul_wf ha2 (toMonty_lt 862825265))) (bbMul_wf ha3 (toMonty_lt 596273169))) (bbMul_wf ha4 (toMonty_lt 557608863)),
      toZ_bbAdd (bbAdd_wf (bbAdd_wf ha0 (bbMul_wf ha1 (toMonty_lt 954599710))) (bbMul_wf ha2 (toMonty_lt 862825265))) (bbMul_wf ha3 (toMonty_lt 596273169)),
      toZ_bbAdd (bbAdd_wf ha0 (bbMul_wf ha1 (toMonty_lt 954599710))) (bbMul_wf ha2 (toMonty_lt 862825265)),
      toZ_bbAdd ha0 (bbMul_wf ha1 (toMonty_lt 954599710)),
      toZ_bbMul ha1 (toMonty_lt 954599710),
      toZ_toMonty 954599710,
      toZ_bbMul ha2 (toMonty_lt 862825265),
      toZ_toMonty 862825265,
      toZ_bbMul ha3 (toMonty_lt 596273169),
      toZ_toMonty 596273169,
      toZ_bbMul ha4 (toMonty_lt 557608863),
      toZ_toMonty 557608863,
      toZ_bbMul ha5 (toMonty_lt 763416381),
      toZ_toMonty 763416381,
      toZ_bbMul ha6 (toMonty_lt 1734711039),
      toZ_toMonty 1734711039]
    push_cast
    ring1
  · rw [toZ_bbAdd (bbAdd_wf (bbAdd_wf (bbAdd_wf (bbAdd_wf (bbAdd_wf bbZero_wf (bbMul_wf ha1 (toMonty_lt 1359279693))) (bbMul_wf ha2 (toMonty_lt 597046311))) (bbMul_wf ha3 (toMonty_lt 658837454))) (bbMul_wf ha4 (toMonty_lt 1173670028))) (bbMul_wf ha5 (toMonty_lt 1252567168))) (bbMul_wf ha6 (toMonty_lt 1749813853)),
      toZ_bbAdd (bbAdd_wf (bbAdd_wf (bbAdd_wf (bbAdd_wf bbZero_wf (bbMul_wf ha1 (toMonty_lt 1359279693))) (bbMul_wf ha2 (toMonty_lt 597046311))) (bbMul_wf ha3 (toMonty_lt 658837454))) (bbMul_wf ha4 (toMonty_lt 1173670028))) (bbMul_wf ha5 (toMonty_lt 1252567168)),
      toZ_bbAdd (bbAdd_wf (bbAdd_wf (bbAdd_wf bbZero_wf (bbMul_wf ha1 (toMonty_lt 1359279693))) (bbMul_wf ha2 (toMonty_lt 597046311))) (bbMul_wf ha3 (toMonty_lt 658837454))) (bbMul_wf ha4 (toMonty_lt 1173670028)),
      toZ_bbAdd (bbAdd_wf (bbAdd_wf bbZero_wf (bbMul_wf ha1 (toMonty_lt 1359279693))) (bbMul_wf ha2 (toMonty_lt 597046311))) (bbMul_wf ha3 (toMonty_lt 658837454)),
      toZ_bbAdd (bbAdd_wf bbZero_wf (bbMul_wf ha1 (toMonty_lt 1359279693))) (bbMul_wf ha2 (toMonty_lt 597046311)),
      toZ_bbAdd bbZero_wf (bbMul_wf ha1 (toMonty_lt 1359279693)),
      toZ_bbZero,
      toZ_bbMul ha1 (toMonty_lt 1359279693),
      toZ_toMonty 1359279693,
      toZ_bbMul ha2 (toMonty_lt 597046311),
      toZ_toMonty 597046311,
      toZ_bbMul ha3 (toMonty_lt 658837454),
      toZ_toMonty 658837454,
      toZ_bbMul ha4 (toMonty_lt 1173670028),
      toZ_toMonty 1173670028,
      toZ_bbMul ha5 (toMonty_lt 1252567168),
      toZ_toMonty 1252567168,
      toZ_bbMul ha6 (toMonty_lt 1749813853),
      toZ_toMonty 1749813853]
    push_cast
    ring1
  · rw [toZ_bbAdd (bbAdd_wf (bbAdd_wf (bbAdd_wf (bbAdd_wf (bbAdd_wf bbZero_wf (bbMul_wf ha1 (toMonty_lt 566669999))) (bbMul_wf ha2 (toMonty_lt 978840770))) (bbMul_wf ha3 (toMonty_lt 1515468261))) (bbMul_wf ha4 (toMonty_lt 1749546888))) (bbMul_wf ha5 (toMonty_lt 628856225))) (bbMul_wf ha6 (toMonty_lt 1227235221)),
      toZ_bbAdd (bbAdd_wf (bbAdd_wf (bbAdd_wf (bbAdd_wf bbZero_wf (bbMul_wf ha1 (toMonty_lt 566669999))) (bbMul_wf ha2 (toMonty_lt 978840770))) (bbMul_wf ha3 (toMonty_lt 1515468261))) (bbMul_wf ha4 (toMonty_lt 1749546888))) (bbMul_wf ha5 (toMonty_lt 628856225)),
      toZ_bbAdd (bbAdd_wf (bbAdd_wf (bbAdd_wf bbZero_wf (bbMul_wf ha1 (toMonty_lt 566669999))) (bbMul_wf ha2 (toMonty_lt 978840770))) (bbMul_wf ha3 (toMonty_lt 1515468261))) (bbMul_wf ha4 (toMonty_lt 1749546888)),
      toZ_bbAdd (bbAdd_wf (bbAdd_wf bbZero_wf (bbMul_wf ha1 (toMonty_lt 566669999))) (bbMul_wf ha2 (toMonty_lt 978840770))) (bbMul_wf ha3 (toMonty_lt 1515468261)),
      toZ_bbAdd (bbAdd_wf bbZero_wf (bbMul_wf ha1 (toMonty_lt 566669999))) (bbMul_wf ha2 (toMonty_lt 978840770)),
      toZ_bbAdd bbZero_wf (bbMul_wf ha1 (toMonty_lt 566669999)),
      toZ_bbZero,
      toZ_bbMul ha1 (toMonty_lt 566669999),
      toZ_toMonty 566669999,
      toZ_bbMul ha2 (toMonty_lt 978840770),
      toZ_toMonty 978840770,
      toZ_bbMul ha3 (toMonty_lt 1515468261),
      toZ_toMonty 1515468261,
      toZ_bbMul ha4 (toMonty_lt 1749546888),
      toZ_toMonty 1749546888,
      toZ_bbMul ha5 (toMonty_lt 628856225),
      toZ_toMonty 628856225,
      toZ_bbMul ha6 (toMonty_lt 1227235221),
      toZ_toMonty 1227235221]
    push_cast
    ring1
  · rw [toZ_bbAdd (bbAdd_wf (bbAdd_wf (bbAdd_wf (bbAdd_wf (bbAdd_wf bbZero_wf (bbMul_wf ha1 (toMonty_lt 1982781815))) (bbMul_wf ha2 (toMonty_lt 1790138282))) (bbMul_wf ha3 (toMonty_lt 367059247))) (bbMul_wf ha4 (toMonty_lt 1086464137))) (bbMul_wf ha5 (toMonty_lt 1771903394))) (bbMul_wf ha6 (toMonty_lt 1707730636)),
      toZ_bbAdd (bbAdd_wf (bbAdd_wf (bbAdd_wf (bbAdd_wf bbZero_wf (bbMul_wf ha1 (toMonty_lt 1982781815))) (bbMul_wf ha2 (toMonty_lt 1790138282))) (bbMul_wf ha3 (toMonty_lt 367059247))) (bbMul_wf ha4 (toMonty_lt 1086464137))) (bbMul_wf ha5 (toMonty_lt 1771903394)),
      toZ_bbAdd (bbAdd_wf (bbAdd_wf (bbAdd_wf bbZero_wf (bbMul_wf ha1 (toMonty_lt 1982781815))) (bbMul_wf ha2 (toMonty_lt 1790138282))) (bbMul_wf ha3 (toMonty_lt 367059247))) (bbMul_wf ha4 (toMonty_lt 1086464137)),
      toZ_bbAdd (bbAdd_wf (bbAdd_wf bbZero_wf (bbMul_wf ha1 (toMonty_lt 1982781815))) (bbMul_wf ha2 (toMonty_lt 1790138282))) (bbMul_wf ha3 (toMonty_lt 367059247)),
      toZ_bbAdd (bbAdd_wf bbZero_wf (bbMul_wf ha1 (toMonty_lt 1982781815))) (bbMul_wf ha2 (toMonty_lt 1790138282)),
      toZ_bbAdd bbZero_wf (bbMul_wf ha1 (toMonty_lt 1982781815)),
      toZ_bbZero,
      toZ_bbMul ha1 (toMonty_lt 1982781815),
      toZ_toMonty 1982781815,
      toZ_bbMul ha2 (toMonty_lt 1790138282),
      toZ_toMonty 1790138282,
      toZ_bbMul ha3 (toMonty_lt 367059247),
      toZ_toMonty 367059247,
      toZ_bbMul ha4 (toMonty_lt 1086464137),
      toZ_toMonty 1086464137,
      toZ_bbMul ha5 (toMonty_lt 1771903394),
      toZ_toMonty 1771903394,
      toZ_bbMul ha6 (toMonty_lt 1707730636),
      toZ_toMonty 1707730636]
    push_cast
    ring1
  · rw [toZ_bbAdd (bbAdd_wf (bbAdd_wf (bbAdd_wf (bbAdd_wf (bbAdd_wf bbZero_wf (bbMul_wf ha1 (toMonty_lt 1735718361))) (bbMul_wf ha2 (toMonty_lt 1044777201))) (bbMul_wf ha3 (toMonty_lt 781278880))) (bbMul_wf ha4 (toMonty_lt 803900099))) (bbMul_wf ha5 (toMonty_lt 650712211))) (bbMul_wf ha6 (toMonty_lt 424560395)),
      toZ_bbAdd (bbAdd_wf (bbAdd_wf (bbAdd_wf (bbAdd_wf bbZero_wf (bbMul_wf ha1 (toMonty_lt 1735718361))) (bbMul_wf ha2 (toMonty_lt 1044777201))) (bbMul_wf ha3 (toMonty_lt 781278880))) (bbMul_wf ha4 (toMonty_lt 803900099))) (bbMul_wf ha5 (toMonty_lt 650712211)),
      toZ_bbAdd (bbAdd_wf (bbAdd_wf (bbAdd_wf bbZero_wf (bbMul_wf ha1 (toMonty_lt 1735718361))) (bbMul_wf ha2 (toMonty_lt 1044777201))) (bbMul_wf ha3 (toMonty_lt 781278880))) (bbMul_wf ha4 (toMonty_lt 803900099)),
      toZ_bbAdd (bbAdd_wf (bbAdd_wf bbZero_wf (bbMul_wf ha1 (toMonty_lt 1735718361))) (bbMul_wf ha2 (toMonty_lt 1044777201))) (bbMul_wf ha3 (toMonty_lt 781278880)),
      toZ_bbAdd (bbAdd_wf bbZero_wf (bbMul_wf ha1 (toMonty_lt 1735718361))) (bbMul_wf ha2 (toMonty_lt 1044777201)),
      toZ_bbAdd bbZero_wf (bbMul_wf ha1 (toMonty_lt 1735718361)),
      toZ_bbZero,
      toZ_bbMul ha1 (toMonty_lt 1735718361),
      toZ_toMonty 1735718361,
      toZ_bbMul ha2 (toMonty_lt 1044777201),
      toZ_toMonty 1044777201,
      toZ_bbMul ha3 (toMonty_lt 781278880),
      toZ_toMonty 781278880,
      toZ_bbMul ha4 (toMonty_lt 803900099),
      toZ_toMonty 803900099,
      toZ_bbMul ha5 (toMonty_lt 650712211),
      toZ_toMonty 650712211,
      toZ_bbMul ha6 (toMonty_lt 424560395),
      toZ_toMonty 424560395]
    push_cast
    ring1
  · rw [toZ_bbAdd (bbAdd_wf (bbAdd_wf (bbAdd_wf (bbAdd_wf (bbAdd_wf bbZero_wf (bbMul_wf ha1 (toMonty_lt 1174868538))) (bbMul_wf ha2 (toMonty_lt 835869808))) (bbMul_wf ha3 (toMonty_lt 1544222616))) (bbMul_wf ha4 (toMonty_lt 1288818584))) (bbMul_wf ha5 (toMonty_lt 19417363))) (bbMul_wf ha6 (toMonty_lt 1007029514)),
      toZ_bbAdd (bbAdd_wf (bbAdd_wf (bbAdd_wf (bbAdd_wf bbZero_wf (bbMul_wf ha1 (toMonty_lt 1174868538))) (bbMul_wf ha2 (toMonty_lt 835869808))) (bbMul_wf ha3 (toMonty_lt 1544222616))) (bbMul_wf ha4 (toMonty_lt 1288818584))) (bbMul_wf ha5 (toMonty_lt 19417363)),
      toZ_bbAdd (bbAdd_wf (bbAdd_wf (bbAdd_wf bbZero_wf (bbMul_wf ha1 (toMonty_lt 1174868538))) (bbMul_wf ha2 (toMonty_lt 835869808))) (bbMul_wf ha3 (toMonty_lt 1544222616))) (bbMul_wf ha4 (toMonty_lt 1288818584)),
      toZ_bbAdd (bbAdd_wf (bbAdd_wf bbZero_wf (bbMul_wf ha1 (toMonty_lt 1174868538))) (bbMul_wf ha2 (toMonty_lt 835869808))) (bbMul_wf ha3 (toMonty_lt 1544222616)),
      toZ_bbAdd (bbAdd_wf bbZero_wf (bbMul_wf ha1 (toMonty_lt 1174868538))) (bbMul_wf ha2 (toMonty_lt 835869808)),
      toZ_bbAdd bbZero_wf (bbMul_wf ha1 (toMonty_lt 1174868538)),
      toZ_bbZero,
      toZ_bbMul ha1 (toMonty_lt 1174868538),
      toZ_toMonty 1174868538,
      toZ_bbMul ha2 (toMonty_lt 835869808),
      toZ_toMonty 835869808,
      toZ_bbMul ha3 (toMonty_lt 1544222616),
      toZ_toMonty 1544222616,
      toZ_bbMul ha4 (toMonty_lt 1288818584),
      toZ_toMonty 1288818584,
      toZ_bbMul ha5 (toMonty_lt 19417363),
      toZ_toMonty 19417363,
      toZ_bbMul ha6 (toMonty_lt 1007029514),
      toZ_toMonty 1007029514]
    push_cast
    ring1
  · rw [toZ_bbAdd (bbAdd_wf (bbAdd_wf (bbAdd_wf (bbAdd_wf (bbAdd_wf bbZero_wf (bbMul_wf ha1 (toMonty_lt 1120871770))) (bbMul_wf ha2 (toMonty_lt 1342179023))) (bbMul_wf ha3 (toMonty_lt 155490465))) (bbMul_wf ha4 (toMonty_lt 1184677604))) (bbMul_wf ha5 (toMonty_lt 57990258))) (bbMul_wf ha6 (toMonty_lt 498034669)),
      toZ_bbAdd (bbAdd_wf (bbAdd_wf (bbAdd_wf (bbAdd_wf bbZero_wf (bbMul_wf ha1 (toMonty_lt 1120871770))) (bbMul_wf ha2 (toMonty_lt 1342179023))) (bbMul_wf ha3 (toMonty_lt 155490465))) (bbMul_wf ha4 (toMonty_lt 1184677604))) (bbMul_wf ha5 (toMonty_lt 57990258)),
      toZ_bbAdd (bbAdd_wf (bbAdd_wf (bbAdd_wf bbZero_wf (bbMul_wf ha1 (toMonty_lt 1120871770))) (bbMul_wf ha2 (toMonty_lt 1342179023))) (bbMul_wf ha3 (toMonty_lt 155490465))) (bbMul_wf ha4 (toMonty_lt 1184677604)),
      toZ_bbAdd (bbAdd_wf (bbAdd_wf bbZero_wf (bbMul_wf ha1 (toMonty_lt 1120871770))) (bbMul_wf ha2 (toMonty_lt 1342179023))) (bbMul_wf ha3 (toMonty_lt 155490465)),
      toZ_bbAdd (bbAdd_wf bbZero_wf (bbMul_wf ha1 (toMonty_lt 1120871770))) (bbMul_wf ha2 (toMonty_lt 1342179023)),
      toZ_bbAdd bbZero_wf (bbMul_wf ha1 (toMonty_lt 1120871770)),
      toZ_bbZero,
      toZ_bbMul ha1 (toMonty_lt 1120871770),
      toZ_toMonty 1120871770,
      toZ_bbMul ha2 (toMonty_lt 1342179023),
      toZ_toMonty 1342179023,
      toZ_bbMul ha3 (toMonty_lt 155490465),
      toZ_toMonty 155490465,
      toZ_bbMul ha4 (toMonty_lt 1184677604),
      toZ_toMonty 1184677604,
      toZ_bbMul ha5 (toMonty_lt 57990258),
      toZ_toMonty 57990258,
      toZ_bbMul ha6 (toMonty_lt 498034669),
      toZ_toMonty 498034669]
    push_cast
    ring1

set_option maxHeartbeats 1000000 in
lemma doubleFrobeniusN_wf {a : Sep7 ℕ} (ha : SepWf a) : SepWf (doubleFrobeniusN a) := by
  obtain ⟨ha0, ha1, ha2, ha3, ha4, ha5, ha6⟩ := ha
  simp only [SepWf, doubleFrobeniusN]
  exact ⟨(bbAdd_wf (bbAdd_wf (bbAdd_wf (bbAdd_wf (bbAdd_wf (bbAdd_wf ha0 (bbMul_wf ha1 (toMonty_lt 1013489358))) (bbMul_wf ha2 (toMonty_lt 209824426))) (bbMul_wf ha3 (toMonty_lt 1475628651))) (bbMul_wf ha4 (toMonty_lt 550038364))) (bbMul_wf ha5 (toMonty_lt 882720258))) (bbMul_wf ha6 (toMonty_lt 738287111))),
    (bbAdd_wf (bbAdd_wf (bbAdd_wf (bbAdd_wf (bbAdd_wf (bbAdd_wf bbZero_wf (bbMul_wf ha1 (toMonty_lt 1619071628))) (bbMul_wf ha2 (toMonty_lt 1313900768))) (bbMul_wf ha3 (toMonty_lt 777565847))) (bbMul_wf ha4 (toMonty_lt 948935655))) (bbMul_wf ha5 (toMonty_lt 821925756))) (bbMul_wf ha6 (toMonty_lt 1955364991))),
    (bbAdd_wf (bbAdd_wf (bbAdd_wf (bbAdd_wf (bbAdd_wf (bbAdd_wf bbZero_wf (bbMul_wf ha1 (toMonty_lt 304593143))) (bbMul_wf ha2 (toMonty_lt 38410482))) (bbMul_wf ha3 (toMonty_lt 704492386))) (bbMul_wf ha4 (toMonty_lt 68722023))) (bbMul_wf ha5 (toMonty_lt 199955840))) (bbMul_wf ha6 (toMonty_lt 552724293))),
    (bbAdd_wf (bbAdd_wf (bbAdd_wf (bbAdd_wf (bbAdd_wf (bbAdd_wf bbZero_wf (bbMul_wf ha1 (toMonty_lt 1949397349))) (bbMul_wf ha2 (toMonty_lt 256593180))) (bbMul_wf ha3 (toMonty_lt 1218528120))) (bbMul_wf ha4 (toMonty_lt 1251345762))) (bbMul_wf ha5 (toMonty_lt 812002876))) (bbMul_wf ha6 (toMonty_lt 1175775744))),
    (bbAdd_wf (bbAdd_wf (bbAdd_wf (bbAdd_wf (bbAdd_wf (bbAdd_wf bbZero_wf (bbMul_wf ha1 (toMonty_lt 1564307636))) (bbMul_wf ha2 (toMonty_lt 1708830551))) (bbMul_wf ha3 (toMonty_lt 1245363405))) (bbMul_wf ha4 (toMonty_lt 1692456177))) (bbMul_wf ha5 (toMonty_lt 1484951277))) (bbMul_wf ha6 (toMonty_lt 341623997))),
    (bbAdd_wf (bbAdd_wf (bbAdd_wf (bbAdd_wf (bbAdd_wf (bbAdd_wf bbZero_wf (bbMul_wf ha1 (toMonty_lt 327761151))) (bbMul_wf ha2 (toMonty_lt 1244995038))) (bbMul_wf ha3 (toMonty_lt 475884575))) (bbMul_wf ha4 (toMonty_lt 1177958698))) (bbMul_wf ha5 (toMonty_lt 1063138035))) (bbMul_wf ha6 (toMonty_lt 1454022463))),
    (bbAdd_wf (bbAdd_wf (bbAdd_wf (bbAdd_wf (bbAdd_wf (bbAdd_wf bbZero_wf (bbMul_wf ha1 (toMonty_lt 415430835))) (bbMul_wf ha2 (toMonty_lt 1555324019))) (bbMul_wf ha3 (toMonty_lt 649166061))) (bbMul_wf ha4 (toMonty_lt 350232928))) (bbMul_wf ha5 (toMonty_lt 491712810))) (bbMul_wf ha6 (toMonty_lt 408193320)))⟩

set_option maxHeartbeats 1000000 in
lemma toZS_doubleFrobeniusN {a : Sep7 ℕ} (ha : SepWf a) :
    toZS (doubleFrobeniusN a) = dfrobZ (toZS a) := by
  obtain ⟨ha0, ha1, ha2, ha3, ha4, ha5, ha6⟩ := ha
  simp only [doubleFrobeniusN, dfrobZ, toZS, Sep7.mk.injEq]
  refine ⟨?_, ?_, ?_, ?_, ?_, ?_, ?_⟩
  · rw [toZ_bbAdd (bbAdd_wf (bbAdd_wf (bbAdd_wf (bbAdd_wf (bbAdd_wf ha0 (bbMul_wf ha1 (toMonty_lt 1013489358))) (bbMul_wf ha2 (toMonty_lt 209824426))) (bbMul_wf ha3 (toMonty_lt 1475628651))) (bbMul_wf ha4 (toMonty_lt 550038364))) (bbMul_wf ha5 (toMonty_lt 882720258))) (bbMul_wf ha6 (toMonty_lt 738287111)),
      toZ_bbAdd (bbAdd_wf (bbAdd_wf (bbAdd_wf (bbAdd_wf ha0 (bbMul_wf ha1 (toMonty_lt 1013489358))) (bbMul_wf ha2 (toMonty_lt 209824426))) (bbMul_wf ha3 (toMonty_lt 1475628651))) (bbMul_wf ha4 (toMonty_lt 550038364))) (bbMul_wf ha5 (toMonty_lt 882720258)),
      toZ_bbAdd (bbAdd_wf (bbAdd_wf (bbAdd_wf ha0 (bbMul_wf ha1 (toMonty_lt 1013489358))) (bbMul_wf ha2 (toMonty_lt 209824426))) (bbMul_wf ha3 (toMonty_lt 1475628651))) (bbMul_wf ha4 (toMonty_lt 550038364)),
      toZ_bbAdd (bbAdd_wf (bbAdd_wf ha0 (bbMul_wf ha1 (toMonty_lt 1013489358))) (bbMul_wf ha2 (toMonty_lt 209824426))) (bbMul_wf ha3 (toMonty_lt 1475628651)),
      toZ_bbAdd (bbAdd_wf ha0 (bbMul_wf ha1 (toMonty_lt 1013489358))) (bbMul_wf ha2 (toMonty_lt 209824426)),
      toZ_bbAdd ha0 (bbMul_wf ha1 (toMonty_lt 1013489358)),
      toZ_bbMul ha1 (toMonty_lt 1013489358),
      toZ_toMonty 1013489358,
      toZ_bbMul ha2 (toMonty_lt 209824426),
      toZ_toMonty 209824426,
      toZ_bbMul ha3 (toMonty_lt 1475628651),
      toZ_toMonty 1475628651,
      toZ_bbMul ha4 (toMonty_lt 550038364),
      toZ_toMonty 550038364,
      toZ_bbMul ha5 (toMonty_lt 882720258),
      toZ_toMonty 882720258,
      toZ_bbMul ha6 (toMonty_lt 738287111),
      toZ_toMonty 738287111]
    push_cast
    ring1
  · rw [toZ_bbAdd (bbAdd_wf (bbAdd_wf (bbAdd_wf (bbAdd_wf (bbAdd_wf bbZero_wf (bbMul_wf ha1 (toMonty_lt 1619071628))) (bbMul_wf ha2 (toMonty_lt 1313900768))) (bbMul_wf ha3 (toMonty_lt 777565847))) (bbMul_wf ha4 (toMonty_lt 948935655))) (bbMul_wf ha5 (toMonty_lt 821925756))) (bbMul_wf ha6 (toMonty_lt 1955364991)),
      toZ_bbAdd (bbAdd_wf (bbAdd_wf (bbAdd_wf (bbAdd_wf bbZero_wf (bbMul_wf ha1 (toMonty_lt 1619071628))) (bbMul_wf ha2 (toMonty_lt 1313900768))) (bbMul_wf ha3 (toMonty_lt 777565847))) (bbMul_wf ha4 (toMonty_lt 948935655))) (bbMul_wf ha5 (toMonty_lt 821925756)),
      toZ_bbAdd (bbAdd_wf (bbAdd_wf (bbAdd_wf bbZero_wf (bbMul_wf ha1 (toMonty_lt 1619071628))) (bbMul_wf ha2 (toMonty_lt 1313900768))) (bbMul_wf ha3 (toMonty_lt 777565847))) (bbMul_wf ha4 (toMonty_lt 948935655)),
      toZ_bbAdd (bbAdd_wf (bbAdd_wf bbZero_wf (bbMul_wf ha1 (toMonty_lt 1619071628))) (bbMul_wf ha2 (toMonty_lt 1313900768))) (bbMul_wf ha3 (toMonty_lt 777565847)),
      toZ_bbAdd (bbAdd_wf bbZero_wf (bbMul_wf ha1 (toMonty_lt 1619071628))) (bbMul_wf ha2 (toMonty_lt 1313900768)),
      toZ_bbAdd bbZero_wf (bbMul_wf ha1 (toMonty_lt 1619071628)),
      toZ_bbZero,
      toZ_bbMul ha1 (toMonty_lt 1619071628),
      toZ_toMonty 1619071628,
      toZ_bbMul ha2 (toMonty_lt 1313900768),
      toZ_toMonty 1313900768,
      toZ_bbMul ha3 (toMonty_lt 777565847),
      toZ_toMonty 777565847,
      toZ_bbMul ha4 (toMonty_lt 948935655),
      toZ_toMonty 948935655,
      toZ_bbMul ha5 (toMonty_lt 821925756),
      toZ_toMonty 821925756,
      toZ_bbMul ha6 (toMonty_lt 1955364991),
      toZ_toMonty 1955364991]
    push_cast
    ring1
  · rw [toZ_bbAdd (bbAdd_wf (bbAdd_wf (bbAdd_wf (bbAdd_wf (bbAdd_wf bbZero_wf (bbMul_wf ha1 (toMonty_lt 304593143))) (bbMul_wf ha2 (toMonty_lt 38410482))) (bbMul_wf ha3 (toMonty_lt 704492386))) (bbMul_wf ha4 (toMonty_lt 68722023))) (bbMul_wf ha5 (toMonty_lt 199955840))) (bbMul_wf ha6 (toMonty_lt 552724293)),
      toZ_bbAdd (bbAdd_wf (bbAdd_wf (bbAdd_wf (bbAdd_wf bbZero_wf (bbMul_wf ha1 (toMonty_lt 304593143))) (bbMul_wf ha2 (toMonty_lt 38410482))) (bbMul_wf ha3 (toMonty_lt 704492386))) (bbMul_wf ha4 (toMonty_lt 68722023))) (bbMul_wf ha5 (toMonty_lt 199955840)),
      toZ_bbAdd (bbAdd_wf (bbAdd_wf (bbAdd_wf bbZero_wf (bbMul_wf ha1 (toMonty_lt 304593143))) (bbMul_wf ha2 (toMonty_lt 38410482))) (bbMul_wf ha3 (toMonty_lt 704492386))) (bbMul_wf ha4 (toMonty_lt 68722023)),
      toZ_bbAdd (bbAdd_wf (bbAdd_wf bbZero_wf (bbMul_wf ha1 (toMonty_lt 304593143))) (bbMul_wf ha2 (toMonty_lt 38410482))) (bbMul_wf ha3 (toMonty_lt 704492386)),
      toZ_bbAdd (bbAdd_wf bbZero_wf (bbMul_wf ha1 (toMonty_lt 304593143))) (bbMul_wf ha2 (toMonty_lt 38410482)),
      toZ_bbAdd bbZero_wf (bbMul_wf ha1 (toMonty_lt 304593143)),
      toZ_bbZero,
      toZ_bbMul ha1 (toMonty_lt 304593143),
      toZ_toMonty 304593143,
      toZ_bbMul ha2 (toMonty_lt 38410482),
      toZ_toMonty 38410482,
      toZ_bbMul ha3 (toMonty_lt 704492386),
      toZ_toMonty 704492386,
      toZ_bbMul ha4 (toMonty_lt 68722023),
      toZ_toMonty 68722023,
      toZ_bbMul ha5 (toMonty_lt 199955840),
      toZ_toMonty 199955840,
      toZ_bbMul ha6 (toMonty_lt 552724293),
      toZ_toMonty 552724293]
    push_cast
    ring1
  · rw [toZ_bbAdd (bbAdd_wf (bbAdd_wf (bbAdd_wf (bbAdd_wf (bbAdd_wf bbZero_wf (bbMul_wf ha1 (toMonty_lt 1949397349))) (bbMul_wf ha2 (toMonty_lt 256593180))) (bbMul_wf ha3 (toMonty_lt 1218528120))) (bbMul_wf ha4 (toMonty_lt 1251345762))) (bbMul_wf ha5 (toMonty_lt 812002876))) (bbMul_wf ha6 (toMonty_lt 1175775744)),
      toZ_bbAdd (bbAdd_wf (bbAdd_wf (bbAdd_wf (bbAdd_wf bbZero_wf (bbMul_wf ha1 (toMonty_lt 1949397349))) (bbMul_wf ha2 (toMonty_lt 256593180))) (bbMul_wf ha3 (toMonty_lt 1218528120))) (bbMul_wf ha4 (toMonty_lt 1251345762))) (bbMul_wf ha5 (toMonty_lt 812002876)),
      toZ_bbAdd (bbAdd_wf (bbAdd_wf (bbAdd_wf bbZero_wf (bbMul_wf ha1 (toMonty_lt 1949397349))) (bbMul_wf ha2 (toMonty_lt 256593180))) (bbMul_wf ha3 (toMonty_lt 1218528120))) (bbMul_wf ha4 (toMonty_lt 1251345762)),
      toZ_bbAdd (bbAdd_wf (bbAdd_wf bbZero_wf (bbMul_wf ha1 (toMonty_lt 1949397349))) (bbMul_wf ha2 (toMonty_lt 256593180))) (bbMul_wf ha3 (toMonty_lt 1218528120)),
      toZ_bbAdd (bbAdd_wf bbZero_wf (bbMul_wf ha1 (toMonty_lt 1949397349))) (bbMul_wf ha2 (toMonty_lt 256593180)),
      toZ_bbAdd bbZero_wf (bbMul_wf ha1 (toMonty_lt 1949397349)),
      toZ_bbZero,
      toZ_bbMul ha1 (toMonty_lt 1949397349),
      toZ_toMonty 1949397349,
      toZ_bbMul ha2 (toMonty_lt 256593180),
      toZ_toMonty 256593180,
      toZ_bbMul ha3 (toMonty_lt 1218528120),
      toZ_toMonty 1218528120,
      toZ_bbMul ha4 (toMonty_lt 1251345762),
      toZ_toMonty 1251345762,
      toZ_bbMul ha5 (toMonty_lt 812002876),
      toZ_toMonty 812002876,
      toZ_bbMul ha6 (toMonty_lt 1175775744),
      toZ_toMonty 1175775744]
    push_cast
    ring1
  · rw [toZ_bbAdd (bbAdd_wf (bbAdd_wf (bbAdd_wf (bbAdd_wf (bbAdd_wf bbZero_wf (bbMul_wf ha1 (toMonty_lt 1564307636))) (bbMul_wf ha2 (toMonty_lt 1708830551))) (bbMul_wf ha3 (toMonty_lt 1245363405))) (bbMul_wf ha4 (toMonty_lt 1692456177))) (bbMul_wf ha5 (toMonty_lt 1484951277))) (bbMul_wf ha6 (toMonty_lt 341623997)),
      toZ_bbAdd (bbAdd_wf (bbAdd_wf (bbAdd_wf (bbAdd_wf bbZero_wf (bbMul_wf ha1 (toMonty_lt 1564307636))) (bbMul_wf ha2 (toMonty_lt 1708830551))) (bbMul_wf ha3 (toMonty_lt 1245363405))) (bbMul_wf ha4 (toMonty_lt 1692456177))) (bbMul_wf ha5 (toMonty_lt 1484951277)),
      toZ_bbAdd (bbAdd_wf (bbAdd_wf (bbAdd_wf bbZero_wf (bbMul_wf ha1 (toMonty_lt 1564307636))) (bbMul_wf ha2 (toMonty_lt 1708830551))) (bbMul_wf ha3 (toMonty_lt 1245363405))) (bbMul_wf ha4 (toMonty_lt 1692456177)),
      toZ_bbAdd (bbAdd_wf (bbAdd_wf bbZero_wf (bbMul_wf ha1 (toMonty_lt 1564307636))) (bbMul_wf ha2 (toMonty_lt 1708830551))) (bbMul_wf ha3 (toMonty_lt 1245363405)),
      toZ_bbAdd (bbAdd_wf bbZero_wf (bbMul_wf ha1 (toMonty_lt 1564307636))) (bbMul_wf ha2 (toMonty_lt 1708830551)),
      toZ_bbAdd bbZero_wf (bbMul_wf ha1 (toMonty_lt 1564307636)),
      toZ_bbZero,
      toZ_bbMul ha1 (toMonty_lt 1564307636),
      toZ_toMonty 1564307636,
      toZ_bbMul ha2 (toMonty_lt 1708830551),
      toZ_toMonty 1708830551,
      toZ_bbMul ha3 (toMonty_lt 1245363405),
      toZ_toMonty 1245363405,
      toZ_bbMul ha4 (toMonty_lt 1692456177),
      toZ_toMonty 1692456177,
      toZ_bbMul ha5 (toMonty_lt 1484951277),
      toZ_toMonty 1484951277,
      toZ_bbMul ha6 (toMonty_lt 341623997),
      toZ_toMonty 341623997]
    push_cast
    ring1
  · rw [toZ_bbAdd (bbAdd_wf (bbAdd_wf (bbAdd_wf (bbAdd_wf (bbAdd_wf bbZero_wf (bbMul_wf ha1 (toMonty_lt 327761151))) (bbMul_wf ha2 (toMonty_lt 1244995038))) (bbMul_wf ha3 (toMonty_lt 475884575))) (bbMul_wf ha4 (toMonty_lt 1177958698))) (bbMul_wf ha5 (toMonty_lt 1063138035))) (bbMul_wf ha6 (toMonty_lt 1454022463)),
      toZ_bbAdd (bbAdd_wf (bbAdd_wf (bbAdd_wf (bbAdd_wf bbZero_wf (bbMul_wf ha1 (toMonty_lt 327761151))) (bbMul_wf ha2 (toMonty_lt 1244995038))) (bbMul_wf ha3 (toMonty_lt 475884575))) (bbMul_wf ha4 (toMonty_lt 1177958698))) (bbMul_wf ha5 (toMonty_lt 1063138035)),
      toZ_bbAdd (bbAdd_wf (bbAdd_wf (bbAdd_wf bbZero_wf (bbMul_wf ha1 (toMonty_lt 327761151))) (bbMul_wf ha2 (toMonty_lt 1244995038))) (bbMul_wf ha3 (toMonty_lt 475884575))) (bbMul_wf ha4 (toMonty_lt 1177958698)),
      toZ_bbAdd (bbAdd_wf (bbAdd_wf bbZero_wf (bbMul_wf ha1 (toMonty_lt 327761151))) (bbMul_wf ha2 (toMonty_lt 1244995038))) (bbMul_wf ha3 (toMonty_lt 475884575)),
      toZ_bbAdd (bbAdd_wf bbZero_wf (bbMul_wf ha1 (toMonty_lt 327761151))) (bbMul_wf ha2 (toMonty_lt 1244995038)),
      toZ_bbAdd bbZero_wf (bbMul_wf ha1 (toMonty_lt 327761151)),
      toZ_bbZero,
      toZ_bbMul ha1 (toMonty_lt 327761151),
      toZ_toMonty 327761151,
      toZ_bbMul ha2 (toMonty_lt 1244995038),
      toZ_toMonty 1244995038,
      toZ_bbMul ha3 (toMonty_lt 475884575),
      toZ_toMonty 475884575,
      toZ_bbMul ha4 (toMonty_lt 1177958698),
      toZ_toMonty 1177958698,
      toZ_bbMul ha5 (toMonty_lt 1063138035),
      toZ_toMonty 1063138035,
      toZ_bbMul ha6 (toMonty_lt 1454022463),
      toZ_toMonty 1454022463]
    push_cast
    ring1
  · rw [toZ_bbAdd (bbAdd_wf (bbAdd_wf (bbAdd_wf (bbAdd_wf (bbAdd_wf bbZero_wf (bbMul_wf ha1 (toMonty_lt 415430835))) (bbMul_wf ha2 (toMonty_lt 1555324019))) (bbMul_wf ha3 (toMonty_lt 649166061))) (bbMul_wf ha4 (toMonty_lt 350232928))) (bbMul_wf ha5 (toMonty_lt 491712810))) (bbMul_wf ha6 (toMonty_lt 408193320)),
      toZ_bbAdd (bbAdd_wf (bbAdd_wf (bbAdd_wf (bbAdd_wf bbZero_wf (bbMul_wf ha1 (toMonty_lt 415430835))) (bbMul_wf ha2 (toMonty_lt 1555324019))) (bbMul_wf ha3 (toMonty_lt 649166061))) (bbMul_wf ha4 (toMonty_lt 350232928))) (bbMul_wf ha5 (toMonty_lt 491712810)),
      toZ_bbAdd (bbAdd_wf (bbAdd_wf (bbAdd_wf bbZero_wf (bbMul_wf ha1 (toMonty_lt 415430835))) (bbMul_wf ha2 (toMonty_lt 1555324019))) (bbMul_wf ha3 (toMonty_lt 649166061))) (bbMul_wf ha4 (toMonty_lt 350232928)),
      toZ_bbAdd (bbAdd_wf (bbAdd_wf bbZero_wf (bbMul_wf ha1 (toMonty_lt 415430835))) (bbMul_wf ha2 (toMonty_lt 1555324019))) (bbMul_wf ha3 (toMonty_lt 649166061)),
      toZ_bbAdd (bbAdd_wf bbZero_wf (bbMul_wf ha1 (toMonty_lt 415430835))) (bbMul_wf ha2 (toMonty_lt 1555324019)),
      toZ_bbAdd bbZero_wf (bbMul_wf ha1 (toMonty_lt 415430835)),
      toZ_bbZero,
      toZ_bbMul ha1 (toMonty_lt 415430835),
      toZ_toMonty 415430835,
      toZ_bbMul ha2 (toMonty_lt 1555324019),
      toZ_toMonty 1555324019,
      toZ_bbMul ha3 (toMonty_lt 649166061),
      toZ_toMonty 649166061,
      toZ_bbMul ha4 (toMonty_lt 350232928),
      toZ_toMonty 350232928,
      toZ_bbMul ha5 (toMonty_lt 491712810),
      toZ_toMonty 491712810,
      toZ_bbMul ha6 (toMonty_lt 408193320),
      toZ_toMonty 408193320]
    push_cast
    ring1

lemma powR1N_wf {a : Sep7 ℕ} (ha : SepWf a) : SepWf (powR1N a) := by
  unfold powR1N
  exact mulN_wf (mulN_wf (mulN_wf (frobeniusN_wf ha) (doubleFrobeniusN_wf ha))
      (doubleFrobeniusN_wf (mulN_wf (frobeniusN_wf ha) (doubleFrobeniusN_wf ha))))
    (doubleFrobeniusN_wf (doubleFrobeniusN_wf
      (mulN_wf (frobeniusN_wf ha) (doubleFrobeniusN_wf ha))))

lemma toZS_powR1N {a : Sep7 ℕ} (ha : SepWf a) :
    toZS (powR1N a) = powR1Z (toZS a) := by
  unfold powR1N powR1Z
  simp only
  have h1 : SepWf (mulN (frobeniusN a) (doubleFrobeniusN a)) :=
    mulN_wf (frobeniusN_wf ha) (doubleFrobeniusN_wf ha)
  have h2 : SepWf (doubleFrobeniusN (mulN (frobeniusN a) (doubleFrobeniusN a))) :=
    doubleFrobeniusN_wf h1
  rw [toZS_mulN (mulN_wf h1 h2) (doubleFrobeniusN_wf h2),
    toZS_mulN h1 h2, toZS_doubleFrobeniusN h2, toZS_doubleFrobeniusN h1,
    toZS_mulN (frobeniusN_wf ha) (doubleFrobeniusN_wf ha),
    toZS_frobeniusN ha, toZS_doubleFrobeniusN ha]

/-! ### Layer 2: the quotient ring `K[X]/(X^7 - 2X - 5)` -/

open Polynomial in
/-- The irreducible polynomial defining the septic extension:
`x^7 = 2x + 5` is the reduction rule of the source. -/
noncomputable def fpoly : Polynomial K := X ^ 7 - C 2 * X - C 5

/-- The septic extension as a quotient ring. -/
abbrev F7 : Type := AdjoinRoot fpoly

/-- The residue class of `X`. -/
noncomputable def rt : F7 := AdjoinRoot.root fpoly

/-- A 7-tuple of `ZMod P` coefficients read as an element of `F7`. -/
noncomputable def phi (v : Sep7 K) : F7 :=
  algebraMap K F7 v.c0 + algebraMap K F7 v.c1 * rt + algebraMap K F7 v.c2 * rt ^ 2 +
    algebraMap K F7 v.c3 * rt ^ 3 + algebraMap K F7 v.c4 * rt ^ 4 +
    algebraMap K F7 v.c5 * rt ^ 5 + algebraMap K F7 v.c6 * rt ^ 6

lemma fpoly_monic : fpoly.Monic := by
  unfold fpoly
  monicity!

lemma fpoly_natDegree : fpoly.natDegree = 7 := by
  unfold fpoly
  compute_degree!

lemma fpoly_ne_zero : fpoly ≠ 0 := fpoly_monic.ne_zero

lemma rt_pow7 : rt ^ 7 = 2 * rt + 5 := by
  have h : Polynomial.aeval rt fpoly = 0 := by
    rw [rt, AdjoinRoot.aeval_eq, AdjoinRoot.mk_self]
  unfold fpoly at h
  simp only [map_sub, map_pow, map_mul, Polynomial.aeval_X, Polynomial.aeval_C,
    map_ofNat] at h
  rw [sub_sub, sub_eq_zero] at h
  exact h

lemma phi_add (a b : Sep7 K) : phi (addZ a b) = phi a + phi b := by
  simp only [phi, addZ, map_add]
  ring

lemma phi_sub (a b : Sep7 K) : phi (subZ a b) = phi a - phi b := by
  simp only [phi, subZ, map_sub]
  ring

lemma phi_zero : phi zeroZ = 0 := by
  simp [phi, zeroZ]

lemma phi_one : phi oneZ = 1 := by
  simp [phi, oneZ]

lemma phi_mulBase (a : Sep7 K) (c : K) : phi (mulBaseZ a c) = phi a * algebraMap K F7 c := by
  simp only [phi, mulBaseZ, map_mul]
  ring

lemma phi_mul (a b : Sep7 K) : phi (mulZ a b) = phi a * phi b := by
  have am : K → F7 := algebraMap K F7
  simp only [phi, mulZ, map_add, map_mul, map_ofNat]
  have h7 := rt_pow7
  linear_combination (0 - ((algebraMap K F7 a.c1 * algebraMap K F7 b.c6 + algebraMap K F7 a.c2 * algebraMap K F7 b.c5 + algebraMap K F7 a.c3 * algebraMap K F7 b.c4 + algebraMap K F7 a.c4 * algebraMap K F7 b.c3 + algebraMap K F7 a.c5 * algebraMap K F7 b.c2 + algebraMap K F7 a.c6 * algebraMap K F7 b.c1) + (algebraMap K F7 a.c2 * algebraMap K F7 b.c6 + algebraMap K F7 a.c3 * algebraMap K F7 b.c5 + algebraMap K F7 a.c4 * algebraMap K F7 b.c4 + algebraMap K F7 a.c5 * algebraMap K F7 b.c3 + algebraMap K F7 a.c6 * algebraMap K F7 b.c2) * rt ^ 1 + (algebraMap K F7 a.c3 * algebraMap K F7 b.c6 + algebraMap K F7 a.c4 * algebraMap K F7 b.c5 + algebraMap K F7 a.c5 * algebraMap K F7 b.c4 + algebraMap K F7 a.c6 * algebraMap K F7 b.c3) * rt ^ 2 + (algebraMap K F7 a.c4 * algebraMap K F7 b.c6 + algebraMap K F7 a.c5 * algebraMap K F7 b.c5 + algebraMap K F7 a.c6 * algebraMap K F7 b.c4) * rt ^ 3 + (algebraMap K F7 a.c5 * algebraMap K F7 b.c6 + algebraMap K F7 a.c6 * algebraMap K F7 b.c5) * rt ^ 4 + (algebraMap K F7 a.c6 * algebraMap K F7 b.c6) * rt ^ 5)) * h7

lemma fpoly_degree : fpoly.degree = 7 := by
  unfold fpoly
  compute_degree!

open Polynomial in
/-- The polynomial of degree `< 7` with the given coefficient tuple. -/
noncomputable def toPoly (v : Sep7 K) : Polynomial K :=
  C v.c0 + C v.c1 * X + C v.c2 * X ^ 2 + C v.c3 * X ^ 3 + C v.c4 * X ^ 4 +
    C v.c5 * X ^ 5 + C v.c6 * X ^ 6

lemma toPoly_degree_le (v : Sep7 K) : (toPoly v).degree ≤ 6 := by
  unfold toPoly
  compute_degree

lemma phi_eq_mk (v : Sep7 K) : phi v = AdjoinRoot.mk fpoly (toPoly v) := by
  simp only [phi, toPoly, map_add, map_mul, map_pow, AdjoinRoot.mk_X, AdjoinRoot.mk_C,
    AdjoinRoot.algebraMap_eq, rt]

lemma toPoly_inj {u v : Sep7 K} (h : toPoly u = toPoly v) : u = v := by
  obtain ⟨u0, u1, u2, u3, u4, u5, u6⟩ := u
  obtain ⟨v0, v1, v2, v3, v4, v5, v6⟩ := v
  simp only [Sep7.mk.injEq]
  refine ⟨?_, ?_, ?_, ?_, ?_, ?_, ?_⟩
  · have h0 := congrArg (fun p => Polynomial.coeff p 0) h
    simpa [toPoly, Polynomial.coeff_add, Polynomial.coeff_C_mul,
      Polynomial.coeff_X_pow, Polynomial.coeff_C] using h0
  · have h1 := congrArg (fun p => Polynomial.coeff p 1) h
    simpa [toPoly, Polynomial.coeff_add, Polynomial.coeff_C_mul,
      Polynomial.coeff_X_pow, Polynomial.coeff_C] using h1
  · have h2 := congrArg (fun p => Polynomial.coeff p 2) h
    simpa [toPoly, Polynomial.coeff_add, Polynomial.coeff_C_mul,
      Polynomial.coeff_X_pow, Polynomial.coeff_C] using h2
  · have h3 := congrArg (fun p => Polynomial.coeff p 3) h
    simpa [toPoly, Polynomial.coeff_add, Polynomial.coeff_C_mul,
      Polynomial.coeff_X_pow, Polynomial.coeff_C] using h3
  · have h4 := congrArg (fun p => Polynomial.coeff p 4) h
    simpa [toPoly, Polynomial.coeff_add, Polynomial.coeff_C_mul,
      Polynomial.coeff_X_pow, Polynomial.coeff_C] using h4
  · have h5 := congrArg (fun p => Polynomial.coeff p 5) h
    simpa [toPoly, Polynomial.coeff_add, Polynomial.coeff_C_mul,
      Polynomial.coeff_X_pow, Polynomial.coeff_C] using h5
  · have h6 := congrArg (fun p => Polynomial.coeff p 6) h
    simpa [toPoly, Polynomial.coeff_add, Polynomial.coeff_C_mul,
      Polynomial.coeff_X_pow, Polynomial.coeff_C] using h6

lemma phi_inj {u v : Sep7 K} (h : phi u = phi v) : u = v := by
  rw [phi_eq_mk, phi_eq_mk] at h
  rw [AdjoinRoot.mk_eq_mk] at h
  have hz : toPoly u - toPoly v = 0 := by
    by_contra hne
    have hdeg := Polynomial.degree_le_of_dvd h hne
    have hlt : (toPoly u - toPoly v).degree ≤ 6 :=
      le_trans (Polynomial.degree_sub_le _ _) (by
        simp [toPoly_degree_le])
    rw [fpoly_degree] at hdeg
    have : (7 : WithBot ℕ) ≤ 6 := le_trans hdeg hlt
    exact absurd this (by decide)
  exact toPoly_inj (sub_eq_zero.mp hz)

/-! ### Power certificates in the septic extension -/

/-- Binary exponentiation on stored septic values, fuel-indexed. -/
def powSN : ℕ → Sep7 ℕ → ℕ → Sep7 ℕ
  | 0, _, _ => oneN
  | fuel + 1, b, e =>
    if e = 0 then oneN
    else
      let h := powSN fuel (mulN b b) (e / 2)
      if e % 2 = 1 then mulN b h else h

lemma oneN_wf : SepWf oneN := by
  refine ⟨?_, ?_, ?_, ?_, ?_, ?_, ?_⟩ <;> decide

lemma powSN_wf : ∀ (fuel : ℕ) (b : Sep7 ℕ) (e : ℕ), SepWf b → SepWf (powSN fuel b e)
  | 0, _, _, _ => oneN_wf
  | fuel + 1, b, e, hb => by
    simp only [powSN]
    split
    · exact oneN_wf
    · split
      · exact mulN_wf hb (powSN_wf fuel _ _ (mulN_wf hb hb))
      · exact powSN_wf fuel _ _ (mulN_wf hb hb)

/-- Interpretation of a stored septic value in the quotient ring `F7`. -/
noncomputable def phiN (v : Sep7 ℕ) : F7 := phi (toZS v)

lemma phiN_mul {a b : Sep7 ℕ} (ha : SepWf a) (hb : SepWf b) :
    phiN (mulN a b) = phiN a * phiN b := by
  unfold phiN
  rw [toZS_mulN ha hb, phi_mul]

lemma phiN_sub {a b : Sep7 ℕ} (ha : SepWf a) (hb : SepWf b) :
    phiN (subN a b) = phiN a - phiN b := by
  unfold phiN
  rw [toZS_subN ha hb, phi_sub]

lemma phiN_one : phiN oneN = 1 := by
  unfold phiN
  have h : toZS oneN = oneZ := by
    simp only [toZS, oneN, oneZ, Sep7.mk.injEq]
    exact ⟨toZ_bbOne, toZ_zero, toZ_zero, toZ_zero, toZ_zero, toZ_zero, toZ_zero⟩
  rw [h, phi_one]

lemma phiN_pow (fuel : ℕ) : ∀ (b : Sep7 ℕ) (e : ℕ), SepWf b → e < 2 ^ fuel →
    phiN (powSN fuel b e) = phiN b ^ e := by
  induction fuel with
  | zero =>
    intro b e _ he
    have he0 : e = 0 := by simpa using Nat.lt_one_iff.mp (by simpa using he)
    subst he0
    simp only [powSN, pow_zero]
    exact phiN_one
  | succ fuel ih =>
    intro b e hb he
    simp only [powSN]
    by_cases he0 : e = 0
    · subst he0
      simp only [if_pos rfl, pow_zero]
      exact phiN_one
    · rw [if_neg he0]
      have hlt : e / 2 < 2 ^ fuel := by
        have h2 : 2 ^ (fuel + 1) = 2 * 2 ^ fuel := by ring
        omega
      have hsq := ih (mulN b b) (e / 2) (mulN_wf hb hb) hlt
      rw [phiN_mul hb hb] at hsq
      have key : phiN (powSN fuel (mulN b b) (e / 2)) = phiN b ^ (2 * (e / 2)) := by
        rw [hsq, pow_mul, sq]
      by_cases hodd : e % 2 = 1
      · rw [if_pos hodd, phiN_mul hb (powSN_wf fuel _ _ (mulN_wf hb hb)), key]
        have he2 : 2 * (e / 2) + 1 = e := by omega
        calc phiN b * phiN b ^ (2 * (e / 2)) = phiN b ^ (2 * (e / 2) + 1) :=
              (pow_succ' _ _).symm
          _ = phiN b ^ e := by rw [he2]
      · rw [if_neg hodd, key]
        have he2 : 2 * (e / 2) = e := by omega
        rw [he2]

/-- The stored representation of `X`. -/
def XvN : Sep7 ℕ := ⟨0, bbOne, 0, 0, 0, 0, 0⟩

/-- The stored representation of `X ^ P mod fpoly` (Montgomery form). -/
def sMont : Sep7 ℕ :=
  ⟨647875180, 1932041532, 535934467, 1138774584, 1934278742, 312186075, 293161452⟩

/-- A certified Bezout cofactor: `uMont * (sMont - X) = 1 mod fpoly`. -/
def uMont : Sep7 ℕ :=
  ⟨974309954, 1173967011, 1602051826, 859075509, 916696791, 587361150, 1668561666⟩

lemma XvN_wf : SepWf XvN := by
  refine ⟨?_, ?_, ?_, ?_, ?_, ?_, ?_⟩ <;> decide

lemma sMont_wf : SepWf sMont := by
  refine ⟨?_, ?_, ?_, ?_, ?_, ?_, ?_⟩ <;> decide

lemma uMont_wf : SepWf uMont := by
  refine ⟨?_, ?_, ?_, ?_, ?_, ?_, ?_⟩ <;> decide

set_option maxRecDepth 40000 in
lemma certA : powSN 250 XvN P = sMont := by decide

set_option maxRecDepth 40000 in
lemma certB : powSN 250 XvN (P ^ 7) = XvN := by decide

lemma certC : mulN uMont (subN sMont XvN) = oneN := by decide

lemma phiN_XvN : phiN XvN = rt := by
  unfold phiN
  have h : toZS XvN = ⟨0, 1, 0, 0, 0, 0, 0⟩ := by
    simp only [toZS, XvN, Sep7.mk.injEq]
    exact ⟨toZ_zero, toZ_bbOne, toZ_zero, toZ_zero, toZ_zero, toZ_zero, toZ_zero⟩
  rw [h]
  simp only [phi, map_zero, map_one]
  ring

lemma rt_pow_P : rt ^ P = phiN sMont := by
  have h := phiN_pow 250 XvN P XvN_wf (by decide)
  rw [certA, phiN_XvN] at h
  exact h.symm

lemma rt_pow_P7 : rt ^ P ^ 7 = rt := by
  have h := phiN_pow 250 XvN (P ^ 7) XvN_wf (by decide)
  rw [certB, phiN_XvN] at h
  exact h.symm

lemma bezout_unit : phiN uMont * (phiN sMont - rt) = 1 := by
  have h := phiN_mul uMont_wf (subN_wf sMont_wf XvN_wf)
  rw [certC, phiN_one, phiN_sub sMont_wf XvN_wf, phiN_XvN] at h
  exact h.symm

/-! ### Irreducibility of `fpoly` -/

instance instNeZeroP : NeZero P := ⟨by decide⟩

lemma pow_pred_eq_one {L : Type} [Field L] {β : L} (hβ0 : β ≠ 0) {n : ℕ} (hn : 1 ≤ n)
    (h : β ^ n = β) : β ^ (n - 1) = 1 := by
  have h2 : β ^ (n - 1) * β = 1 * β := by
    rw [one_mul, ← pow_succ]
    have hn1 : n - 1 + 1 = n := by omega
    rw [hn1, h]
  exact mul_right_cancel₀ hβ0 h2

lemma pow_one_of_bezout {L : Type} [Field L] {β : L} (hβ0 : β ≠ 0) {A B C : ℕ} (x y : ℤ)
    (hA : β ^ A = 1) (hB : β ^ B = 1) (hxy : x * (A : ℤ) + y * (B : ℤ) = (C : ℤ)) :
    β ^ C = 1 := by
  set u : Lˣ := Units.mk0 β hβ0 with hu
  have hvA : u ^ A = 1 := by
    ext
    simpa [hu] using hA
  have hvB : u ^ B = 1 := by
    ext
    simpa [hu] using hB
  have hz : u ^ (C : ℤ) = 1 := by
    rw [← hxy, zpow_add, mul_comm x (A : ℤ), mul_comm y (B : ℤ), zpow_mul, zpow_mul,
      zpow_natCast, zpow_natCast, hvA, hvB, one_zpow, one_zpow, one_mul]
  have hC : u ^ C = 1 := by
    rw [← zpow_natCast, hz]
  have hfin := congrArg Units.val hC
  simpa [hu] using hfin

lemma root_facts {L : Type} [Field L] [Algebra K L] {β : L}
    (hfβ : Polynomial.aeval β fpoly = 0) : β ^ P ≠ β ∧ β ^ P ^ 7 = β := by
  have hfβ2 : fpoly.eval₂ (algebraMap K L) β = 0 := by
    rwa [Polynomial.aeval_def] at hfβ
  set ψ : F7 →+* L := AdjoinRoot.lift (algebraMap K L) β hfβ2 with hψ
  have hψrt : ψ rt = β := by
    rw [hψ]
    exact AdjoinRoot.lift_root hfβ2
  have h2 := congrArg ψ rt_pow_P7
  rw [map_pow, hψrt] at h2
  have h3 := congrArg ψ bezout_unit
  rw [map_mul, map_sub, map_one, hψrt] at h3
  have hSP := congrArg ψ rt_pow_P
  rw [map_pow, hψrt] at hSP
  refine ⟨?_, h2⟩
  intro heq
  have hS : ψ (phiN sMont) = β := by rw [← hSP, heq]
  rw [hS, sub_self, mul_zero] at h3
  exact zero_ne_one h3

theorem fpoly_irreducible : Irreducible fpoly := by
  have hfu : ¬ IsUnit fpoly := by
    intro hu
    have h0 := Polynomial.natDegree_eq_zero_of_isUnit hu
    rw [fpoly_natDegree] at h0
    exact absurd h0 (by decide)
  obtain ⟨g, hgi, hgd⟩ := WfDvdMonoid.exists_irreducible_factor hfu fpoly_ne_zero
  haveI : Fact (Irreducible g) := ⟨hgi⟩
  have hg0 : g ≠ 0 := hgi.ne_zero
  have hfβ : Polynomial.aeval (AdjoinRoot.root g) fpoly = 0 := by
    obtain ⟨q, hq⟩ := hgd
    rw [hq, map_mul, AdjoinRoot.aeval_eq, AdjoinRoot.mk_self, zero_mul]
  obtain ⟨hne, hfix⟩ := root_facts hfβ
  letI : Fintype (AdjoinRoot g) := by
    have hfin1 : Module.Finite K (AdjoinRoot g) := (AdjoinRoot.powerBasis hg0).finite
    have hfin2 : Finite (AdjoinRoot g) := Module.finite_of_finite K
    exact Fintype.ofFinite _
  have hcard : Fintype.card (AdjoinRoot g) = P ^ g.natDegree := by
    have hb := Module.card_fintype (AdjoinRoot.powerBasis hg0).basis
    rwa [ZMod.card, Fintype.card_fin, AdjoinRoot.powerBasis_dim] at hb
  have hd1 : 1 ≤ g.natDegree := hgi.natDegree_pos
  have hd7 : g.natDegree ≤ 7 := by
    have hd := Polynomial.natDegree_le_of_dvd hgd fpoly_ne_zero
    rwa [fpoly_natDegree] at hd
  have hβ0 : AdjoinRoot.root g ≠ 0 := by
    intro h0
    apply hne
    rw [h0, zero_pow P_pos.ne']
  have hpow : AdjoinRoot.root g ^ P ^ g.natDegree = AdjoinRoot.root g := by
    have hp := FiniteField.pow_card (AdjoinRoot.root g)
    rwa [hcard] at hp
  have hdeg7 : g.natDegree = 7 := by
    set d := g.natDegree with hd
    clear hcard hd
    interval_cases d
    · exfalso
      rw [pow_one] at hpow
      exact hne hpow
    · exfalso
      have hA : AdjoinRoot.root g ^ (P ^ 2 - 1) = 1 :=
        pow_pred_eq_one hβ0 (Nat.one_le_pow _ _ P_pos) hpow
      have hB : AdjoinRoot.root g ^ (P ^ 7 - 1) = 1 :=
        pow_pred_eq_one hβ0 (Nat.one_le_pow _ _ P_pos) hfix
      have hC : AdjoinRoot.root g ^ (P - 1) = 1 :=
        pow_one_of_bezout hβ0 (-33075446146858977633192019218432569742175764483) 1 hA hB
          (by decide)
      apply hne
      have hsucc : AdjoinRoot.root g ^ (P - 1 + 1) = AdjoinRoot.root g := by
        rw [pow_succ, hC, one_mul]
      rwa [Nat.sub_add_cancel P_pos] at hsucc
    · exfalso
      have hA : AdjoinRoot.root g ^ (P ^ 3 - 1) = 1 :=
        pow_pred_eq_one hβ0 (Nat.one_le_pow _ _ P_pos) hpow
      have hB : AdjoinRoot.root g ^ (P ^ 7 - 1) = 1 :=
        pow_pred_eq_one hβ0 (Nat.one_le_pow _ _ P_pos) hfix
      have hC : AdjoinRoot.root g ^ (P - 1) = 1 :=
        pow_one_of_bezout hβ0 (-16428751811598850197311699256606720002) 1 hA hB
          (by decide)
      apply hne
      have hsucc : AdjoinRoot.root g ^ (P - 1 + 1) = AdjoinRoot.root g := by
        rw [pow_succ, hC, one_mul]
      rwa [Nat.sub_add_cancel P_pos] at hsucc
    · exfalso
      have hA : AdjoinRoot.root g ^ (P ^ 4 - 1) = 1 :=
        pow_pred_eq_one hβ0 (Nat.one_le_pow _ _ P_pos) hpow
      have hB : AdjoinRoot.root g ^ (P ^ 7 - 1) = 1 :=
        pow_pred_eq_one hβ0 (Nat.one_le_pow _ _ P_pos) hfix
      have hC : AdjoinRoot.root g ^ (P - 1) = 1 :=
        pow_one_of_bezout hβ0 (16428751811598850197311699254593454082) (-2013265921) hA hB
          (by decide)
      apply hne
      have hsucc : AdjoinRoot.root g ^ (P - 1 + 1) = AdjoinRoot.root g := by
        rw [pow_succ, hC, one_mul]
      rwa [Nat.sub_add_cancel P_pos] at hsucc
    · exfalso
      have hA : AdjoinRoot.root g ^ (P ^ 5 - 1) = 1 :=
        pow_pred_eq_one hβ0 (Nat.one_le_pow _ _ P_pos) hpow
      have hB : AdjoinRoot.root g ^ (P ^ 7 - 1) = 1 :=
        pow_pred_eq_one hβ0 (Nat.one_le_pow _ _ P_pos) hfix
      have hC : AdjoinRoot.root g ^ (P - 1) = 1 :=
        pow_one_of_bezout hβ0 (33075446146858977633192019218432569740162498563)
          (-8160249294558465931220090882) hA hB (by decide)
      apply hne
      have hsucc : AdjoinRoot.root g ^ (P - 1 + 1) = AdjoinRoot.root g := by
        rw [pow_succ, hC, one_mul]
      rwa [Nat.sub_add_cancel P_pos] at hsucc
    · exfalso
      have hA : AdjoinRoot.root g ^ (P ^ 6 - 1) = 1 :=
        pow_pred_eq_one hβ0 (Nat.one_le_pow _ _ P_pos) hpow
      have hB : AdjoinRoot.root g ^ (P ^ 7 - 1) = 1 :=
        pow_pred_eq_one hβ0 (Nat.one_le_pow _ _ P_pos) hfix
      have hC : AdjoinRoot.root g ^ (P - 1) = 1 :=
        pow_one_of_bezout hβ0 (-2013265921) 1 hA hB (by decide)
      apply hne
      have hsucc : AdjoinRoot.root g ^ (P - 1 + 1) = AdjoinRoot.root g := by
        rw [pow_succ, hC, one_mul]
      rwa [Nat.sub_add_cancel P_pos] at hsucc
    · rfl
  obtain ⟨q, hq⟩ := hgd
  have hq0 : q ≠ 0 := by
    intro h0
    rw [h0, mul_zero] at hq
    exact fpoly_ne_zero hq
  have hqdeg : q.natDegree = 0 := by
    have hdq := congrArg Polynomial.natDegree hq
    rw [Polynomial.natDegree_mul hg0 hq0, fpoly_natDegree, hdeg7] at hdq
    omega
  have hqunit : IsUnit q := by
    rw [Polynomial.isUnit_iff_degree_eq_zero, Polynomial.degree_eq_natDegree hq0, hqdeg]
    rfl
  have hassoc : Associated g fpoly := by
    rw [hq]
    exact (associated_mul_unit_left g q hqunit).symm
  exact hassoc.irreducible hgi

instance factIrreducibleFpoly : Fact (Irreducible fpoly) := ⟨fpoly_irreducible⟩

/-! ### The frobenius maps as powers -/

instance instCharPF7 : CharP F7 P :=
  charP_of_injective_algebraMap (algebraMap K F7).injective P

noncomputable instance instFintypeF7 : Fintype F7 := by
  have hfin1 : Module.Finite K F7 := (AdjoinRoot.powerBasis fpoly_ne_zero).finite
  have hfin2 : Finite F7 := Module.finite_of_finite K
  exact Fintype.ofFinite _

lemma card_F7 : Fintype.card F7 = P ^ 7 := by
  have hb := Module.card_fintype (AdjoinRoot.powerBasis fpoly_ne_zero).basis
  rw [hb, ZMod.card, Fintype.card_fin, AdjoinRoot.powerBasis_dim, fpoly_natDegree]

lemma algebraMap_pow_P (c : K) : algebraMap K F7 c ^ P = algebraMap K F7 c := by
  rw [← map_pow, ZMod.pow_card]

lemma algebraMap_pow_P2 (c : K) : algebraMap K F7 c ^ P ^ 2 = algebraMap K F7 c := by
  rw [pow_two, pow_mul, algebraMap_pow_P, algebraMap_pow_P]

lemma phi_pow_P (v : Sep7 K) : phi v ^ P =
    algebraMap K F7 v.c0 + algebraMap K F7 v.c1 * rt ^ P +
    algebraMap K F7 v.c2 * (rt ^ P) ^ 2 + algebraMap K F7 v.c3 * (rt ^ P) ^ 3 +
    algebraMap K F7 v.c4 * (rt ^ P) ^ 4 + algebraMap K F7 v.c5 * (rt ^ P) ^ 5 +
    algebraMap K F7 v.c6 * (rt ^ P) ^ 6 := by
  unfold phi
  rw [add_pow_char, add_pow_char, add_pow_char, add_pow_char, add_pow_char, add_pow_char,
    mul_pow, mul_pow, mul_pow, mul_pow, mul_pow, mul_pow,
    algebraMap_pow_P, algebraMap_pow_P, algebraMap_pow_P, algebraMap_pow_P,
    algebraMap_pow_P, algebraMap_pow_P, algebraMap_pow_P,
    pow_right_comm rt 2 P, pow_right_comm rt 3 P, pow_right_comm rt 4 P,
    pow_right_comm rt 5 P, pow_right_comm rt 6 P]

lemma phi_pow_P2 (v : Sep7 K) : phi v ^ P ^ 2 =
    algebraMap K F7 v.c0 + algebraMap K F7 v.c1 * rt ^ P ^ 2 +
    algebraMap K F7 v.c2 * (rt ^ P ^ 2) ^ 2 + algebraMap K F7 v.c3 * (rt ^ P ^ 2) ^ 3 +
    algebraMap K F7 v.c4 * (rt ^ P ^ 2) ^ 4 + algebraMap K F7 v.c5 * (rt ^ P ^ 2) ^ 5 +
    algebraMap K F7 v.c6 * (rt ^ P ^ 2) ^ 6 := by
  unfold phi
  rw [add_pow_char_pow, add_pow_char_pow, add_pow_char_pow, add_pow_char_pow,
    add_pow_char_pow, add_pow_char_pow,
    mul_pow, mul_pow, mul_pow, mul_pow, mul_pow, mul_pow,
    algebraMap_pow_P2, algebraMap_pow_P2, algebraMap_pow_P2, algebraMap_pow_P2,
    algebraMap_pow_P2, algebraMap_pow_P2, algebraMap_pow_P2,
    pow_right_comm rt 2 (P ^ 2), pow_right_comm rt 3 (P ^ 2), pow_right_comm rt 4 (P ^ 2),
    pow_right_comm rt 5 (P ^ 2), pow_right_comm rt 6 (P ^ 2)]

def srow1Z : Sep7 K := ⟨(954599710 : K), (1359279693 : K), (566669999 : K), (1982781815 : K), (1735718361 : K), (1174868538 : K), (1120871770 : K)⟩

def srow2Z : Sep7 K := ⟨(862825265 : K), (597046311 : K), (978840770 : K), (1790138282 : K), (1044777201 : K), (835869808 : K), (1342179023 : K)⟩

def srow3Z : Sep7 K := ⟨(596273169 : K), (658837454 : K), (1515468261 : K), (367059247 : K), (781278880 : K), (1544222616 : K), (155490465 : K)⟩

def srow4Z : Sep7 K := ⟨(557608863 : K), (1173670028 : K), (1749546888 : K), (1086464137 : K), (803900099 : K), (1288818584 : K), (1184677604 : K)⟩

def srow5Z : Sep7 K := ⟨(763416381 : K), (1252567168 : K), (628856225 : K), (1771903394 : K), (650712211 : K), (19417363 : K), (57990258 : K)⟩

def srow6Z : Sep7 K := ⟨(1734711039 : K), (1749813853 : K), (1227235221 : K), (1707730636 : K), (424560395 : K), (1007029514 : K), (498034669 : K)⟩

def drow1Z : Sep7 K := ⟨(1013489358 : K), (1619071628 : K), (304593143 : K), (1949397349 : K), (1564307636 : K), (327761151 : K), (415430835 : K)⟩

def drow2Z : Sep7 K := ⟨(209824426 : K), (1313900768 : K), (38410482 : K), (256593180 : K), (1708830551 : K), (1244995038 : K), (1555324019 : K)⟩

def drow3Z : Sep7 K := ⟨(1475628651 : K), (777565847 : K), (704492386 : K), (1218528120 : K), (1245363405 : K), (475884575 : K), (649166061 : K)⟩

def drow4Z : Sep7 K := ⟨(550038364 : K), (948935655 : K), (68722023 : K), (1251345762 : K), (1692456177 : K), (1177958698 : K), (350232928 : K)⟩

def drow5Z : Sep7 K := ⟨(882720258 : K), (821925756 : K), (199955840 : K), (812002876 : K), (1484951277 : K), (1063138035 : K), (491712810 : K)⟩

def drow6Z : Sep7 K := ⟨(738287111 : K), (1955364991 : K), (552724293 : K), (1175775744 : K), (341623997 : K), (1454022463 : K), (408193320 : K)⟩

def fRow2N : Sep7 ℕ := ⟨toMonty 862825265, toMonty 597046311, toMonty 978840770, toMonty 1790138282, toMonty 1044777201, toMonty 835869808, toMonty 1342179023⟩

def fRow3N : Sep7 ℕ := ⟨toMonty 596273169, toMonty 658837454, toMonty 1515468261, toMonty 367059247, toMonty 781278880, toMonty 1544222616, toMonty 155490465⟩

def fRow4N : Sep7 ℕ := ⟨toMonty 557608863, toMonty 1173670028, toMonty 1749546888, toMonty 1086464137, toMonty 803900099, toMonty 1288818584, toMonty 1184677604⟩

def fRow5N : Sep7 ℕ := ⟨toMonty 763416381, toMonty 1252567168, toMonty 628856225, toMonty 1771903394, toMonty 650712211, toMonty 19417363, toMonty 57990258⟩

def fRow6N : Sep7 ℕ := ⟨toMonty 1734711039, toMonty 1749813853, toMonty 1227235221, toMonty 1707730636, toMonty 424560395, toMonty 1007029514, toMonty 498034669⟩

def dRow1N : Sep7 ℕ := ⟨toMonty 1013489358, toMonty 1619071628, toMonty 304593143, toMonty 1949397349, toMonty 1564307636, toMonty 327761151, toMonty 415430835⟩

def dRow2N : Sep7 ℕ := ⟨toMonty 209824426, toMonty 1313900768, toMonty 38410482, toMonty 256593180, toMonty 1708830551, toMonty 1244995038, toMonty 1555324019⟩

def dRow3N : Sep7 ℕ := ⟨toMonty 1475628651, toMonty 777565847, toMonty 704492386, toMonty 1218528120, toMonty 1245363405, toMonty 475884575, toMonty 649166061⟩

def dRow4N : Sep7 ℕ := ⟨toMonty 550038364, toMonty 948935655, toMonty 68722023, toMonty 1251345762, toMonty 1692456177, toMonty 1177958698, toMonty 350232928⟩

def dRow5N : Sep7 ℕ := ⟨toMonty 882720258, toMonty 821925756, toMonty 199955840, toMonty 812002876, toMonty 1484951277, toMonty 1063138035, toMonty 491712810⟩

def dRow6N : Sep7 ℕ := ⟨toMonty 738287111, toMonty 1955364991, toMonty 552724293, toMonty 1175775744, toMonty 341623997, toMonty 1454022463, toMonty 408193320⟩

lemma sMont_tm : sMont = ⟨toMonty 954599710, toMonty 1359279693, toMonty 566669999, toMonty 1982781815, toMonty 1735718361, toMonty 1174868538, toMonty 1120871770⟩ := by decide

lemma dRow1N_wf : SepWf dRow1N := by
  refine ⟨?_, ?_, ?_, ?_, ?_, ?_, ?_⟩ <;> decide

lemma toZS_sMont : toZS sMont = srow1Z := by
  rw [sMont_tm]
  simp only [toZS, toZ_toMonty, srow1Z, Sep7.mk.injEq]
  refine ⟨?_, ?_, ?_, ?_, ?_, ?_, ?_⟩ <;> norm_cast

lemma toZS_fRow2N : toZS fRow2N = srow2Z := by
  simp only [toZS, fRow2N, toZ_toMonty, srow2Z, Sep7.mk.injEq]
  refine ⟨?_, ?_, ?_, ?_, ?_, ?_, ?_⟩ <;> norm_cast

lemma toZS_fRow3N : toZS fRow3N = srow3Z := by
  simp only [toZS, fRow3N, toZ_toMonty, srow3Z, Sep7.mk.injEq]
  refine ⟨?_, ?_, ?_, ?_, ?_, ?_, ?_⟩ <;> norm_cast

lemma toZS_fRow4N : toZS fRow4N = srow4Z := by
  simp only [toZS, fRow4N, toZ_toMonty, srow4Z, Sep7.mk.injEq]
  refine ⟨?_, ?_, ?_, ?_, ?_, ?_, ?_⟩ <;> norm_cast

lemma toZS_fRow5N : toZS fRow5N = srow5Z := by
  simp only [toZS, fRow5N, toZ_toMonty, srow5Z, Sep7.mk.injEq]
  refine ⟨?_, ?_, ?_, ?_, ?_, ?_, ?_⟩ <;> norm_cast

lemma toZS_fRow6N : toZS fRow6N = srow6Z := by
  simp only [toZS, fRow6N, toZ_toMonty, srow6Z, Sep7.mk.injEq]
  refine ⟨?_, ?_, ?_, ?_, ?_, ?_, ?_⟩ <;> norm_cast

lemma toZS_dRow1N : toZS dRow1N = drow1Z := by
  simp only [toZS, dRow1N, toZ_toMonty, drow1Z, Sep7.mk.injEq]
  refine ⟨?_, ?_, ?_, ?_, ?_, ?_, ?_⟩ <;> norm_cast

lemma toZS_dRow2N : toZS dRow2N = drow2Z := by
  simp only [toZS, dRow2N, toZ_toMonty, drow2Z, Sep7.mk.injEq]
  refine ⟨?_, ?_, ?_, ?_, ?_, ?_, ?_⟩ <;> norm_cast

lemma toZS_dRow3N : toZS dRow3N = drow3Z := by
  simp only [toZS, dRow3N, toZ_toMonty, drow3Z, Sep7.mk.injEq]
  refine ⟨?_, ?_, ?_, ?_, ?_, ?_, ?_⟩ <;> norm_cast

lemma toZS_dRow4N : toZS dRow4N = drow4Z := by
  simp only [toZS, dRow4N, toZ_toMonty, drow4Z, Sep7.mk.injEq]
  refine ⟨?_, ?_, ?_, ?_, ?_, ?_, ?_⟩ <;> norm_cast

lemma toZS_dRow5N : toZS dRow5N = drow5Z := by
  simp only [toZS, dRow5N, toZ_toMonty, drow5Z, Sep7.mk.injEq]
  refine ⟨?_, ?_, ?_, ?_, ?_, ?_, ?_⟩ <;> norm_cast

lemma toZS_dRow6N : toZS dRow6N = drow6Z := by
  simp only [toZS, dRow6N, toZ_toMonty, drow6Z, Sep7.mk.injEq]
  refine ⟨?_, ?_, ?_, ?_, ?_, ?_, ?_⟩ <;> norm_cast

set_option maxRecDepth 40000 in
lemma certRow2 : powSN 3 sMont 2 = fRow2N := by decide

set_option maxRecDepth 40000 in
lemma certRow3 : powSN 3 sMont 3 = fRow3N := by decide

set_option maxRecDepth 40000 in
lemma certRow4 : powSN 3 sMont 4 = fRow4N := by decide

set_option maxRecDepth 40000 in
lemma certRow5 : powSN 3 sMont 5 = fRow5N := by decide

set_option maxRecDepth 40000 in
lemma certRow6 : powSN 3 sMont 6 = fRow6N := by decide

set_option maxRecDepth 40000 in
lemma certD1 : powSN 250 XvN (P ^ 2) = dRow1N := by decide

set_option maxRecDepth 40000 in
lemma certDRow2 : powSN 3 dRow1N 2 = dRow2N := by decide

set_option maxRecDepth 40000 in
lemma certDRow3 : powSN 3 dRow1N 3 = dRow3N := by decide

set_option maxRecDepth 40000 in
lemma certDRow4 : powSN 3 dRow1N 4 = dRow4N := by decide

set_option maxRecDepth 40000 in
lemma certDRow5 : powSN 3 dRow1N 5 = dRow5N := by decide

set_option maxRecDepth 40000 in
lemma certDRow6 : powSN 3 dRow1N 6 = dRow6N := by decide

lemma rt_pow_P1 : rt ^ P = phi srow1Z := by
  have h := rt_pow_P
  unfold phiN at h
  rwa [toZS_sMont] at h

lemma rt_pow_Psq : rt ^ P ^ 2 = phi drow1Z := by
  have h := phiN_pow 250 XvN (P ^ 2) XvN_wf (by decide)
  rw [certD1, phiN_XvN] at h
  unfold phiN at h
  rw [toZS_dRow1N] at h
  exact h.symm

lemma srow_pow2 : phi srow1Z ^ 2 = phi srow2Z := by
  have h := phiN_pow 3 sMont 2 sMont_wf (by decide)
  rw [certRow2] at h
  unfold phiN at h
  rw [toZS_sMont, toZS_fRow2N] at h
  exact h.symm

lemma srow_pow3 : phi srow1Z ^ 3 = phi srow3Z := by
  have h := phiN_pow 3 sMont 3 sMont_wf (by decide)
  rw [certRow3] at h
  unfold phiN at h
  rw [toZS_sMont, toZS_fRow3N] at h
  exact h.symm

lemma srow_pow4 : phi srow1Z ^ 4 = phi srow4Z := by
  have h := phiN_pow 3 sMont 4 sMont_wf (by decide)
  rw [certRow4] at h
  unfold phiN at h
  rw [toZS_sMont, toZS_fRow4N] at h
  exact h.symm

lemma srow_pow5 : phi srow1Z ^ 5 = phi srow5Z := by
  have h := phiN_pow 3 sMont 5 sMont_wf (by decide)
  rw [certRow5] at h
  unfold phiN at h
  rw [toZS_sMont, toZS_fRow5N] at h
  exact h.symm

lemma srow_pow6 : phi srow1Z ^ 6 = phi srow6Z := by
  have h := phiN_pow 3 sMont 6 sMont_wf (by decide)
  rw [certRow6] at h
  unfold phiN at h
  rw [toZS_sMont, toZS_fRow6N] at h
  exact h.symm

lemma drow_pow2 : phi drow1Z ^ 2 = phi drow2Z := by
  have h := phiN_pow 3 dRow1N 2 dRow1N_wf (by decide)
  rw [certDRow2] at h
  unfold phiN at h
  rw [toZS_dRow1N, toZS_dRow2N] at h
  exact h.symm

lemma drow_pow3 : phi drow1Z ^ 3 = phi drow3Z := by
  have h := phiN_pow 3 dRow1N 3 dRow1N_wf (by decide)
  rw [certDRow3] at h
  unfold phiN at h
  rw [toZS_dRow1N, toZS_dRow3N] at h
  exact h.symm

lemma drow_pow4 : phi drow1Z ^ 4 = phi drow4Z := by
  have h := phiN_pow 3 dRow1N 4 dRow1N_wf (by decide)
  rw [certDRow4] at h
  unfold phiN at h
  rw [toZS_dRow1N, toZS_dRow4N] at h
  exact h.symm

lemma drow_pow5 : phi drow1Z ^ 5 = phi drow5Z := by
  have h := phiN_pow 3 dRow1N 5 dRow1N_wf (by decide)
  rw [certDRow5] at h
  unfold phiN at h
  rw [toZS_dRow1N, toZS_dRow5N] at h
  exact h.symm

lemma drow_pow6 : phi drow1Z ^ 6 = phi drow6Z := by
  have h := phiN_pow 3 dRow1N 6 dRow1N_wf (by decide)
  rw [certDRow6] at h
  unfold phiN at h
  rw [toZS_dRow1N, toZS_dRow6N] at h
  exact h.symm

set_option maxHeartbeats 1000000 in
lemma phi_frobZ_pow (v : Sep7 K) : phi (frobZ v) = phi v ^ P := by
  rw [phi_pow_P, rt_pow_P1, srow_pow2, srow_pow3, srow_pow4, srow_pow5, srow_pow6]
  simp only [phi, frobZ, srow1Z, srow2Z, srow3Z, srow4Z, srow5Z, srow6Z,
    map_add, map_mul, map_ofNat, map_one]
  ring1

set_option maxHeartbeats 1000000 in
lemma phi_dfrobZ_pow (v : Sep7 K) : phi (dfrobZ v) = phi v ^ P ^ 2 := by
  rw [phi_pow_P2, rt_pow_Psq, drow_pow2, drow_pow3, drow_pow4, drow_pow5, drow_pow6]
  simp only [phi, dfrobZ, drow1Z, drow2Z, drow3Z, drow4Z, drow5Z, drow6Z,
    map_add, map_mul, map_ofNat, map_one]
  ring1

lemma phiN_frobeniusN {a : Sep7 ℕ} (ha : SepWf a) :
    phiN (frobeniusN a) = phiN a ^ P := by
  unfold phiN
  rw [toZS_frobeniusN ha, phi_frobZ_pow]

lemma phiN_doubleFrobeniusN {a : Sep7 ℕ} (ha : SepWf a) :
    phiN (doubleFrobeniusN a) = phiN a ^ P ^ 2 := by
  unfold phiN
  rw [toZS_doubleFrobeniusN ha, phi_dfrobZ_pow]

/-! ### Transport helpers -/

lemma zeroN_wf : SepWf zeroN := by
  refine ⟨?_, ?_, ?_, ?_, ?_, ?_, ?_⟩ <;> decide

lemma toZS_inj {a b : Sep7 ℕ} (ha : SepWf a) (hb : SepWf b) (h : toZS a = toZS b) :
    a = b := by
  obtain ⟨ha0, ha1, ha2, ha3, ha4, ha5, ha6⟩ := ha
  obtain ⟨hb0, hb1, hb2, hb3, hb4, hb5, hb6⟩ := hb
  simp only [toZS, Sep7.mk.injEq] at h
  obtain ⟨h0, h1, h2, h3, h4, h5, h6⟩ := h
  obtain ⟨a0, a1, a2, a3, a4, a5, a6⟩ := a
  obtain ⟨b0, b1, b2, b3, b4, b5, b6⟩ := b
  simp only [Sep7.mk.injEq]
  exact ⟨toZ_inj ha0 hb0 h0, toZ_inj ha1 hb1 h1, toZ_inj ha2 hb2 h2, toZ_inj ha3 hb3 h3,
    toZ_inj ha4 hb4 h4, toZ_inj ha5 hb5 h5, toZ_inj ha6 hb6 h6⟩

lemma phiN_inj {a b : Sep7 ℕ} (ha : SepWf a) (hb : SepWf b) (h : phiN a = phiN b) :
    a = b :=
  toZS_inj ha hb (phi_inj h)

lemma phiN_add {a b : Sep7 ℕ} (ha : SepWf a) (hb : SepWf b) :
    phiN (addN a b) = phiN a + phiN b := by
  unfold phiN
  rw [toZS_addN ha hb, phi_add]

lemma phiN_mulBase {a : Sep7 ℕ} {b : ℕ} (ha : SepWf a) (hb : b < P) :
    phiN (mulBaseN a b) = phiN a * algebraMap K F7 (toZ b) := by
  unfold phiN
  rw [toZS_mulBaseN ha hb, phi_mulBase]

lemma phiN_zero : phiN zeroN = 0 := by
  unfold phiN
  have h : toZS zeroN = zeroZ := by
    simp only [toZS, zeroN, zeroZ, Sep7.mk.injEq]
    exact ⟨toZ_zero, toZ_zero, toZ_zero, toZ_zero, toZ_zero, toZ_zero, toZ_zero⟩
  rw [h, phi_zero]

lemma phiN_eq_zero_iff {a : Sep7 ℕ} (ha : SepWf a) : phiN a = 0 ↔ a = zeroN := by
  constructor
  · intro h
    refine phiN_inj ha zeroN_wf ?_
    rw [h, phiN_zero]
  · intro h
    rw [h, phiN_zero]

lemma F7_pow_card (z : F7) : z ^ P ^ 7 = z := by
  have h := FiniteField.pow_card z
  rwa [card_F7] at h

lemma F7_pow_card_sub_one {z : F7} (hz : z ≠ 0) : z ^ (P ^ 7 - 1) = 1 := by
  have h := FiniteField.pow_card_sub_one_eq_one z hz
  rwa [card_F7] at h

/-- An element fixed by `x ↦ x ^ P` lies in the image of the prime field. -/
lemma fixed_in_prime_field {z : F7} (hz : z ^ P = z) : ∃ c : K, algebraMap K F7 c = z := by
  by_contra hcon
  push_neg at hcon
  set qq : Polynomial F7 := Polynomial.X ^ P - Polynomial.X with hqq
  have hP1 : 1 < P := by decide
  have hqq0 : qq ≠ 0 := FiniteField.X_pow_card_sub_X_ne_zero F7 hP1
  have hdeg : qq.natDegree = P := FiniteField.X_pow_card_sub_X_natDegree_eq F7 hP1
  have hmem : ∀ c : K, algebraMap K F7 c ∈ qq.roots := by
    intro c
    rw [Polynomial.mem_roots hqq0]
    simp only [hqq, Polynomial.IsRoot, Polynomial.eval_sub, Polynomial.eval_pow,
      Polynomial.eval_X]
    rw [algebraMap_pow_P, sub_self]
  have hzt : z ∈ qq.roots := by
    rw [Polynomial.mem_roots hqq0]
    simp only [hqq, Polynomial.IsRoot, Polynomial.eval_sub, Polynomial.eval_pow,
      Polynomial.eval_X]
    rw [hz, sub_self]
  set S : Finset F7 := Finset.image (algebraMap K F7) Finset.univ with hSdef
  have hS : S.card = P := by
    rw [hSdef, Finset.card_image_of_injective _ (algebraMap K F7).injective,
      Finset.card_univ, ZMod.card]
  have hzS : z ∉ S := by
    intro hmem2
    obtain ⟨c, _, hc⟩ := Finset.mem_image.mp hmem2
    exact hcon c hc
  have hsub : insert z S ⊆ qq.roots.toFinset := by
    intro w hw
    rw [Multiset.mem_toFinset]
    rcases Finset.mem_insert.mp hw with h | h
    · rw [h]
      exact hzt
    · obtain ⟨c, _, hc⟩ := Finset.mem_image.mp h
      rw [← hc]
      exact hmem c
  have hcard := Finset.card_le_card hsub
  rw [Finset.card_insert_of_not_mem hzS, hS] at hcard
  have h2 := Multiset.toFinset_card_le qq.roots
  have h3 := Polynomial.card_roots' qq
  omega

/-! ### Multiplication as polynomial reduction -/

lemma mk_inj_lt {p q : Polynomial K} (hp : p.degree < fpoly.degree)
    (hq : q.degree < fpoly.degree)
    (h : AdjoinRoot.mk fpoly p = AdjoinRoot.mk fpoly q) : p = q := by
  rw [AdjoinRoot.mk_eq_mk] at h
  have hz : p - q = 0 := by
    by_contra hne
    have hd := Polynomial.degree_le_of_dvd h hne
    have hlt : (p - q).degree < fpoly.degree :=
      lt_of_le_of_lt (Polynomial.degree_sub_le _ _) (max_lt hp hq)
    exact absurd (lt_of_le_of_lt hd hlt) (lt_irrefl _)
  exact sub_eq_zero.mp hz

lemma mk_modByMonic (p : Polynomial K) :
    AdjoinRoot.mk fpoly (p %ₘ fpoly) = AdjoinRoot.mk fpoly p := by
  rw [AdjoinRoot.mk_eq_mk]
  refine ⟨-(p /ₘ fpoly), ?_⟩
  have h := Polynomial.modByMonic_add_div p fpoly_monic
  linear_combination h

/-- Claim C3: multiplication of stored septic values is multiplication of the
degree-`< 7` coefficient polynomials reduced modulo `x ^ 7 - 2 x - 5`, and is
commutative and associative with `oneN` as two-sided identity. -/
theorem claim_C3 :
    (∀ a b : Sep7 ℕ, SepWf a → SepWf b →
      toPoly (toZS (mulN a b)) = toPoly (toZS a) * toPoly (toZS b) %ₘ fpoly) ∧
    (∀ a b : Sep7 ℕ, SepWf a → SepWf b → mulN a b = mulN b a) ∧
    (∀ a b c : Sep7 ℕ, SepWf a → SepWf b → SepWf c →
      mulN (mulN a b) c = mulN a (mulN b c)) ∧
    (∀ a : Sep7 ℕ, SepWf a → mulN a oneN = a ∧ mulN oneN a = a) := by
  refine ⟨?_, ?_, ?_, ?_⟩
  · intro a b ha hb
    have hdeg1 : (toPoly (toZS (mulN a b))).degree < fpoly.degree := by
      rw [fpoly_degree]
      exact lt_of_le_of_lt (toPoly_degree_le _) (by decide)
    have hdeg2 : (toPoly (toZS a) * toPoly (toZS b) %ₘ fpoly).degree < fpoly.degree :=
      Polynomial.degree_modByMonic_lt _ fpoly_monic
    refine mk_inj_lt hdeg1 hdeg2 ?_
    rw [mk_modByMonic, map_mul, ← phi_eq_mk, ← phi_eq_mk, ← phi_eq_mk,
      toZS_mulN ha hb, phi_mul]
  · intro a b ha hb
    refine phiN_inj (mulN_wf ha hb) (mulN_wf hb ha) ?_
    rw [phiN_mul ha hb, phiN_mul hb ha, mul_comm]
  · intro a b c ha hb hc
    refine phiN_inj (mulN_wf (mulN_wf ha hb) hc) (mulN_wf ha (mulN_wf hb hc)) ?_
    rw [phiN_mul (mulN_wf ha hb) hc, phiN_mul ha hb, phiN_mul ha (mulN_wf hb hc),
      phiN_mul hb hc, mul_assoc]
  · intro a ha
    constructor
    · refine phiN_inj (mulN_wf ha oneN_wf) ha ?_
      rw [phiN_mul ha oneN_wf, phiN_one, mul_one]
    · refine phiN_inj (mulN_wf oneN_wf ha) ha ?_
      rw [phiN_mul oneN_wf ha, phiN_one, one_mul]

/-- Witness for C3 at concrete inputs. -/
theorem claim_C3_witness :
    toPoly (toZS (mulN sMont uMont)) = toPoly (toZS sMont) * toPoly (toZS uMont) %ₘ fpoly ∧
    mulN sMont uMont = mulN uMont sMont ∧
    mulN (mulN sMont uMont) XvN = mulN sMont (mulN uMont XvN) ∧
    mulN sMont oneN = sMont :=
  ⟨claim_C3.1 sMont uMont sMont_wf uMont_wf,
   claim_C3.2.1 sMont uMont sMont_wf uMont_wf,
   claim_C3.2.2.1 sMont uMont XvN sMont_wf uMont_wf XvN_wf,
   (claim_C3.2.2.2 sMont sMont_wf).1⟩

/-! ### Frobenius claims -/

/-- Claim C6: `frobenius` is a field automorphism of the septic extension:
it is additive and multiplicative on well-formed stored values, and applying
it seven times is the identity. -/
theorem claim_C6 :
    (∀ a b : Sep7 ℕ, SepWf a → SepWf b →
      frobeniusN (addN a b) = addN (frobeniusN a) (frobeniusN b)) ∧
    (∀ a b : Sep7 ℕ, SepWf a → SepWf b →
      frobeniusN (mulN a b) = mulN (frobeniusN a) (frobeniusN b)) ∧
    (∀ a : Sep7 ℕ, SepWf a →
      frobeniusN (frobeniusN (frobeniusN (frobeniusN (frobeniusN (frobeniusN
        (frobeniusN a)))))) = a) := by
  refine ⟨?_, ?_, ?_⟩
  · intro a b ha hb
    refine phiN_inj (frobeniusN_wf (addN_wf ha hb))
      (addN_wf (frobeniusN_wf ha) (frobeniusN_wf hb)) ?_
    rw [phiN_frobeniusN (addN_wf ha hb), phiN_add ha hb,
      phiN_add (frobeniusN_wf ha) (frobeniusN_wf hb),
      phiN_frobeniusN ha, phiN_frobeniusN hb, add_pow_char]
  · intro a b ha hb
    refine phiN_inj (frobeniusN_wf (mulN_wf ha hb))
      (mulN_wf (frobeniusN_wf ha) (frobeniusN_wf hb)) ?_
    rw [phiN_frobeniusN (mulN_wf ha hb), phiN_mul ha hb,
      phiN_mul (frobeniusN_wf ha) (frobeniusN_wf hb),
      phiN_frobeniusN ha, phiN_frobeniusN hb, mul_pow]
  · intro a ha
    have h1 := frobeniusN_wf ha
    have h2 := frobeniusN_wf h1
    have h3 := frobeniusN_wf h2
    have h4 := frobeniusN_wf h3
    have h5 := frobeniusN_wf h4
    have h6 := frobeniusN_wf h5
    refine phiN_inj (frobeniusN_wf h6) ha ?_
    rw [phiN_frobeniusN h6, phiN_frobeniusN h5, phiN_frobeniusN h4, phiN_frobeniusN h3,
      phiN_frobeniusN h2, phiN_frobeniusN h1, phiN_frobeniusN ha,
      ← pow_mul, ← pow_mul, ← pow_mul, ← pow_mul, ← pow_mul, ← pow_mul]
    rw [show P * (P * (P * (P * (P * (P * P))))) = P ^ 7 from by ring, F7_pow_card]

/-- Witness for C6 at concrete inputs. -/
theorem claim_C6_witness :
    frobeniusN (addN sMont uMont) = addN (frobeniusN sMont) (frobeniusN uMont) ∧
    frobeniusN (mulN sMont uMont) = mulN (frobeniusN sMont) (frobeniusN uMont) ∧
    frobeniusN (frobeniusN (frobeniusN (frobeniusN (frobeniusN (frobeniusN
      (frobeniusN sMont)))))) = sMont :=
  ⟨claim_C6.1 sMont uMont sMont_wf uMont_wf,
   claim_C6.2.1 sMont uMont sMont_wf uMont_wf,
   claim_C6.2.2 sMont sMont_wf⟩

/-- Claim C8: `double_frobenius` agrees with two applications of `frobenius`
on every well-formed stored value. -/
theorem claim_C8 (a : Sep7 ℕ) (ha : SepWf a) :
    doubleFrobeniusN a = frobeniusN (frobeniusN a) := by
  refine phiN_inj (doubleFrobeniusN_wf ha) (frobeniusN_wf (frobeniusN_wf ha)) ?_
  rw [phiN_doubleFrobeniusN ha, phiN_frobeniusN (frobeniusN_wf ha), phiN_frobeniusN ha,
    ← pow_mul, pow_two]

/-- Witness for C8. -/
theorem claim_C8_witness :
    doubleFrobeniusN sMont = frobeniusN (frobeniusN sMont) :=
  claim_C8 sMont sMont_wf

/-! ### The norm map -/

lemma phi_const (c : K) : phi ⟨c, 0, 0, 0, 0, 0, 0⟩ = algebraMap K F7 c := by
  simp only [phi, map_zero]
  ring

/-- `1 + P + ... + P ^ 6`, the exponent computed by `pow_r`. -/
def nuExp : ℕ := P + P ^ 2 + P ^ 3 + P ^ 4 + P ^ 5 + P ^ 6 + 1

lemma phiN_powR1N {a : Sep7 ℕ} (ha : SepWf a) :
    phiN (powR1N a) = phiN a ^ (P + P ^ 2 + P ^ 3 + P ^ 4 + P ^ 5 + P ^ 6) := by
  have h1 : SepWf (mulN (frobeniusN a) (doubleFrobeniusN a)) :=
    mulN_wf (frobeniusN_wf ha) (doubleFrobeniusN_wf ha)
  have h2 : SepWf (doubleFrobeniusN (mulN (frobeniusN a) (doubleFrobeniusN a))) :=
    doubleFrobeniusN_wf h1
  unfold powR1N
  simp only
  rw [phiN_mul (mulN_wf h1 h2) (doubleFrobeniusN_wf h2),
    phiN_mul h1 h2, phiN_doubleFrobeniusN h2, phiN_doubleFrobeniusN h1,
    phiN_mul (frobeniusN_wf ha) (doubleFrobeniusN_wf ha),
    phiN_frobeniusN ha, phiN_doubleFrobeniusN ha]
  ring1

lemma phiN_norm {a : Sep7 ℕ} (ha : SepWf a) :
    phiN (mulN (powR1N a) a) = phiN a ^ nuExp := by
  rw [phiN_mul (powR1N_wf ha) ha, phiN_powR1N ha]
  unfold nuExp
  ring1

lemma norm_fixed {a : Sep7 ℕ} (ha : SepWf a) (haz : a ≠ zeroN) :
    phiN (mulN (powR1N a) a) ^ P = phiN (mulN (powR1N a) a) := by
  have hx : phiN a ≠ 0 := fun h => haz ((phiN_eq_zero_iff ha).mp h)
  have hz1 : phiN (mulN (powR1N a) a) ^ (P - 1) = 1 := by
    rw [phiN_norm ha, ← pow_mul]
    have he : nuExp * (P - 1) = P ^ 7 - 1 := by decide
    rw [he]
    exact F7_pow_card_sub_one hx
  have hP : P - 1 + 1 = P := Nat.sub_add_cancel P_pos
  calc phiN (mulN (powR1N a) a) ^ P
      = phiN (mulN (powR1N a) a) ^ (P - 1 + 1) := by rw [hP]
    _ = phiN (mulN (powR1N a) a) := by rw [pow_succ, hz1, one_mul]

/-- Claim C7: for every well-formed stored value, the product
`pow_r_1(x) * x` has zero coefficients in positions 1 through 6, so `pow_r`
returning only coefficient 0 loses no information. -/
theorem claim_C7 (a : Sep7 ℕ) (ha : SepWf a) :
    (mulN (powR1N a) a).c1 = 0 ∧ (mulN (powR1N a) a).c2 = 0 ∧
    (mulN (powR1N a) a).c3 = 0 ∧ (mulN (powR1N a) a).c4 = 0 ∧
    (mulN (powR1N a) a).c5 = 0 ∧ (mulN (powR1N a) a).c6 = 0 ∧
    powRN a = (mulN (powR1N a) a).c0 := by
  by_cases haz : a = zeroN
  · subst haz
    refine ⟨?_, ?_, ?_, ?_, ?_, ?_, rfl⟩ <;> decide
  · obtain ⟨c, hc⟩ := fixed_in_prime_field (norm_fixed ha haz)
    have hphi : phi (toZS (mulN (powR1N a) a)) = phi ⟨c, 0, 0, 0, 0, 0, 0⟩ := by
      rw [phi_const, hc]
      rfl
    have heq := phi_inj hphi
    obtain ⟨w0, w1, w2, w3, w4, w5, w6⟩ := mulN_wf (powR1N_wf ha) ha
    simp only [toZS, Sep7.mk.injEq] at heq
    exact ⟨(toZ_eq_zero_iff w1).mp heq.2.1, (toZ_eq_zero_iff w2).mp heq.2.2.1,
      (toZ_eq_zero_iff w3).mp heq.2.2.2.1, (toZ_eq_zero_iff w4).mp heq.2.2.2.2.1,
      (toZ_eq_zero_iff w5).mp heq.2.2.2.2.2.1, (toZ_eq_zero_iff w6).mp heq.2.2.2.2.2.2, rfl⟩

/-- Witness for C7. -/
theorem claim_C7_witness :
    (mulN (powR1N uMont) uMont).c1 = 0 ∧ (mulN (powR1N uMont) uMont).c2 = 0 ∧
    (mulN (powR1N uMont) uMont).c3 = 0 ∧ (mulN (powR1N uMont) uMont).c4 = 0 ∧
    (mulN (powR1N uMont) uMont).c5 = 0 ∧ (mulN (powR1N uMont) uMont).c6 = 0 ∧
    powRN uMont = (mulN (powR1N uMont) uMont).c0 :=
  claim_C7 uMont uMont_wf

/-! ### Base-field reciprocal correctness -/

lemma expPow2_wf : ∀ (k : ℕ) {a : ℕ}, a < P → expPow2 a k < P
  | 0, _, ha => ha
  | k + 1, a, ha => expPow2_wf k (bbMul_wf ha ha)

lemma toZ_expPow2 : ∀ (k : ℕ) {a : ℕ}, a < P → toZ (expPow2 a k) = toZ a ^ 2 ^ k
  | 0, a, _ => by
    simp only [expPow2, pow_zero, pow_one]
  | k + 1, a, ha => by
    have ih := toZ_expPow2 k (bbMul_wf ha ha)
    simp only [expPow2] at ih ⊢
    rw [ih, toZ_bbMul ha ha]
    rw [← sq, ← pow_mul]
    congr 1
    ring

lemma bbRecipRaw_wf {v : ℕ} (hv : v < P) : bbRecipRaw v < P := by
  unfold bbRecipRaw
  exact (bbMul_wf (expPow2_wf 4 (bbMul_wf (bbMul_wf (bbMul_wf (bbMul_wf (expPow2_wf 5 (expPow2_wf 3 (bbMul_wf (expPow2_wf 8 (expPow2_wf 8 hv)) (bbMul_wf (expPow2_wf 8 hv) hv)))) hv) (bbMul_wf (expPow2_wf 5 (expPow2_wf 3 (bbMul_wf (expPow2_wf 8 (expPow2_wf 8 hv)) (bbMul_wf (expPow2_wf 8 hv) hv)))) hv)) (bbMul_wf (bbMul_wf (expPow2_wf 5 (expPow2_wf 3 (bbMul_wf (expPow2_wf 8 (expPow2_wf 8 hv)) (bbMul_wf (expPow2_wf 8 hv) hv)))) hv) (bbMul_wf (expPow2_wf 5 (expPow2_wf 3 (bbMul_wf (expPow2_wf 8 (expPow2_wf 8 hv)) (bbMul_wf (expPow2_wf 8 hv) hv)))) hv))) (bbMul_wf (bbMul_wf (bbMul_wf (expPow2_wf 5 (expPow2_wf 3 (bbMul_wf (expPow2_wf 8 (expPow2_wf 8 hv)) (bbMul_wf (expPow2_wf 8 hv) hv)))) hv) (bbMul_wf (expPow2_wf 5 (expPow2_wf 3 (bbMul_wf (expPow2_wf 8 (expPow2_wf 8 hv)) (bbMul_wf (expPow2_wf 8 hv) hv)))) hv)) (bbMul_wf (bbMul_wf (expPow2_wf 5 (expPow2_wf 3 (bbMul_wf (expPow2_wf 8 (expPow2_wf 8 hv)) (bbMul_wf (expPow2_wf 8 hv) hv)))) hv) (expPow2_wf 3 (bbMul_wf (expPow2_wf 8 (expPow2_wf 8 hv)) (bbMul_wf (expPow2_wf 8 hv) hv))))))) (bbMul_wf (bbMul_wf (bbMul_wf (bbMul_wf (expPow2_wf 5 (expPow2_wf 3 (bbMul_wf (expPow2_wf 8 (expPow2_wf 8 hv)) (bbMul_wf (expPow2_wf 8 hv) hv)))) hv) (bbMul_wf (expPow2_wf 5 (expPow2_wf 3 (bbMul_wf (expPow2_wf 8 (expPow2_wf 8 hv)) (bbMul_wf (expPow2_wf 8 hv) hv)))) hv)) (bbMul_wf (bbMul_wf (expPow2_wf 5 (expPow2_wf 3 (bbMul_wf (expPow2_wf 8 (expPow2_wf 8 hv)) (bbMul_wf (expPow2_wf 8 hv) hv)))) hv) (bbMul_wf (expPow2_wf 5 (expPow2_wf 3 (bbMul_wf (expPow2_wf 8 (expPow2_wf 8 hv)) (bbMul_wf (expPow2_wf 8 hv) hv)))) hv))) (bbMul_wf (bbMul_wf (bbMul_wf (expPow2_wf 5 (expPow2_wf 3 (bbMul_wf (expPow2_wf 8 (expPow2_wf 8 hv)) (bbMul_wf (expPow2_wf 8 hv) hv)))) hv) (bbMul_wf (expPow2_wf 5 (expPow2_wf 3 (bbMul_wf (expPow2_wf 8 (expPow2_wf 8 hv)) (bbMul_wf (expPow2_wf 8 hv) hv)))) hv)) (bbMul_wf (bbMul_wf (expPow2_wf 5 (expPow2_wf 3 (bbMul_wf (expPow2_wf 8 (expPow2_wf 8 hv)) (bbMul_wf (expPow2_wf 8 hv) hv)))) hv) (expPow2_wf 3 (bbMul_wf (expPow2_wf 8 (expPow2_wf 8 hv)) (bbMul_wf (expPow2_wf 8 hv) hv)))))))

set_option maxHeartbeats 1000000 in
lemma toZ_bbRecipRaw {v : ℕ} (hv : v < P) :
    toZ (bbRecipRaw v) = toZ v ^ 2013265919 := by
  unfold bbRecipRaw
  simp only
  simp only [toZ_bbMul (expPow2_wf 4 (bbMul_wf (bbMul_wf (bbMul_wf (bbMul_wf (expPow2_wf 5 (expPow2_wf 3 (bbMul_wf (expPow2_wf 8 (expPow2_wf 8 hv)) (bbMul_wf (expPow2_wf 8 hv) hv)))) hv) (bbMul_wf (expPow2_wf 5 (expPow2_wf 3 (bbMul_wf (expPow2_wf 8 (expPow2_wf 8 hv)) (bbMul_wf (expPow2_wf 8 hv) hv)))) hv)) (bbMul_wf (bbMul_wf (expPow2_wf 5 (expPow2_wf 3 (bbMul_wf (expPow2_wf 8 (expPow2_wf 8 hv)) (bbMul_wf (expPow2_wf 8 hv) hv)))) hv) (bbMul_wf (expPow2_wf 5 (expPow2_wf 3 (bbMul_wf (expPow2_wf 8 (expPow2_wf 8 hv)) (bbMul_wf (expPow2_wf 8 hv) hv)))) hv))) (bbMul_wf (bbMul_wf (bbMul_wf (expPow2_wf 5 (expPow2_wf 3 (bbMul_wf (expPow2_wf 8 (expPow2_wf 8 hv)) (bbMul_wf (expPow2_wf 8 hv) hv)))) hv) (bbMul_wf (expPow2_wf 5 (expPow2_wf 3 (bbMul_wf (expPow2_wf 8 (expPow2_wf 8 hv)) (bbMul_wf (expPow2_wf 8 hv) hv)))) hv)) (bbMul_wf (bbMul_wf (expPow2_wf 5 (expPow2_wf 3 (bbMul_wf (expPow2_wf 8 (expPow2_wf 8 hv)) (bbMul_wf (expPow2_wf 8 hv) hv)))) hv) (expPow2_wf 3 (bbMul_wf (expPow2_wf 8 (expPow2_wf 8 hv)) (bbMul_wf (expPow2_wf 8 hv) hv))))))) (bbMul_wf (bbMul_wf (bbMul_wf (bbMul_wf (expPow2_wf 5 (expPow2_wf 3 (bbMul_wf (expPow2_wf 8 (expPow2_wf 8 hv)) (bbMul_wf (expPow2_wf 8 hv) hv)))) hv) (bbMul_wf (expPow2_wf 5 (expPow2_wf 3 (bbMul_wf (expPow2_wf 8 (expPow2_wf 8 hv)) (bbMul_wf (expPow2_wf 8 hv) hv)))) hv)) (bbMul_wf (bbMul_wf (expPow2_wf 5 (expPow2_wf 3 (bbMul_wf (expPow2_wf 8 (expPow2_wf 8 hv)) (bbMul_wf (expPow2_wf 8 hv) hv)))) hv) (bbMul_wf (expPow2_wf 5 (expPow2_wf 3 (bbMul_wf (expPow2_wf 8 (expPow2_wf 8 hv)) (bbMul_wf (expPow2_wf 8 hv) hv)))) hv))) (bbMul_wf (bbMul_wf (bbMul_wf (expPow2_wf 5 (expPow2_wf 3 (bbMul_wf (expPow2_wf 8 (expPow2_wf 8 hv)) (bbMul_wf (expPow2_wf 8 hv) hv)))) hv) (bbMul_wf (expPow2_wf 5 (expPow2_wf 3 (bbMul_wf (expPow2_wf 8 (expPow2_wf 8 hv)) (bbMul_wf (expPow2_wf 8 hv) hv)))) hv)) (bbMul_wf (bbMul_wf (expPow2_wf 5 (expPow2_wf 3 (bbMul_wf (expPow2_wf 8 (expPow2_wf 8 hv)) (bbMul_wf (expPow2_wf 8 hv) hv)))) hv) (expPow2_wf 3 (bbMul_wf (expPow2_wf 8 (expPow2_wf 8 hv)) (bbMul_wf (expPow2_wf 8 hv) hv)))))),
    toZ_expPow2 4 (bbMul_wf (bbMul_wf (bbMul_wf (bbMul_wf (expPow2_wf 5 (expPow2_wf 3 (bbMul_wf (expPow2_wf 8 (expPow2_wf 8 hv)) (bbMul_wf (expPow2_wf 8 hv) hv)))) hv) (bbMul_wf (expPow2_wf 5 (expPow2_wf 3 (bbMul_wf (expPow2_wf 8 (expPow2_wf 8 hv)) (bbMul_wf (expPow2_wf 8 hv) hv)))) hv)) (bbMul_wf (bbMul_wf (expPow2_wf 5 (expPow2_wf 3 (bbMul_wf (expPow2_wf 8 (expPow2_wf 8 hv)) (bbMul_wf (expPow2_wf 8 hv) hv)))) hv) (bbMul_wf (expPow2_wf 5 (expPow2_wf 3 (bbMul_wf (expPow2_wf 8 (expPow2_wf 8 hv)) (bbMul_wf (expPow2_wf 8 hv) hv)))) hv))) (bbMul_wf (bbMul_wf (bbMul_wf (expPow2_wf 5 (expPow2_wf 3 (bbMul_wf (expPow2_wf 8 (expPow2_wf 8 hv)) (bbMul_wf (expPow2_wf 8 hv) hv)))) hv) (bbMul_wf (expPow2_wf 5 (expPow2_wf 3 (bbMul_wf (expPow2_wf 8 (expPow2_wf 8 hv)) (bbMul_wf (expPow2_wf 8 hv) hv)))) hv)) (bbMul_wf (bbMul_wf (expPow2_wf 5 (expPow2_wf 3 (bbMul_wf (expPow2_wf 8 (expPow2_wf 8 hv)) (bbMul_wf (expPow2_wf 8 hv) hv)))) hv) (expPow2_wf 3 (bbMul_wf (expPow2_wf 8 (expPow2_wf 8 hv)) (bbMul_wf (expPow2_wf 8 hv) hv)))))),
    toZ_bbMul (bbMul_wf (bbMul_wf (bbMul_wf (expPow2_wf 5 (expPow2_wf 3 (bbMul_wf (expPow2_wf 8 (expPow2_wf 8 hv)) (bbMul_wf (expPow2_wf 8 hv) hv)))) hv) (bbMul_wf (expPow2_wf 5 (expPow2_wf 3 (bbMul_wf (expPow2_wf 8 (expPow2_wf 8 hv)) (bbMul_wf (expPow2_wf 8 hv) hv)))) hv)) (bbMul_wf (bbMul_wf (expPow2_wf 5 (expPow2_wf 3 (bbMul_wf (expPow2_wf 8 (expPow2_wf 8 hv)) (bbMul_wf (expPow2_wf 8 hv) hv)))) hv) (bbMul_wf (expPow2_wf 5 (expPow2_wf 3 (bbMul_wf (expPow2_wf 8 (expPow2_wf 8 hv)) (bbMul_wf (expPow2_wf 8 hv) hv)))) hv))) (bbMul_wf (bbMul_wf (bbMul_wf (expPow2_wf 5 (expPow2_wf 3 (bbMul_wf (expPow2_wf 8 (expPow2_wf 8 hv)) (bbMul_wf (expPow2_wf 8 hv) hv)))) hv) (bbMul_wf (expPow2_wf 5 (expPow2_wf 3 (bbMul_wf (expPow2_wf 8 (expPow2_wf 8 hv)) (bbMul_wf (expPow2_wf 8 hv) hv)))) hv)) (bbMul_wf (bbMul_wf (expPow2_wf 5 (expPow2_wf 3 (bbMul_wf (expPow2_wf 8 (expPow2_wf 8 hv)) (bbMul_wf (expPow2_wf 8 hv) hv)))) hv) (expPow2_wf 3 (bbMul_wf (expPow2_wf 8 (expPow2_wf 8 hv)) (bbMul_wf (expPow2_wf 8 hv) hv))))),
    toZ_bbMul (bbMul_wf (bbMul_wf (expPow2_wf 5 (expPow2_wf 3 (bbMul_wf (expPow2_wf 8 (expPow2_wf 8 hv)) (bbMul_wf (expPow2_wf 8 hv) hv)))) hv) (bbMul_wf (expPow2_wf 5 (expPow2_wf 3 (bbMul_wf (expPow2_wf 8 (expPow2_wf 8 hv)) (bbMul_wf (expPow2_wf 8 hv) hv)))) hv)) (bbMul_wf (bbMul_wf (expPow2_wf 5 (expPow2_wf 3 (bbMul_wf (expPow2_wf 8 (expPow2_wf 8 hv)) (bbMul_wf (expPow2_wf 8 hv) hv)))) hv) (bbMul_wf (expPow2_wf 5 (expPow2_wf 3 (bbMul_wf (expPow2_wf 8 (expPow2_wf 8 hv)) (bbMul_wf (expPow2_wf 8 hv) hv)))) hv)),
    toZ_bbMul (bbMul_wf (expPow2_wf 5 (expPow2_wf 3 (bbMul_wf (expPow2_wf 8 (expPow2_wf 8 hv)) (bbMul_wf (expPow2_wf 8 hv) hv)))) hv) (bbMul_wf (expPow2_wf 5 (expPow2_wf 3 (bbMul_wf (expPow2_wf 8 (expPow2_wf 8 hv)) (bbMul_wf (expPow2_wf 8 hv) hv)))) hv),
    toZ_bbMul (expPow2_wf 5 (expPow2_wf 3 (bbMul_wf (expPow2_wf 8 (expPow2_wf 8 hv)) (bbMul_wf (expPow2_wf 8 hv) hv)))) hv,
    toZ_expPow2 5 (expPow2_wf 3 (bbMul_wf (expPow2_wf 8 (expPow2_wf 8 hv)) (bbMul_wf (expPow2_wf 8 hv) hv))),
    toZ_expPow2 3 (bbMul_wf (expPow2_wf 8 (expPow2_wf 8 hv)) (bbMul_wf (expPow2_wf 8 hv) hv)),
    toZ_bbMul (expPow2_wf 8 (expPow2_wf 8 hv)) (bbMul_wf (expPow2_wf 8 hv) hv),
    toZ_expPow2 8 (expPow2_wf 8 hv),
    toZ_expPow2 8 hv,
    toZ_bbMul (expPow2_wf 8 hv) hv,
    toZ_bbMul (bbMul_wf (bbMul_wf (expPow2_wf 5 (expPow2_wf 3 (bbMul_wf (expPow2_wf 8 (expPow2_wf 8 hv)) (bbMul_wf (expPow2_wf 8 hv) hv)))) hv) (bbMul_wf (expPow2_wf 5 (expPow2_wf 3 (bbMul_wf (expPow2_wf 8 (expPow2_wf 8 hv)) (bbMul_wf (expPow2_wf 8 hv) hv)))) hv)) (bbMul_wf (bbMul_wf (expPow2_wf 5 (expPow2_wf 3 (bbMul_wf (expPow2_wf 8 (expPow2_wf 8 hv)) (bbMul_wf (expPow2_wf 8 hv) hv)))) hv) (expPow2_wf 3 (bbMul_wf (expPow2_wf 8 (expPow2_wf 8 hv)) (bbMul_wf (expPow2_wf 8 hv) hv)))),
    toZ_bbMul (bbMul_wf (expPow2_wf 5 (expPow2_wf 3 (bbMul_wf (expPow2_wf 8 (expPow2_wf 8 hv)) (bbMul_wf (expPow2_wf 8 hv) hv)))) hv) (expPow2_wf 3 (bbMul_wf (expPow2_wf 8 (expPow2_wf 8 hv)) (bbMul_wf (expPow2_wf 8 hv) hv)))]
  ring1

lemma norm_val {a : Sep7 ℕ} (ha : SepWf a) (haz : a ≠ zeroN) :
    algebraMap K F7 (toZ (powRN a)) = phiN a ^ nuExp := by
  obtain ⟨c, hc⟩ := fixed_in_prime_field (norm_fixed ha haz)
  have hphi : phi (toZS (mulN (powR1N a) a)) = phi ⟨c, 0, 0, 0, 0, 0, 0⟩ := by
    rw [phi_const, hc]
    rfl
  have heq := phi_inj hphi
  simp only [toZS, Sep7.mk.injEq] at heq
  unfold powRN
  rw [heq.1, hc]
  exact phiN_norm ha

lemma phiN_ne_zero {a : Sep7 ℕ} (ha : SepWf a) (haz : a ≠ zeroN) : phiN a ≠ 0 :=
  fun h => haz ((phiN_eq_zero_iff ha).mp h)

lemma powRN_wf {a : Sep7 ℕ} (ha : SepWf a) : powRN a < P :=
  (mulN_wf (powR1N_wf ha) ha).1

lemma powRN_ne_zero {a : Sep7 ℕ} (ha : SepWf a) (haz : a ≠ zeroN) : powRN a ≠ 0 := by
  intro h0
  have hval := norm_val ha haz
  rw [h0, toZ_zero, map_zero] at hval
  exact pow_ne_zero nuExp (phiN_ne_zero ha haz) hval.symm

lemma toZ_powRN_ne_zero {a : Sep7 ℕ} (ha : SepWf a) (haz : a ≠ zeroN) :
    toZ (powRN a) ≠ 0 :=
  fun h => powRN_ne_zero ha haz ((toZ_eq_zero_iff (powRN_wf ha)).mp h)

lemma bbRecip_powRN {a : Sep7 ℕ} (ha : SepWf a) (haz : a ≠ zeroN) :
    bbRecip (powRN a) = some (bbRecipRaw (powRN a)) := by
  unfold bbRecip
  rw [if_neg (powRN_ne_zero ha haz)]

lemma reciprocalN_eq {a : Sep7 ℕ} (ha : SepWf a) (haz : a ≠ zeroN) :
    reciprocalN a = some (mulBaseN (powR1N a) (bbRecipRaw (powRN a))) := by
  have hb : bbRecip (mulN (powR1N a) a).c0 = some (bbRecipRaw (powRN a)) :=
    bbRecip_powRN ha haz
  unfold reciprocalN
  simp only
  rw [hb]

/-- Claim C4: the extension-field reciprocal is total exactly on nonzero
well-formed values: on a nonzero value it returns a two-sided inverse, while
on the zero element the base-field reciprocal assertion fires (modelled as
`none`), never silently returning a value. -/
theorem claim_C4 :
    (∀ a : Sep7 ℕ, SepWf a → a ≠ zeroN →
      ∃ r, reciprocalN a = some r ∧ SepWf r ∧ mulN a r = oneN ∧ mulN r a = oneN) ∧
    reciprocalN zeroN = none := by
  constructor
  · intro a ha haz
    have hrr_wf : bbRecipRaw (powRN a) < P := bbRecipRaw_wf (powRN_wf ha)
    have hr_wf : SepWf (mulBaseN (powR1N a) (bbRecipRaw (powRN a))) :=
      mulBaseN_wf (powR1N_wf ha) hrr_wf
    have hnorm : phiN a * phiN (powR1N a) = algebraMap K F7 (toZ (powRN a)) := by
      rw [norm_val ha haz, ← phiN_norm ha, phiN_mul (powR1N_wf ha) ha]
      exact mul_comm _ _
    have hone : toZ (powRN a) * toZ (powRN a) ^ 2013265919 = 1 := by
      have hpow := ZMod.pow_card_sub_one_eq_one (toZ_powRN_ne_zero ha haz)
      calc toZ (powRN a) * toZ (powRN a) ^ 2013265919
          = toZ (powRN a) ^ (P - 1) := by
            rw [show P - 1 = 1 + 2013265919 from by decide, pow_add, pow_one]
        _ = 1 := hpow
    have hkey : phiN a * (phiN (powR1N a) *
        algebraMap K F7 (toZ (powRN a) ^ 2013265919)) = 1 := by
      calc phiN a * (phiN (powR1N a) * algebraMap K F7 (toZ (powRN a) ^ 2013265919))
          = phiN a * phiN (powR1N a) *
              algebraMap K F7 (toZ (powRN a) ^ 2013265919) := (mul_assoc _ _ _).symm
        _ = algebraMap K F7 (toZ (powRN a)) *
              algebraMap K F7 (toZ (powRN a) ^ 2013265919) := by rw [hnorm]
        _ = algebraMap K F7 (toZ (powRN a) * toZ (powRN a) ^ 2013265919) := by
              rw [map_mul]
        _ = 1 := by rw [hone, map_one]
    refine ⟨mulBaseN (powR1N a) (bbRecipRaw (powRN a)), reciprocalN_eq ha haz, hr_wf,
      ?_, ?_⟩
    · refine phiN_inj (mulN_wf ha hr_wf) oneN_wf ?_
      rw [phiN_mul ha hr_wf, phiN_mulBase (powR1N_wf ha) hrr_wf,
        toZ_bbRecipRaw (powRN_wf ha), phiN_one]
      exact hkey
    · refine phiN_inj (mulN_wf hr_wf ha) oneN_wf ?_
      rw [phiN_mul hr_wf ha, phiN_mulBase (powR1N_wf ha) hrr_wf,
        toZ_bbRecipRaw (powRN_wf ha), phiN_one]
      calc phiN (powR1N a) * algebraMap K F7 (toZ (powRN a) ^ 2013265919) * phiN a
          = phiN a * (phiN (powR1N a) *
              algebraMap K F7 (toZ (powRN a) ^ 2013265919)) := by ring
        _ = 1 := hkey
  · decide

/-- Witness for C4. -/
theorem claim_C4_witness :
    (∃ r, reciprocalN uMont = some r ∧ SepWf r ∧ mulN uMont r = oneN ∧
      mulN r uMont = oneN) ∧ reciprocalN zeroN = none :=
  ⟨claim_C4.1 uMont uMont_wf (by decide), claim_C4.2⟩

/-! ### Exception-path loop invariance -/

/-- Claim C10: if the offset-loop body hits the `is_exception` path, the loop
`continue`s without the `x_start += 2^16` step, so every remaining iteration
recomputes the identical trial and the whole loop fails for every fuel and
offset, in both `populate_memory` and `populate_syscall`. -/
theorem claim_C10 (x_start : Sep7 ℕ) (dir : Bool)
    (h : encodeStep x_start dir = .exception) :
    (∀ fuel offset, populateMemoryLoop dir fuel offset x_start = none) ∧
    (∀ fuel offset, populateSyscallLoop dir fuel offset x_start = none) := by
  constructor
  · intro fuel
    induction fuel with
    | zero => intro offset; rfl
    | succ n ih =>
      intro offset
      rw [populateMemoryLoop, h]
      exact ih (offset + 1)
  · intro fuel
    induction fuel with
    | zero => intro offset; rfl
    | succ n ih =>
      intro offset
      rw [populateSyscallLoop, h]
      exact ih (offset + 1)

/-- A starting value whose very first trial hits the exception path. -/
def xExc : Sep7 ℕ :=
  ⟨1080272730, 185776802, 220379490, 1570027497, 452462417, 710963882, 1394658494⟩

set_option maxRecDepth 100000 in
/-- Witness for C10: on `xExc` the first trial is exceptional and the full
256-offset loops of both encoders fail. -/
theorem claim_C10_witness :
    encodeStep xExc true = .exception ∧
    populateMemoryLoop true 256 0 xExc = none ∧
    populateSyscallLoop true 256 0 xExc = none := by
  have h : encodeStep xExc true = .exception := by decide
  exact ⟨h, (claim_C10 xExc true h).1 256 0, (claim_C10 xExc true h).2 256 0⟩

/-! ### Direction correctness of the encoders -/

lemma aEC_wf : SepWf aEC := by decide

lemma bEC_wf : SepWf bEC := by decide

lemma universalHashN_wf {a : Sep7 ℕ} (ha : SepWf a) : SepWf (universalHashN a) :=
  addN_wf (mulN_wf ha aEC_wf) bEC_wf

lemma curveFormulaN_eq (a : Sep7 ℕ) : curveFormulaN a =
    ⟨(addN (addN (mulN (mulN a a) a) a) a).c0, (addN (addN (mulN (mulN a a) a) a) a).c1,
     (addN (addN (mulN (mulN a a) a) a) a).c2, (addN (addN (mulN (mulN a a) a) a) a).c3,
     (addN (addN (mulN (mulN a a) a) a) a).c4,
     bbAdd (addN (addN (mulN (mulN a a) a) a) a).c5 (toMonty 26),
     (addN (addN (mulN (mulN a a) a) a) a).c6⟩ := rfl

lemma SepWf_mk {x0 x1 x2 x3 x4 x5 x6 : ℕ} (h0 : x0 < P) (h1 : x1 < P) (h2 : x2 < P)
    (h3 : x3 < P) (h4 : x4 < P) (h5 : x5 < P) (h6 : x6 < P) :
    SepWf (⟨x0, x1, x2, x3, x4, x5, x6⟩ : Sep7 ℕ) :=
  ⟨h0, h1, h2, h3, h4, h5, h6⟩

lemma curveFormulaN_wf {a : Sep7 ℕ} (ha : SepWf a) : SepWf (curveFormulaN a) := by
  have hA := addN_wf (addN_wf (mulN_wf (mulN_wf ha ha) ha) ha) ha
  rw [curveFormulaN_eq]
  revert hA
  generalize addN (addN (mulN (mulN a a) a) a) a = A
  intro hA
  obtain ⟨h0, h1, h2, h3, h4, h5, h6⟩ := hA
  exact SepWf_mk h0 h1 h2 h3 h4 (bbAdd_wf h5 (toMonty_lt 26)) h6

lemma cipollaMulExt_wf {a b : ℕ × ℕ} {ns : ℕ} (ha1 : a.1 < P) (ha2 : a.2 < P)
    (hb1 : b.1 < P) (hb2 : b.2 < P) (hns : ns < P) :
    (cipollaMulExt a b ns).1 < P ∧ (cipollaMulExt a b ns).2 < P :=
  ⟨bbAdd_wf (bbMul_wf ha1 hb1) (bbMul_wf (bbMul_wf hns ha2) hb2),
   bbAdd_wf (bbMul_wf ha1 hb2) (bbMul_wf ha2 hb1)⟩

lemma cipollaPowAux_wf : ∀ (fuel ns : ℕ) (res base : ℕ × ℕ) (e : ℕ),
    ns < P → res.1 < P → res.2 < P → base.1 < P → base.2 < P →
    (cipollaPowAux ns fuel res base e).1 < P ∧ (cipollaPowAux ns fuel res base e).2 < P
  | 0, _, _, _, _, _, h1, h2, _, _ => ⟨h1, h2⟩
  | fuel + 1, ns, res, base, e, hns, h1, h2, h3, h4 => by
    simp only [cipollaPowAux]
    split
    · exact ⟨h1, h2⟩
    · split
      · exact cipollaPowAux_wf fuel ns _ _ _ hns
          (cipollaMulExt_wf h1 h2 h3 h4 hns).1 (cipollaMulExt_wf h1 h2 h3 h4 hns).2
          (cipollaMulExt_wf h3 h4 h3 h4 hns).1 (cipollaMulExt_wf h3 h4 h3 h4 hns).2
      · exact cipollaPowAux_wf fuel ns _ _ _ hns h1 h2
          (cipollaMulExt_wf h3 h4 h3 h4 hns).1 (cipollaMulExt_wf h3 h4 h3 h4 hns).2

lemma cipollaPow_wf {x : ℕ × ℕ} {e ns : ℕ} (hx1 : x.1 < P) (hx2 : x.2 < P)
    (hns : ns < P) : (cipollaPow x e ns).1 < P ∧ (cipollaPow x e ns).2 < P :=
  cipollaPowAux_wf 32 ns (bbOne, bbZero) x e hns bbOne_wf P_pos hx1 hx2

lemma cipollaSearch_wf : ∀ (fuel base a ns : ℕ) (pr : ℕ × ℕ), base < P → a < P → ns < P →
    cipollaSearch base fuel a ns = some pr → pr.1 < P ∧ pr.2 < P
  | 0, _, _, _, _, _, _, _, h => Option.noConfusion h
  | fuel + 1, base, a, ns, pr, hb, ha, hns, h => by
    simp only [cipollaSearch] at h
    split at h
    · cases h
      exact ⟨ha, hns⟩
    · exact cipollaSearch_wf fuel base _ _ pr hb (bbMul_wf ha (toMonty_lt 31))
        (bbSub_wf (bbMul_wf (bbMul_wf ha (toMonty_lt 31)) (bbMul_wf ha (toMonty_lt 31))) hb) h

lemma sqrtLoopN_wf : ∀ (fuel i : ℕ) (ni np : Sep7 ℕ), SepWf ni → SepWf np →
    SepWf (sqrtLoopN fuel i (ni, np)).1 ∧ SepWf (sqrtLoopN fuel i (ni, np)).2
  | 0, _, _, _, hni, hnp => ⟨hni, hnp⟩
  | fuel + 1, i, ni, np, hni, hnp => by
    simp only [sqrtLoopN]
    split
    · exact sqrtLoopN_wf fuel (i + 1) _ _ (mulN_wf hni hni) (mulN_wf hnp (mulN_wf hni hni))
    · exact sqrtLoopN_wf fuel (i + 1) _ _ (mulN_wf hni hni) hnp

lemma sqrtDenom_wf {a : Sep7 ℕ} (ha : SepWf a) : SepWf (sqrtDenom a) := by
  have hf := frobeniusN_wf (sqrtLoopN_wf 29 1 a a ha ha).2
  have heq : sqrtDenom a =
      mulN (mulN (mulN (frobeniusN (sqrtLoopN 29 1 (a, a)).2)
          (doubleFrobeniusN (frobeniusN (sqrtLoopN 29 1 (a, a)).2)))
        (doubleFrobeniusN (doubleFrobeniusN (frobeniusN (sqrtLoopN 29 1 (a, a)).2)))) a := rfl
  rw [heq]
  exact mulN_wf (mulN_wf (mulN_wf hf (doubleFrobeniusN_wf hf))
    (doubleFrobeniusN_wf (doubleFrobeniusN_wf hf))) ha

lemma sqrtN_wf {a : Sep7 ℕ} {powr : ℕ} {w : Sep7 ℕ} (ha : SepWf a) (hpr : powr < P)
    (h : sqrtN a powr = some w) : SepWf w := by
  have heq : sqrtN a powr =
      if a = zeroN then some a else sqrtFromBase a (bbRecip powr) := rfl
  rw [heq] at h
  split at h
  · rw [← Option.some.inj h]
    exact ha
  · cases hbr : bbRecip powr with
    | none =>
      rw [hbr] at h
      exact Option.noConfusion h
    | some base =>
      rw [hbr] at h
      have hbase : base < P := by
        have hcase : bbRecip powr = some base := hbr
        unfold bbRecip at hcase
        by_cases hz : powr = 0
        · rw [if_pos hz] at hcase
          exact Option.noConfusion hcase
        · rw [if_neg hz] at hcase
          rw [← Option.some.inj hcase]
          exact bbRecipRaw_wf hpr
      rw [show sqrtFromBase a (some base) =
        sqrtFromSearch a (cipollaSearch base P bbOne (bbSub bbOne base)) from rfl] at h
      cases hcs : cipollaSearch base P bbOne (bbSub bbOne base) with
      | none =>
        rw [hcs] at h
        exact Option.noConfusion h
      | some pair =>
        rw [hcs] at h
        rw [show sqrtFromSearch a (some pair) = some (mulBaseN (sqrtDenom a)
          (cipollaPow (pair.1, bbOne) 1006632961 pair.2).1) from rfl] at h
        rw [← Option.some.inj h]
        have hpair := cipollaSearch_wf P base bbOne (bbSub bbOne base) pair hbase
          bbOne_wf (bbSub_wf bbOne_wf hbase) hcs
        have hx := @cipollaPow_wf (pair.1, bbOne) 1006632961 pair.2 hpair.1 bbOne_wf hpair.2
        exact mulBaseN_wf (sqrtDenom_wf ha) hx.1

lemma asCanonical_ne_zero {v : ℕ} (hv : v < P) (h0 : v ≠ 0) : asCanonical v ≠ 0 := by
  rw [asCanonical_val hv]
  intro hz
  have hzz : toZ v = 0 := by
    have := (ZMod.val_eq_zero (toZ v)).mp hz
    exact this
  exact h0 ((toZ_eq_zero_iff hv).mp hzz)

lemma asCanonical_neg {v : ℕ} (hv : v < P) (h0 : v ≠ 0) :
    asCanonical (P - v) = P - asCanonical v := by
  have hv2 : P - v < P := by omega
  rw [asCanonical_val hv2, asCanonical_val hv]
  have htz : toZ (P - v) = - toZ v := by
    unfold toZ
    have hc : ((P - v : ℕ) : K) = ((P : ℕ) : K) - ((v : ℕ) : K) :=
      Nat.cast_sub (le_of_lt hv)
    rw [hc, P_cast_zero]
    ring
  rw [htz, ZMod.neg_val, if_neg (fun hh => h0 ((toZ_eq_zero_iff hv).mp hh))]

lemma flip_receive {y : Sep7 ℕ} (hy : SepWf y) (h6 : y.c6 ≠ 0) :
    isReceiveN (subN zeroN y) = !(isReceiveN y) ∧ (subN zeroN y).c6 ≠ 0 := by
  have hc6 : y.c6 < P := hy.2.2.2.2.2.2
  have hsub : (subN zeroN y).c6 = P - y.c6 := by
    show bbSub 0 y.c6 = P - y.c6
    unfold bbSub
    rw [if_pos (Nat.pos_of_ne_zero h6)]
    omega
  have hc6P : 0 < y.c6 := Nat.pos_of_ne_zero h6
  refine ⟨?_, by rw [hsub]; omega⟩
  have hneg := asCanonical_neg hc6 h6
  have hclt := asCanonical_lt hc6
  have hcne := asCanonical_ne_zero hc6 h6
  have hPlit : P = 2013265921 := rfl
  cases hb : isReceiveN y with
  | true =>
    have hprop : 1 ≤ asCanonical y.c6 ∧ asCanonical y.c6 ≤ (P - 1) / 2 := by
      have hb2 := hb
      simp only [isReceiveN, decide_eq_true_eq] at hb2
      exact hb2
    simp only [isReceiveN, hsub, hneg, Bool.not_true]
    rw [decide_eq_false_iff_not]
    simp only [hPlit] at *
    omega
  | false =>
    have hprop : ¬ (1 ≤ asCanonical y.c6 ∧ asCanonical y.c6 ≤ (P - 1) / 2) := by
      have hb2 := hb
      simp only [isReceiveN, decide_eq_false_iff_not] at hb2
      exact hb2
    simp only [isReceiveN, hsub, hneg, Bool.not_false]
    rw [decide_eq_true_eq]
    simp only [hPlit] at *
    omega

lemma encodeStep_success {x : Sep7 ℕ} {dir : Bool} {xt y : Sep7 ℕ}
    (hx : SepWf x) (h : encodeStep x dir = .success xt y) :
    SepWf y ∧ isReceiveN y = dir ∧ isExceptionN y = false := by
  have hysq : SepWf (curveFormulaN (universalHashN x)) :=
    curveFormulaN_wf (universalHashN_wf hx)
  have heq : encodeStep x dir =
      if bbPow (powRN (curveFormulaN (universalHashN x))) 1006632960 = bbOne then
        encodeDecide dir (universalHashN x)
          (sqrtN (curveFormulaN (universalHashN x))
            (powRN (curveFormulaN (universalHashN x))))
      else .notSquare := rfl
  rw [heq] at h
  split at h
  · cases hsq : sqrtN (curveFormulaN (universalHashN x))
        (powRN (curveFormulaN (universalHashN x))) with
    | none =>
      rw [hsq] at h
      exact StepResult.noConfusion h
    | some y0 =>
      rw [hsq] at h
      have hy0 : SepWf y0 := sqrtN_wf hysq (powRN_wf hysq) hsq
      rw [show encodeDecide dir (universalHashN x) (some y0) =
        (if isExceptionN y0 then .exception
         else if isReceiveN y0 ≠ dir then .success (universalHashN x) (subN zeroN y0)
         else .success (universalHashN x) y0) from rfl] at h
      split at h
      · exact StepResult.noConfusion h
      · rename_i hexc0
        have hexcF : isExceptionN y0 = false := by
          cases hE : isExceptionN y0
          · rfl
          · exact absurd hE hexc0
        have h60 : y0.c6 ≠ 0 := by
          intro hz
          rw [show isExceptionN y0 = true from by simp [isExceptionN, hz]] at hexcF
          exact Bool.noConfusion hexcF
        split at h
        · rename_i hne
          rw [StepResult.success.injEq] at h
          obtain ⟨hxt, hy⟩ := h
          subst hy
          obtain ⟨hflip, h6n⟩ := flip_receive hy0 h60
          refine ⟨subN_wf zeroN_wf hy0, ?_, ?_⟩
          · rw [hflip]
            have hbb : ∀ (u v : Bool), u ≠ v → (!u) = v := by decide
            exact hbb _ _ hne
          · simp only [isExceptionN, decide_eq_false_iff_not]
            exact h6n
        · rename_i hnn
          rw [StepResult.success.injEq] at h
          obtain ⟨hxt, hy⟩ := h
          subst hy
          exact ⟨hy0, not_not.mp hnn, hexcF⟩
  · exact StepResult.noConfusion h

lemma populateMemoryLoop_success {dir : Bool} : ∀ (fuel offset : ℕ) (x : Sep7 ℕ)
    (cols : MemCols), SepWf x → populateMemoryLoop dir fuel offset x = some cols →
    isReceiveN cols.ycoord = dir ∧ isExceptionN cols.ycoord = false
  | 0, _, _, _, _, h => Option.noConfusion h
  | fuel + 1, offset, x, cols, hx, h => by
    rw [populateMemoryLoop] at h
    cases hs : encodeStep x dir with
    | abort =>
      rw [hs] at h
      exact Option.noConfusion h
    | exception =>
      rw [hs] at h
      simp only [memStep] at h
      exact populateMemoryLoop_success fuel (offset + 1) x cols hx h
    | notSquare =>
      rw [hs] at h
      simp only [memStep] at h
      exact populateMemoryLoop_success fuel (offset + 1) _ cols
        (addBaseN_wf hx (toMonty_lt 65536)) h
    | success xt y =>
      rw [hs] at h
      simp only [memStep] at h
      obtain ⟨hwf, hrecv, hexc⟩ := encodeStep_success hx hs
      rw [← Option.some.inj h]
      exact ⟨hrecv, hexc⟩

lemma populateSyscallLoop_success {dir : Bool} : ∀ (fuel offset : ℕ) (x : Sep7 ℕ)
    (cols : SyscallCols), SepWf x → populateSyscallLoop dir fuel offset x = some cols →
    isReceiveN cols.ycoord = dir ∧ isExceptionN cols.ycoord = false
  | 0, _, _, _, _, h => Option.noConfusion h
  | fuel + 1, offset, x, cols, hx, h => by
    rw [populateSyscallLoop] at h
    cases hs : encodeStep x dir with
    | abort =>
      rw [hs] at h
      exact Option.noConfusion h
    | exception =>
      rw [hs] at h
      simp only [sysStep] at h
      exact populateSyscallLoop_success fuel (offset + 1) x cols hx h
    | notSquare =>
      rw [hs] at h
      simp only [sysStep] at h
      exact populateSyscallLoop_success fuel (offset + 1) _ cols
        (addBaseN_wf hx (toMonty_lt 65536)) h
    | success xt y =>
      rw [hs] at h
      simp only [sysStep] at h
      obtain ⟨hwf, hrecv, hexc⟩ := encodeStep_success hx hs
      split at h
      · exact Option.noConfusion h
      · rw [← Option.some.inj h]
        exact ⟨hrecv, hexc⟩

/-- Claim C1: whenever `populate_memory` or `populate_syscall` returns
successfully, the y-coordinate it writes classifies as the requested
direction (`is_receive(y) == dir`) and is not exceptional
(`is_exception(y) == false`). -/
theorem claim_C1 :
    (∀ (r : MemoryRecord) (addr : ℕ) (dir : Bool) (cols : MemCols),
      populateMemory r addr dir = some cols →
      isReceiveN cols.ycoord = dir ∧ isExceptionN cols.ycoord = false) ∧
    (∀ (ev : SyscallEvent) (dir : Bool) (cols : SyscallCols),
      populateSyscall ev dir = some cols →
      isReceiveN cols.ycoord = dir ∧ isExceptionN cols.ycoord = false) := by
  constructor
  · intro r addr dir cols h
    unfold populateMemory at h
    split at h
    · exact populateMemoryLoop_success 256 0 _ cols
        ⟨toMonty_lt _, toMonty_lt _, toMonty_lt _, toMonty_lt _, toMonty_lt _,
         toMonty_lt _, toMonty_lt _⟩ h
    · exact Option.noConfusion h
  · intro ev dir cols h
    unfold populateSyscall at h
    split at h
    · exact populateSyscallLoop_success 256 0 _ cols
        ⟨toMonty_lt _, toMonty_lt _, toMonty_lt _, toMonty_lt _, toMonty_lt _,
         toMonty_lt _, P_pos⟩ h
    · exact Option.noConfusion h

/-- The columns `populate_memory` writes for the record `(1, 0, 0)` at
address `0`, receive direction. -/
def memColsC : MemCols :=
  ⟨805306362,
   ⟨953321862, 122223361, 1032098871, 121756431, 915337728, 1554920014, 1245685755⟩,
   ⟨858738114, 1008184205, 655109352, 994512284, 1467260135, 978559672, 968254764⟩,
   (1207959239, 134217455, 536870396, 536870812)⟩

set_option maxRecDepth 100000 in
/-- Witness for C1 on a concrete memory record. -/
theorem claim_C1_witness :
    isReceiveN memColsC.ycoord = true ∧ isExceptionN memColsC.ycoord = false :=
  claim_C1.1 ⟨1, 0, 0⟩ 0 true memColsC (by decide)

/-! ### Termination of the non-residue search and the encoder loop bounds -/

lemma bbPowAux_wf : ∀ (fuel acc sqr b : ℕ), acc < P → sqr < P →
    bbPowAux fuel acc sqr b < P
  | 0, _, _, _, ha, _ => ha
  | fuel + 1, acc, sqr, b, ha, hs => by
    simp only [bbPowAux]
    split
    · exact ha
    · have hacc2 : (if b / 2 % 2 = 1 then bbMul acc (bbMul sqr sqr) else acc) < P := by
        split
        · exact bbMul_wf ha (bbMul_wf hs hs)
        · exact ha
      exact bbPowAux_wf fuel _ _ _ hacc2 (bbMul_wf hs hs)

lemma toZ_bbPowAux : ∀ (fuel acc sqr b : ℕ), b / 2 < 2 ^ fuel → acc < P → sqr < P →
    toZ (bbPowAux fuel acc sqr b) = toZ acc * toZ sqr ^ (2 * (b / 2))
  | 0, acc, sqr, b, hb, _, _ => by
    have hb0 : b / 2 = 0 := by simpa using hb
    rw [show bbPowAux 0 acc sqr b = acc from rfl, hb0]
    simp
  | fuel + 1, acc, sqr, b, hb, ha, hs => by
    simp only [bbPowAux]
    split
    · rename_i hb0
      rw [hb0]
      simp
    · rename_i hb0
      have hdiv : b / 2 / 2 < 2 ^ fuel := by
        have h2 : (2 : ℕ) ^ (fuel + 1) = 2 ^ fuel * 2 := pow_succ 2 fuel
        omega
      have hacc2 : (if b / 2 % 2 = 1 then bbMul acc (bbMul sqr sqr) else acc) < P := by
        split
        · exact bbMul_wf ha (bbMul_wf hs hs)
        · exact ha
      have hrec := toZ_bbPowAux fuel _ (bbMul sqr sqr) (b / 2) hdiv hacc2 (bbMul_wf hs hs)
      by_cases hpar : b / 2 % 2 = 1
      · rw [if_pos hpar] at hrec ⊢
        rw [hrec, toZ_bbMul ha (bbMul_wf hs hs), toZ_bbMul hs hs]
        have hexp : 2 * (b / 2) = 2 + 2 * 2 * (b / 2 / 2) := by omega
        rw [hexp]
        generalize b / 2 / 2 = E
        ring1
      · rw [if_neg hpar] at hrec ⊢
        rw [hrec, toZ_bbMul hs hs]
        have hexp : 2 * (b / 2) = 2 * 2 * (b / 2 / 2) := by omega
        rw [hexp]
        generalize b / 2 / 2 = E
        ring1

lemma bbPow_wf {a : ℕ} (b : ℕ) (ha : a < P) : bbPow a b < P := by
  unfold bbPow
  apply bbPowAux_wf
  · split
    · exact bbOne_wf
    · exact ha
  · exact ha

lemma toZ_bbPow {a b : ℕ} (ha : a < P) (hb : b < 2 ^ 33) :
    toZ (bbPow a b) = toZ a ^ b := by
  unfold bbPow
  have hdiv : b / 2 < 2 ^ 32 := by
    have h2 : (2 : ℕ) ^ 33 = 2 ^ 32 * 2 := pow_succ 2 32
    omega
  by_cases hpar : b % 2 = 0
  · rw [if_pos hpar]
    rw [toZ_bbPowAux 32 bbOne a b hdiv bbOne_wf ha, toZ_bbOne, one_mul]
    congr 1
    omega
  · rw [if_neg hpar]
    rw [toZ_bbPowAux 32 a a b hdiv ha ha, ← pow_succ']
    congr 1
    omega

/-- `31` generates the multiplicative group of the base field: its order is
`P - 1` (certified by the same modular-exponentiation certificates as the
Lucas primality proof). -/
lemma orderOf_31 : orderOf ((31 : ℕ) : K) = P - 1 := by
  apply orderOf_eq_of_pow_and_pow_div_prime
  · decide
  · have h := @pow31_of_powMod (P - 1) 1 (by decide)
      (by decide : powMod 31 31 (P - 1) = 1)
    rw [h]
    exact Nat.cast_one
  · intro q hq hdvd
    have hfac : P - 1 = 2 ^ 27 * 3 * 5 := by decide
    rw [hfac] at hdvd
    have hq235 : q = 2 ∨ q = 3 ∨ q = 5 := by
      rcases (Nat.Prime.dvd_mul hq).mp hdvd with h35 | h5
      · rcases (Nat.Prime.dvd_mul hq).mp h35 with h2 | h3
        · exact Or.inl ((Nat.prime_dvd_prime_iff_eq hq (by norm_num)).mp
            (Nat.Prime.dvd_of_dvd_pow hq h2))
        · exact Or.inr (Or.inl ((Nat.prime_dvd_prime_iff_eq hq (by norm_num)).mp h3))
      · exact Or.inr (Or.inr ((Nat.prime_dvd_prime_iff_eq hq (by norm_num)).mp h5))
    rw [hfac]
    rcases hq235 with h | h | h <;> subst h <;> intro hcontra
    · have hexp : 2 ^ 27 * 3 * 5 / 2 = 1006632960 := by decide
      rw [hexp, pow31_of_powMod (by decide) (by decide : powMod 31 31 1006632960 = 2013265920),
        ← Nat.cast_one] at hcontra
      exact absurd (natCast_inj_lt (by decide) (by decide) hcontra) (by decide)
    · have hexp : 2 ^ 27 * 3 * 5 / 3 = 671088640 := by decide
      rw [hexp, pow31_of_powMod (by decide) (by decide : powMod 31 31 671088640 = 1314723123),
        ← Nat.cast_one] at hcontra
      exact absurd (natCast_inj_lt (by decide) (by decide) hcontra) (by decide)
    · have hexp : 2 ^ 27 * 3 * 5 / 5 = 402653184 := by decide
      rw [hexp, pow31_of_powMod (by decide) (by decide : powMod 31 31 402653184 = 645581151),
        ← Nat.cast_one] at hcontra
      exact absurd (natCast_inj_lt (by decide) (by decide) hcontra) (by decide)

/-- In a finite group, an element of maximal order reaches every element by a
power below the group order. -/
lemma exists_pow_of_orderOf_eq_card {G : Type} [Group G] [Fintype G] (u v : G)
    (h : orderOf u = Fintype.card G) : ∃ k : ℕ, k < Fintype.card G ∧ u ^ k = v := by
  have hpos : 0 < Fintype.card G := Fintype.card_pos
  have hfin : IsOfFinOrder u := by
    by_contra hno
    have h0 := orderOf_eq_zero_iff.mpr hno
    rw [h0] at h
    omega
  have htop : Subgroup.zpowers u = ⊤ := by
    apply Subgroup.eq_top_of_card_eq
    rw [Nat.card_zpowers, h, Nat.card_eq_fintype_card]
  have hvmem : v ∈ Subgroup.zpowers u := by rw [htop]; exact Subgroup.mem_top v
  obtain ⟨n, hn⟩ := (Submonoid.mem_powers_iff v u).mp (hfin.mem_powers_iff_mem_zpowers.mpr hvmem)
  refine ⟨n % Fintype.card G, Nat.mod_lt n hpos, ?_⟩
  rw [← h, pow_mod_orderOf, hn]

/-- Every nonzero base-field element is a power of the generator `31`. -/
lemma exists_pow_31 (x : K) (hx : x ≠ 0) : ∃ k : ℕ, k < P - 1 ∧ ((31 : ℕ) : K) ^ k = x := by
  have h31 : ((31 : ℕ) : K) ≠ 0 := by
    intro h
    have h0 : ((31 : ℕ) : K) = ((0 : ℕ) : K) := by rw [h, Nat.cast_zero]
    exact absurd (natCast_inj_lt (by decide) (by decide) h0) (by decide)
  have hcard : Fintype.card Kˣ = P - 1 := ZMod.card_units P
  have hordu : orderOf (Units.mk0 ((31 : ℕ) : K) h31) = Fintype.card Kˣ := by
    have h1 : orderOf ((Units.mk0 ((31 : ℕ) : K) h31 : Kˣ) : K) =
        orderOf (Units.mk0 ((31 : ℕ) : K) h31) := orderOf_units
    rw [Units.val_mk0] at h1
    rw [← h1, orderOf_31, hcard]
  obtain ⟨k, hk, hpow⟩ :=
    exists_pow_of_orderOf_eq_card (Units.mk0 ((31 : ℕ) : K) h31) (Units.mk0 x hx) hordu
  rw [hcard] at hk
  refine ⟨k, hk, ?_⟩
  have hv := congrArg Units.val hpow
  rwa [Units.val_pow_eq_pow_val, Units.val_mk0, Units.val_mk0] at hv

/-- If `z ^ ((P-1)/2) = 1` then `z` is a nonzero square (Euler's criterion). -/
lemma pow_euler_split {z : K} (h : z ^ 1006632960 = 1) : z ≠ 0 ∧ IsSquare z := by
  have hz : z ≠ 0 := by
    intro h0
    rw [h0, zero_pow (by norm_num)] at h
    exact zero_ne_one h
  refine ⟨hz, ?_⟩
  have hcrit := (ZMod.euler_criterion P hz).mpr
  have hP2 : P / 2 = 1006632960 := by decide
  rw [hP2] at hcrit
  exact hcrit h

/-- The mathematical core of the termination of the non-residue search: for a
nonzero base `b`, some `a = 31 ^ k` with `k < P` makes `a² - b` zero or a
non-residue.  Otherwise every `1 - n·b` would be a nonzero square, which fails
at `n = b⁻¹`. -/
lemma search_exists {b : K} (hb : b ≠ 0) :
    ∃ k : ℕ, k < P ∧ (((31 : ℕ) : K) ^ k * ((31 : ℕ) : K) ^ k - b) ^ 1006632960 ≠ 1 := by
  by_contra hcon
  push_neg at hcon
  have hsq : ∀ x : K, x ≠ 0 → (x * x - b ≠ 0 ∧ IsSquare (x * x - b)) := by
    intro x hx
    obtain ⟨k, hk, hpow⟩ := exists_pow_31 x hx
    have h := hcon k (Nat.lt_of_lt_of_le hk (Nat.sub_le P 1))
    rw [hpow] at h
    exact pow_euler_split h
  have hchain : ∀ n : ℕ, (1 : K) - (n : K) * b ≠ 0 ∧ IsSquare ((1 : K) - (n : K) * b) := by
    intro n
    induction n with
    | zero =>
      constructor
      · intro h
        rw [Nat.cast_zero, zero_mul, sub_zero] at h
        exact one_ne_zero h
      · rw [Nat.cast_zero, zero_mul, sub_zero]
        exact isSquare_one
    | succ m ih =>
      obtain ⟨hne, hsqm⟩ := ih
      obtain ⟨r, hr⟩ := hsqm
      have hrne : r ≠ 0 := by
        intro h0
        rw [h0, mul_zero] at hr
        exact hne hr
      have hstep := hsq r hrne
      rw [← hr] at hstep
      have hcast : (1 : K) - (m : K) * b - b = 1 - ((m + 1 : ℕ) : K) * b := by
        push_cast
        ring
      rw [hcast] at hstep
      exact hstep
  obtain ⟨hne, _⟩ := hchain (b⁻¹.val)
  apply hne
  have hval : ((b⁻¹.val : ℕ) : K) = b⁻¹ := ZMod.natCast_rightInverse b⁻¹
  rw [hval, inv_mul_cancel₀ hb, sub_self]

/-- The non-residue search succeeds before the fuel runs out as soon as some
index in range breaks the residuosity test. -/
lemma cipollaSearch_some : ∀ (fuel j base a ns : ℕ), base < P → a < P → ns < P →
    toZ a = ((31 : ℕ) : K) ^ j →
    toZ ns = ((31 : ℕ) : K) ^ j * ((31 : ℕ) : K) ^ j - toZ base →
    (∃ k, j ≤ k ∧ k < j + fuel ∧
      (((31 : ℕ) : K) ^ k * ((31 : ℕ) : K) ^ k - toZ base) ^ 1006632960 ≠ 1) →
    (cipollaSearch base fuel a ns).isSome = true
  | 0, j, base, a, ns, _, _, _, _, _, hex => by
    obtain ⟨k, hk1, hk2, _⟩ := hex
    omega
  | fuel + 1, j, base, a, ns, hbase, ha, hns, hza, hzns, hex => by
    simp only [cipollaSearch]
    split
    · rfl
    · rename_i hc
      have hceq : bbPow ns 1006632960 = bbOne := not_not.mp hc
      have hnsz : toZ ns ^ 1006632960 = 1 := by
        have h2 := congrArg toZ hceq
        rwa [toZ_bbPow hns (by norm_num), toZ_bbOne] at h2
      have hjok : (((31 : ℕ) : K) ^ j * ((31 : ℕ) : K) ^ j - toZ base) ^ 1006632960 = 1 := by
        rw [← hzns]
        exact hnsz
      obtain ⟨k, hk1, hk2, hkne⟩ := hex
      have hkj : j ≠ k := by
        intro h
        subst h
        exact hkne hjok
      have ha2 : bbMul a (toMonty 31) < P := bbMul_wf ha (toMonty_lt 31)
      have hza2 : toZ (bbMul a (toMonty 31)) = ((31 : ℕ) : K) ^ (j + 1) := by
        rw [toZ_bbMul ha (toMonty_lt 31), toZ_toMonty, hza, pow_succ]
      exact cipollaSearch_some fuel (j + 1) base _ _ hbase ha2
        (bbSub_wf (bbMul_wf ha2 ha2) hbase) hza2
        (by rw [toZ_bbSub (bbMul_wf ha2 ha2) hbase, toZ_bbMul ha2 ha2, hza2])
        ⟨k, by omega, by omega, hkne⟩

/-- The unbounded `while (true)` search of `sqrt` terminates for every nonzero
base: a fuel of `P` is never exhausted. -/
lemma cipollaSearch_isSome {base : ℕ} (hb : base < P) (hb0 : base ≠ 0) :
    (cipollaSearch base P bbOne (bbSub bbOne base)).isSome = true := by
  have hbz : toZ base ≠ 0 := fun h => hb0 ((toZ_eq_zero_iff hb).mp h)
  obtain ⟨k, hk, hkne⟩ := search_exists hbz
  refine cipollaSearch_some P 0 base bbOne (bbSub bbOne base) hb bbOne_wf
    (bbSub_wf bbOne_wf hb) ?_ ?_ ⟨k, Nat.zero_le k, by omega, hkne⟩
  · rw [toZ_bbOne, pow_zero]
  · rw [toZ_bbSub bbOne_wf hb, toZ_bbOne, pow_zero, one_mul]

/-- `sqrt(x, pow_r(x))` terminates on every well-formed input: the zero input
returns immediately, and on nonzero input the base-field reciprocal succeeds
and the non-residue search terminates. -/
lemma sqrtN_isSome {a : Sep7 ℕ} (ha : SepWf a) : (sqrtN a (powRN a)).isSome = true := by
  by_cases haz : a = zeroN
  · rw [show sqrtN a (powRN a) =
      (if a = zeroN then some a else sqrtFromBase a (bbRecip (powRN a))) from rfl, if_pos haz]
    rfl
  · rw [show sqrtN a (powRN a) =
      (if a = zeroN then some a else sqrtFromBase a (bbRecip (powRN a))) from rfl, if_neg haz]
    rw [bbRecip_powRN ha haz]
    rw [show sqrtFromBase a (some (bbRecipRaw (powRN a))) =
      sqrtFromSearch a (cipollaSearch (bbRecipRaw (powRN a)) P bbOne
        (bbSub bbOne (bbRecipRaw (powRN a)))) from rfl]
    have hbwf : bbRecipRaw (powRN a) < P := bbRecipRaw_wf (powRN_wf ha)
    have hb0 : bbRecipRaw (powRN a) ≠ 0 := by
      intro h0
      have hz : toZ (bbRecipRaw (powRN a)) = 0 := by rw [h0, toZ_zero]
      rw [toZ_bbRecipRaw (powRN_wf ha)] at hz
      exact pow_ne_zero 2013265919 (toZ_powRN_ne_zero ha haz) hz
    have hsome := cipollaSearch_isSome hbwf hb0
    cases hcs : cipollaSearch (bbRecipRaw (powRN a)) P bbOne
        (bbSub bbOne (bbRecipRaw (powRN a))) with
    | none =>
      rw [hcs] at hsome
      simp at hsome
    | some pair => rfl

/-- A successful run of the `populate_memory` offset loop records an offset
inside the iteration range. -/
lemma populateMemoryLoop_offset {dir : Bool} : ∀ (fuel offset : ℕ) (x : Sep7 ℕ)
    (cols : MemCols), populateMemoryLoop dir fuel offset x = some cols →
    ∃ k, offset ≤ k ∧ k < offset + fuel ∧ cols.offset = toMonty k
  | 0, _, _, _, h => Option.noConfusion h
  | fuel + 1, offset, x, cols, h => by
    rw [populateMemoryLoop] at h
    cases hs : encodeStep x dir with
    | abort =>
      rw [hs] at h
      exact Option.noConfusion h
    | exception =>
      rw [hs] at h
      simp only [memStep] at h
      obtain ⟨k, hk1, hk2, hk3⟩ := populateMemoryLoop_offset fuel (offset + 1) x cols h
      exact ⟨k, by omega, by omega, hk3⟩
    | notSquare =>
      rw [hs] at h
      simp only [memStep] at h
      obtain ⟨k, hk1, hk2, hk3⟩ := populateMemoryLoop_offset fuel (offset + 1) _ cols h
      exact ⟨k, by omega, by omega, hk3⟩
    | success xt y =>
      rw [hs] at h
      simp only [memStep] at h
      refine ⟨offset, le_refl offset, by omega, ?_⟩
      rw [← Option.some.inj h]

/-- A successful run of the `populate_syscall` offset loop records offset bits
of an offset inside the iteration range. -/
lemma populateSyscallLoop_offset {dir : Bool} : ∀ (fuel offset : ℕ) (x : Sep7 ℕ)
    (cols : SyscallCols), populateSyscallLoop dir fuel offset x = some cols →
    ∃ k, offset ≤ k ∧ k < offset + fuel ∧
      cols.offsetBits = (List.range 8).map (fun i => toMonty (k / 2 ^ i % 2))
  | 0, _, _, _, h => Option.noConfusion h
  | fuel + 1, offset, x, cols, h => by
    rw [populateSyscallLoop] at h
    cases hs : encodeStep x dir with
    | abort =>
      rw [hs] at h
      exact Option.noConfusion h
    | exception =>
      rw [hs] at h
      simp only [sysStep] at h
      obtain ⟨k, hk1, hk2, hk3⟩ := populateSyscallLoop_offset fuel (offset + 1) x cols h
      exact ⟨k, by omega, by omega, hk3⟩
    | notSquare =>
      rw [hs] at h
      simp only [sysStep] at h
      obtain ⟨k, hk1, hk2, hk3⟩ := populateSyscallLoop_offset fuel (offset + 1) _ cols h
      exact ⟨k, by omega, by omega, hk3⟩
    | success xt y =>
      rw [hs] at h
      simp only [sysStep] at h
      split at h
      · exact Option.noConfusion h
      · refine ⟨offset, le_refl offset, by omega, ?_⟩
        rw [← Option.some.inj h]

/-- Claim C9: every operation of the core is a bounded, terminating
computation: the non-residue search of `sqrt` — the only loop the source does
not bound — terminates for every well-formed input when called as
`sqrt(x, pow_r(x))` (a fuel of `P` is never exhausted), and the encoders'
offset loops are bounded at 256 iterations: a successful encoding always
reports an offset below 256. -/
theorem claim_C9 :
    (∀ a : Sep7 ℕ, SepWf a → (sqrtN a (powRN a)).isSome = true) ∧
    (∀ (r : MemoryRecord) (addr : ℕ) (dir : Bool) (cols : MemCols),
      populateMemory r addr dir = some cols → ∃ k, k < 256 ∧ cols.offset = toMonty k) ∧
    (∀ (ev : SyscallEvent) (dir : Bool) (cols : SyscallCols),
      populateSyscall ev dir = some cols →
      ∃ k, k < 256 ∧ cols.offsetBits = (List.range 8).map (fun i => toMonty (k / 2 ^ i % 2))) := by
  refine ⟨fun a ha => sqrtN_isSome ha, ?_, ?_⟩
  · intro r addr dir cols h
    unfold populateMemory at h
    split at h
    · obtain ⟨k, hk1, hk2, hk3⟩ := populateMemoryLoop_offset 256 0 _ cols h
      exact ⟨k, by omega, hk3⟩
    · exact Option.noConfusion h
  · intro ev dir cols h
    unfold populateSyscall at h
    split at h
    · obtain ⟨k, hk1, hk2, hk3⟩ := populateSyscallLoop_offset 256 0 _ cols h
      exact ⟨k, by omega, hk3⟩
    · exact Option.noConfusion h

/-- The columns `populate_syscall` writes for the event `(1, 0, 0, 0, 0)`,
receive direction. -/
def sysColsC : SyscallCols :=
  ⟨[268435454, 0, 0, 0, 0, 0, 0, 0],
   ⟨1791445079, 909808157, 1805220546, 431910133, 891258612, 409423011, 1309798619⟩,
   ⟨1438910236, 1565107775, 848870485, 806908883, 1053288057, 585116805, 684036336⟩,
   [268435454, 268435454, 268435454, 268435454, 0, 0, 0, 0, 0, 0, 268435454, 0, 0,
    268435454, 268435454, 0, 268435454, 268435454, 0, 0, 0, 268435454, 268435454,
    268435454, 0, 0, 0, 268435454, 0, 268435454],
   1879048194⟩

set_option maxRecDepth 100000 in
/-- Witness for C9 at concrete inputs. -/
theorem claim_C9_witness :
    (sqrtN oneN (powRN oneN)).isSome = true ∧
    (∃ k, k < 256 ∧ memColsC.offset = toMonty k) ∧
    (∃ k, k < 256 ∧ sysColsC.offsetBits = (List.range 8).map (fun i => toMonty (k / 2 ^ i % 2))) :=
  ⟨claim_C9.1 oneN (by decide),
   claim_C9.2.1 ⟨1, 0, 0⟩ 0 true memColsC (by decide),
   claim_C9.2.2 ⟨1, 0, 0, 0, 0⟩ true sysColsC (by decide)⟩

end SP1
